import Mathlib

/-!
# BackdropFilterWin32: masked box blur and its frame pipeline

A shallow embedding of `src/BackdropFilterWin32.cpp`.

Number model.  An `int` of the shader is a 32-bit two's-complement integer: the cast
of a float to `int` saturates (`ftoi`), the negation `-radius` and the increment of a
loop variable are reduced by `wrapInt32`, the sum `(int)id.x + x` wraps around
(`addOffset`), and a `for` loop is run test by test (`forLoop`), so that a loop whose
bound is `INT_MAX` never ends.  A `uint` is a natural number.  A `float` is a rational
number, and every operation on floats takes the rounding of its result as a parameter:
under `exactArithmetic` nothing is rounded, under `binary32` every result is rounded to
the nearest 32-bit float.  `mainWith` is the shader entry point for a given rounding;
`main` is the shader in exact arithmetic, the reading under which the specification
words the blur contract, and `mainWith binary32` is the shader in 32-bit floats.  A
`float4` colour is four rationals, so a texel of a `B8G8R8A8_UNORM` texture is the
value the shader reads (the stored byte over 255) and a store is the value handed to
the texture before it is quantised (`toUNORM8`).

A dispatch of Direct3D 11 has at most 65535 groups in a dimension and a texture is at
most 16384 texels wide, and the window size is only ever 800, 600 or a `LOWORD` /
`HIWORD`.  So a thread coordinate and a texture dimension are below `2 ^ 31`: the casts
`(int)id.x` and `(int)textureWidth` and the group counts of the dispatch are the same
numbers in 32 bits and are written without a reduction.  On the C++ side the 32-bit
width is written out where the source stores a signed value that can be negative into
an unsigned field (the crop box, `toUINT`).
-/

namespace BackdropFilter

/-! ## Floats -/

/-- The rounding of exact arithmetic: a result is kept as it is. -/
def exactArithmetic (q : ℚ) : ℚ := q

/-- The integer nearest to `q`, a tie going to the even one. -/
def roundNearestEven (q : ℚ) : Int :=
  if q - ⌊q⌋ < 1 / 2 then ⌊q⌋
  else if 1 / 2 < q - ⌊q⌋ then ⌊q⌋ + 1
  else if ⌊q⌋ % 2 = 0 then ⌊q⌋ else ⌊q⌋ + 1

/-- The number `⌊log₂ n⌋` for `n ≥ 1`, by halving `n` at most `fuel` times (`fuel = n`
is more than enough). -/
def log2Nat : Nat → Nat → Nat
  | 0, _ => 0
  | fuel + 1, n => if n < 2 then 0 else log2Nat fuel (n / 2) + 1

/-- The binary exponent `⌊log₂ |q|⌋` of `q ≠ 0`. -/
def log2Floor (q : ℚ) : Int :=
  if (2 : ℚ) ^ ((log2Nat q.num.natAbs q.num.natAbs : Int) - (log2Nat q.den q.den : Int)) ≤ |q|
  then (log2Nat q.num.natAbs q.num.natAbs : Int) - (log2Nat q.den q.den : Int)
  else (log2Nat q.num.natAbs q.num.natAbs : Int) - (log2Nat q.den q.den : Int) - 1

/-- The rounding of 32-bit float arithmetic: the multiple of `2 ^ (e - 23)` nearest to
`q`, where `e` is the binary exponent of `q` (24 significant bits, round to nearest, a
tie to the even significand).  A result below `2 ^ (-126)` in magnitude is flushed to
zero, as Direct3D 11 does with denormal numbers.  A magnitude of `2 ^ 128` or more,
which a GPU turns into an infinity, is outside this model. -/
def binary32 (q : ℚ) : ℚ :=
  if |q| < 2 ^ (-126 : Int) then 0
  else roundNearestEven (q / 2 ^ (log2Floor q - 23)) * 2 ^ (log2Floor q - 23)

/-! ## The compute shader (`computeShaderSource`, lines 149-207) -/

/-- An HLSL `float4`, read as a colour `(r, g, b, a)`. -/
structure Float4 where
  r : ℚ
  g : ℚ
  b : ℚ
  a : ℚ
deriving DecidableEq

namespace Float4

/-- The colour `float4(0, 0, 0, 0)`. -/
def zero : Float4 := ⟨0, 0, 0, 0⟩

/-- Component-wise `+` of two `float4` values (`color += ...`), each sum rounded by
`rnd`. -/
def add (rnd : ℚ → ℚ) (p q : Float4) : Float4 :=
  ⟨rnd (p.r + q.r), rnd (p.g + q.g), rnd (p.b + q.b), rnd (p.a + q.a)⟩

/-- Division of a `float4` by a scalar (`color /= samples`), each quotient rounded by
`rnd`.  (Direct3D 11 allows a division an error of one unit in the last place; under
`binary32` the quotient is rounded correctly.) -/
def divScalar (rnd : ℚ → ℚ) (p : Float4) (s : ℚ) : Float4 :=
  ⟨rnd (p.r / s), rnd (p.g / s), rnd (p.b / s), rnd (p.a / s)⟩

end Float4

/-- A 2D texture: its dimensions and its texels. -/
structure Texture2D where
  width : Nat
  height : Nat
  texel : Nat → Nat → Float4

namespace Texture2D

/-- The read `tex[uint2(x, y)]`.  Direct3D returns zero for a read outside the
texture. -/
def load (t : Texture2D) (x y : Nat) : Float4 :=
  if x < t.width ∧ y < t.height then t.texel x y else Float4.zero

/-- The write `tex[uint2(x, y)] = c` through an unordered-access view.  Direct3D
discards a write outside the texture. -/
def store (t : Texture2D) (x y : Nat) (c : Float4) : Texture2D :=
  if x < t.width ∧ y < t.height then
    { t with texel := fun i j => if i = x ∧ j = y then c else t.texel i j }
  else t

/-- A texture of the given size with every texel equal to `c`. -/
def fill (w h : Nat) (c : Float4) : Texture2D := ⟨w, h, fun _ _ => c⟩

end Texture2D

/-- The constant buffer `BlurConstants` (lines 69-75 and 150-156). -/
structure BlurConstants where
  textureWidth : Nat
  textureHeight : Nat
  blurRadius : ℚ
  padding : ℚ

/-- The largest value of an `int`. -/
def INT_MAX : Int := 2147483647

/-- The smallest value of an `int`. -/
def INT_MIN : Int := -2147483648

/-- The `int` a result of `int` arithmetic is stored as: the value in
`[INT_MIN, INT_MAX]` that differs from `v` by a multiple of `2 ^ 32`. -/
def wrapInt32 (v : Int) : Int := (v + 2147483648) % 4294967296 - 2147483648

/-- The HLSL intrinsic `clamp(x, lo, hi)`, which is `min(max(x, lo), hi)`. -/
def clamp (x lo hi : Int) : Int := min (max x lo) hi

/-- The cast `(int)f` of a float (the instruction `ftoi`): the fraction is dropped
(rounding toward zero), and a value outside the range of `int` becomes the end of the
range on its side. -/
def ftoi (f : ℚ) : Int := clamp (Int.tdiv f.num f.den) INT_MIN INT_MAX

/-- The integers from `lo` to `hi`, in order. -/
def intRange (lo hi : Int) : List Int :=
  (List.range (hi + 1 - lo).toNat).map (fun (i : Nat) => lo + (i : Int))

/-- The statement `for (int v = lo; v <= hi; v++) body`, started with `v = lo` and
stopped after at most `fuel` evaluations of the test `v <= hi`.  The increment `v++`
wraps around at `INT_MAX`.  The result is `some` of the state in which the loop is
left, and `none` when the loop (or a loop inside `body`) has not been left by then. -/
def forLoop {α : Type} (hi : Int) (body : Int → α → Option α) : Nat → Int → α → Option α
  | 0, _, _ => none
  | fuel + 1, v, acc =>
    if v ≤ hi then
      match body v acc with
      | none => none
      | some acc' => forLoop hi body fuel (wrapInt32 (v + 1)) acc'
    else some acc

/-- One more than the number of values of an `int`.  The loop variable of a `for`
loop that is left takes each value at most once, so the loop is left within this many
tests; `forLoop_never_ends` shows that a loop not left within this many tests is not
left within any number of them. -/
def loopFuel : Nat := 4294967297

/-- The 32-bit sum `(int)id + x` of a thread coordinate and a loop offset (lines 188
and 189).  The coordinate is below `2 ^ 31`, so the sum leaves the range of `int` only
when a positive offset takes it above `INT_MAX`; it then wraps around to a negative
value (`addOffset_eq_wrapInt32`). -/
def addOffset (id : Nat) (x : Int) : Int :=
  if 0 < x ∧ INT_MAX < (id : Int) + x then (id : Int) + x - 4294967296 else (id : Int) + x

/-- The value of `sampleX` after line 192 for thread coordinate `idx` and loop
offset `x` (and of `sampleY` after line 193, with the height): the sum
`(int)id.x + x`, clamped to `[0, (int)textureWidth - 1]`. -/
def sampleCoord (idx : Nat) (x : Int) (dim : Nat) : Int :=
  clamp (addOffset idx x) 0 ((dim : Int) - 1)

/-- The conversion of the clamped `int`, which is not negative, to `uint` in
`uint2(sampleX, sampleY)`. -/
def toUInt (v : Int) : Nat := v.toNat

/-- The two nested loops of lines 184-198, each run for at most `fuel` tests: the pair
`(color, samples)` after them, starting from `(float4(0,0,0,0), 0)`, or `none` when
they have not been left.  Both loops start at `-radius`, computed in 32 bits. -/
def blurLoops (rnd : ℚ → ℚ) (fuel : Nat) (cb : BlurConstants) (InputTexture : Texture2D)
    (idx idy : Nat) (radius : Int) : Option (Float4 × ℚ) :=
  forLoop radius
    (fun x acc =>
      forLoop radius
        (fun y acc =>
          let sampleX := sampleCoord idx x cb.textureWidth
          let sampleY := sampleCoord idy y cb.textureHeight
          some (acc.1.add rnd (InputTexture.load (toUInt sampleX) (toUInt sampleY)),
            rnd (acc.2 + 1)))
        fuel (wrapInt32 (-radius)) acc)
    fuel (wrapInt32 (-radius)) (Float4.zero, 0)

/-- What becomes of a thread of the shader. -/
inductive ThreadResult
  /-- The thread returns: after the store `OutputTexture[id.xy] = c` (`some c`), or
  without having executed a store (`none`). -/
  | returned (write : Option Float4)
  /-- The thread never leaves the loops of lines 184-198. -/
  | neverReturns
deriving DecidableEq

/-- The store a thread has executed, if any. -/
def ThreadResult.stored : ThreadResult → Option Float4
  | ThreadResult.returned write => write
  | ThreadResult.neverReturns => none

/-- The compute shader entry point `main` for the thread with dispatch id
`(idx, idy, _)`, with float results rounded by `rnd`.  (For a negative radius the
loops add nothing and the source divides zero by zero; no statement below concerns
that case.) -/
def mainWith (rnd : ℚ → ℚ) (cb : BlurConstants) (InputTexture MaskTexture : Texture2D)
    (idx idy : Nat) : ThreadResult :=
  if idx ≥ cb.textureWidth ∨ idy ≥ cb.textureHeight then ThreadResult.returned none
  else
    let maskValue := MaskTexture.load idx idy
    if maskValue.a ≤ 0 then ThreadResult.returned (some ⟨0, 0, 0, 0⟩)
    else
      let radius := ftoi cb.blurRadius
      match blurLoops rnd loopFuel cb InputTexture idx idy radius with
      | none => ThreadResult.neverReturns
      | some acc =>
        let color := acc.1.divScalar rnd acc.2
        ThreadResult.returned (some { color with a := rnd (color.a * maskValue.a) })

/-- The compute shader entry point `main` in exact arithmetic. -/
def main (cb : BlurConstants) (InputTexture MaskTexture : Texture2D)
    (idx idy : Nat) : ThreadResult :=
  mainWith exactArithmetic cb InputTexture MaskTexture idx idy

/-- The pair `(color, samples)` the two loops of lines 184-198 accumulate when the loop
variables run through `-radius, ..., radius` one value after the other
(`blurLoops_eq_blurFold`: this is what the loops return for `0 ≤ radius < INT_MAX`). -/
def blurFold (rnd : ℚ → ℚ) (cb : BlurConstants) (InputTexture : Texture2D) (idx idy : Nat)
    (radius : Int) : Float4 × ℚ :=
  (intRange (-radius) radius).foldl
    (fun acc x =>
      (intRange (-radius) radius).foldl
        (fun acc y =>
          let sampleX := sampleCoord idx x cb.textureWidth
          let sampleY := sampleCoord idy y cb.textureHeight
          (acc.1.add rnd (InputTexture.load (toUInt sampleX) (toUInt sampleY)),
            rnd (acc.2 + 1)))
        acc)
    (Float4.zero, 0)

/-! ### The blur as the specification words it -/

/-- An index clamped to `[0, n-1]`. -/
def clampIndex (v : Int) (n : Nat) : Nat :=
  if v < 0 then 0 else if (n : Int) - 1 < v then n - 1 else v.toNat

/-- The unweighted mean of channel `ch` of the desktop over the `(2k+1)^2` offsets
`(dx, dy)` in `[-k, k]^2` around `(x, y)`, taken at edge-clamped coordinates. -/
def boxMean (desktop : Texture2D) (k : Int) (x y : Nat) (ch : Float4 → ℚ) : ℚ :=
  (∑ dx in Finset.Icc (-k) k, ∑ dy in Finset.Icc (-k) k,
    ch (desktop.texel (clampIndex ((x : Int) + dx) desktop.width)
      (clampIndex ((y : Int) + dy) desktop.height))) / ((2 * (k : ℚ) + 1) ^ 2)

/-- The channel sum the two loops accumulate, over the coordinates the code computes. -/
def loopSum (cb : BlurConstants) (InputTexture : Texture2D) (idx idy : Nat) (radius : Int)
    (ch : Float4 → ℚ) : ℚ :=
  ∑ x in Finset.Icc (-radius) radius, ∑ y in Finset.Icc (-radius) radius,
    ch (InputTexture.load (toUInt (sampleCoord idx x cb.textureWidth))
      (toUInt (sampleCoord idy y cb.textureHeight)))

/-! ## Dispatch of the compute shader -/

/-- The thread-group size `[numthreads(8, 8, 1)]` (line 162). -/
def numthreads : Nat × Nat × Nat := (8, 8, 1)

/-- The ids `SV_GroupID` of the groups launched by `Dispatch(X, Y, Z)`. -/
def threadGroups (X Y Z : Nat) : List (Nat × Nat × Nat) :=
  List.range X ×ˢ (List.range Y ×ˢ List.range Z)

/-- The ids `SV_GroupThreadID` of the threads of one group. -/
def groupThreads : List (Nat × Nat × Nat) :=
  List.range numthreads.1 ×ˢ (List.range numthreads.2.1 ×ˢ List.range numthreads.2.2)

/-- The threads launched by `Dispatch(X, Y, Z)`, each as (group id, id within the
group). -/
def dispatchThreads (X Y Z : Nat) : List ((Nat × Nat × Nat) × (Nat × Nat × Nat)) :=
  threadGroups X Y Z ×ˢ groupThreads

/-- The value `SV_DispatchThreadID` of a thread: group id times group size plus the id
within the group. -/
def SV_DispatchThreadID (t : (Nat × Nat × Nat) × (Nat × Nat × Nat)) : Nat × Nat × Nat :=
  (t.1.1 * numthreads.1 + t.2.1, t.1.2.1 * numthreads.2.1 + t.2.2.1,
    t.1.2.2 * numthreads.2.2 + t.2.2.2)

/-- The output texture after the threads with the given dispatch ids have run `main`.
The shader reads only `InputTexture` and `MaskTexture`, and a thread writes only the
texel of its own id; a thread that never returns has stored nothing. -/
def runThreads (cb : BlurConstants) (InputTexture MaskTexture : Texture2D)
    (OutputTexture : Texture2D) (ids : List (Nat × Nat × Nat)) : Texture2D :=
  ids.foldl
    (fun out id =>
      match (main cb InputTexture MaskTexture id.1 id.2.1).stored with
      | some c => out.store id.1 id.2.1 c
      | none => out)
    OutputTexture

/-! ## Device context, resources and application state -/

/-- The GPU textures of the program. -/
inductive Resource
  | backBuffer
  | desktopTexture
  | maskTexture
  | blurTexture
deriving DecidableEq

/-- A view (render-target, shader-resource or unordered-access) of a resource. -/
structure View where
  resource : Resource
deriving DecidableEq

/-- The bindings of the immediate context the program touches.  A slot holds `none`
when it is null. -/
structure DeviceContext where
  omRenderTargets : Nat → Option View
  psShaderResources : Nat → Option View
  csShaderResources : Nat → Option View
  csUnorderedAccessViews : Nat → Option View
  csConstantBuffers : Nat → Bool
  csShader : Bool

/-- Slots `start .. start + views.length - 1` are overwritten, the others kept
(`PSSetShaderResources`, `CSSetShaderResources`, `CSSetUnorderedAccessViews`). -/
def setSlots (slots : Nat → Option View) (start : Nat) (views : List (Option View)) :
    Nat → Option View :=
  fun i => if start ≤ i ∧ i < start + views.length then views.getD (i - start) none
    else slots i

namespace DeviceContext

/-- The call `OMSetRenderTargets(views.length, views, nullptr)`: the given views are
bound from slot 0 and every further render-target slot is unbound. -/
def OMSetRenderTargets (c : DeviceContext) (views : List (Option View)) : DeviceContext :=
  { c with omRenderTargets := fun i => views.getD i none }

/-- The call `PSSetShaderResources(start, views.length, views)`. -/
def PSSetShaderResources (c : DeviceContext) (start : Nat) (views : List (Option View)) :
    DeviceContext :=
  { c with psShaderResources := setSlots c.psShaderResources start views }

/-- The call `CSSetShaderResources(start, views.length, views)`. -/
def CSSetShaderResources (c : DeviceContext) (start : Nat) (views : List (Option View)) :
    DeviceContext :=
  { c with csShaderResources := setSlots c.csShaderResources start views }

/-- The call `CSSetUnorderedAccessViews(start, views.length, views, nullptr)`. -/
def CSSetUnorderedAccessViews (c : DeviceContext) (start : Nat)
    (views : List (Option View)) : DeviceContext :=
  { c with csUnorderedAccessViews := setSlots c.csUnorderedAccessViews start views }

/-- The call `CSSetShader(shader, nullptr, 0)`; `false` stands for a null shader. -/
def CSSetShader (c : DeviceContext) (shader : Bool) : DeviceContext :=
  { c with csShader := shader }

/-- The call `CSSetConstantBuffers(0, 1, &buffer)`; `false` stands for a null buffer. -/
def CSSetConstantBuffers (c : DeviceContext) (buffer : Bool) : DeviceContext :=
  { c with csConstantBuffers := fun i => if i = 0 then buffer else c.csConstantBuffers i }

end DeviceContext

/-- The fields of `struct Application` (lines 12-57) the frame pipeline uses.  A handle
is `none` (or `false`) when the pointer is null; a duplication handle is a number
naming the duplication object.  The window size is a natural number: the source
assigns it only 800, 600 and the `LOWORD` / `HIWORD` of a message parameter. -/
structure Application where
  swapChain : Bool
  renderTargetView : Option View
  windowWidth : Nat
  windowHeight : Nat
  isRunning : Bool
  desktopDuplication : Option Nat
  desktopSRV : Option View
  desktopRTV : Option View
  blurComputeShader : Bool
  blurOutputSRV : Option View
  blurOutputUAV : Option View
  blurOutputRTV : Option View
  blurConstantBuffer : Bool
  maskSRV : Option View
  maskRTV : Option View

/-- The program state: `g_Application`, the context bindings, and the GPU memory
(texture contents and the contents of the blur constant buffer). -/
structure State where
  app : Application
  ctx : DeviceContext
  textures : Resource → Texture2D
  constants : BlurConstants
  releasedDuplications : List Nat
  nextDuplication : Nat

/-- The result of `AcquireNextFrame`. -/
inductive AcquireResult
  | S_OK (frame : Texture2D)
  | DXGI_ERROR_WAIT_TIMEOUT
  | DXGI_ERROR_ACCESS_LOST
  | E_FAIL

/-- A `RECT` of signed 32-bit coordinates. -/
structure RECT where
  left : Int
  top : Int
  right : Int
  bottom : Int

/-- A `D3D11_BOX` of unsigned 32-bit coordinates. -/
structure D3D11_BOX where
  left : Nat
  top : Nat
  front : Nat
  right : Nat
  bottom : Nat
  back : Nat
deriving DecidableEq

/-- What the system answers during one frame: the results of the two
`AcquireNextFrame` calls, whether `DuplicateOutput` succeeds, the window rectangle,
whether `Map` succeeds, and the fragments the rasteriser produces for the triangle
and for the full-screen quad sampling a texture. -/
structure FrameEnv where
  acquire0 : AcquireResult
  acquire1 : AcquireResult
  duplicateOutputOk : Bool
  windowRect : RECT
  mapOk : Bool
  triangle : Nat → Nat → Option Float4
  quad : Texture2D → Nat → Nat → Option Float4

/-- The conversion of a signed 32-bit value to `UINT`. -/
def toUINT (v : Int) : Nat := (v % 4294967296).toNat

/-- Replace the texture of one resource. -/
def setTexture (textures : Resource → Texture2D) (r : Resource) (t : Texture2D) :
    Resource → Texture2D :=
  fun r' => if r' = r then t else textures r'

/-- The call `ClearRenderTargetView(view, {0, 0, 0, 0})`. -/
def ClearRenderTargetView (s : State) (view : Option View) : State :=
  match view with
  | none => s
  | some v =>
    let t := s.textures v.resource
    { s with textures := setTexture s.textures v.resource
                           (Texture2D.fill t.width t.height Float4.zero) }

/-- A draw call: the fragments are written to the texture bound as render target 0. -/
def Draw (s : State) (fragments : Nat → Nat → Option Float4) : State :=
  match s.ctx.omRenderTargets 0 with
  | none => s
  | some v =>
    let t := s.textures v.resource
    let drawn : Texture2D :=
      { t with texel := fun x y =>
                 if x < t.width ∧ y < t.height then (fragments x y).getD (t.texel x y)
                 else t.texel x y }
    { s with textures := setTexture s.textures v.resource drawn }

/-- The texture a shader reads through a slot; a null slot reads as zero. -/
def boundTexture (s : State) (slot : Option View) : Texture2D :=
  match slot with
  | none => Texture2D.fill 0 0 Float4.zero
  | some v => s.textures v.resource

/-- The call `Dispatch(X, Y, Z)` with the blur shader: every launched thread runs
`main` on the textures bound at `t0`, `t1`, writing through the view bound at `u0`,
with the constants of the buffer bound at `b0`. -/
def Dispatch (s : State) (X Y Z : Nat) : State :=
  if s.ctx.csShader then
    match s.ctx.csUnorderedAccessViews 0 with
    | none => s
    | some u =>
      let cb : BlurConstants :=
        if s.ctx.csConstantBuffers 0 then s.constants else ⟨0, 0, 0, 0⟩
      let output := runThreads cb (boundTexture s (s.ctx.csShaderResources 0))
        (boundTexture s (s.ctx.csShaderResources 1)) (s.textures u.resource)
        ((dispatchThreads X Y Z).map SV_DispatchThreadID)
      { s with textures := setTexture s.textures u.resource output }
  else s

/-! ## The frame pipeline -/

/-- The function `InitializeDesktopCapture` (lines 363-391), as far as the duplication
handle goes: on success `desktopDuplication` names a new duplication object, on
failure it is null.  The result is `SUCCEEDED(hr)`. -/
def InitializeDesktopCapture (duplicateOutputOk : Bool) (s : State) : State × Bool :=
  if duplicateOutputOk then
    ({ s with app := { s.app with desktopDuplication := some s.nextDuplication }
              nextDuplication := s.nextDuplication + 1 }, true)
  else ({ s with app := { s.app with desktopDuplication := none } }, false)

/-- The source box of lines 652-658: the window rectangle stored into `UINT` fields. -/
def sourceBox (windowRect : RECT) : D3D11_BOX :=
  { left := toUINT windowRect.left
    top := toUINT windowRect.top
    right := toUINT windowRect.right
    bottom := toUINT windowRect.bottom
    front := 0
    back := 1 }

/-- The call `CopySubresourceRegion(dst, 0, 0, 0, 0, src, 0, &box)`: the box of the
source is copied to the destination at `(0, 0)`.  An empty box copies nothing; a box
that leaves the source or does not fit the destination is dropped. -/
def CopySubresourceRegion (dst src : Texture2D) (box : D3D11_BOX) : Texture2D :=
  if box.right ≤ box.left ∨ box.bottom ≤ box.top ∨ box.back ≤ box.front then dst
  else if box.right ≤ src.width ∧ box.bottom ≤ src.height ∧ box.back ≤ 1 ∧
      box.right - box.left ≤ dst.width ∧ box.bottom - box.top ≤ dst.height then
    { dst with texel := fun x y =>
                 if x < box.right - box.left ∧ y < box.bottom - box.top then
                   src.texel (box.left + x) (box.top + y)
                 else dst.texel x y }
  else dst

/-- The function `GrabDesktopBehindWindow` (lines 610-676).  The result is `none` when
the call through a null `desktopDuplication` faults, and otherwise the new state with
the returned flag. -/
def GrabDesktopBehindWindow (env : FrameEnv) (s : State) : Option (State × Bool) :=
  match s.app.desktopDuplication with
  | none => none
  | some d =>
    let hr :=
      match env.acquire0 with
      | AcquireResult.DXGI_ERROR_WAIT_TIMEOUT => env.acquire1
      | r => r
    match hr with
    | AcquireResult.DXGI_ERROR_WAIT_TIMEOUT => some (s, false)
    | AcquireResult.DXGI_ERROR_ACCESS_LOST =>
      let s1 : State :=
        { s with releasedDuplications := d :: s.releasedDuplications
                 app := { s.app with desktopDuplication := none } }
      some ((InitializeDesktopCapture env.duplicateOutputOk s1).1, false)
    | AcquireResult.E_FAIL => some (s, false)
    | AcquireResult.S_OK acquiredDesktopImage =>
      let copied := CopySubresourceRegion (s.textures Resource.desktopTexture)
        acquiredDesktopImage (sourceBox env.windowRect)
      some ({ s with textures := setTexture s.textures Resource.desktopTexture copied },
        true)

/-- Lines 684-718 of `ApplyBlurEffect`: the constant buffer is updated when `Map`
succeeds, then the pixel-shader resources 0..2 and the render targets are unbound and
the compute stage is bound.  The result is the state in which `Dispatch` is called. -/
def bindBlur (env : FrameEnv) (s : State) (blurRadius : ℚ) : State :=
  let s1 : State :=
    if env.mapOk then
      { s with constants := ⟨s.app.windowWidth, s.app.windowHeight, blurRadius, 0⟩ }
    else s
  let c := s1.ctx.PSSetShaderResources 0 [none, none, none]
  let c := c.OMSetRenderTargets []
  let c := c.CSSetShader s.app.blurComputeShader
  let c := c.CSSetConstantBuffers s.app.blurConstantBuffer
  let c := c.CSSetShaderResources 0 [s.app.desktopSRV, s.app.maskSRV]
  let c := c.CSSetUnorderedAccessViews 0 [s.app.blurOutputUAV]
  { s1 with ctx := c }

/-- The arguments of the `Dispatch` call (lines 721-723). -/
def dispatchSize (windowWidth windowHeight : Nat) : Nat × Nat × Nat :=
  ((windowWidth + 7) / 8, (windowHeight + 7) / 8, 1)

/-- Lines 726-730 of `ApplyBlurEffect`: the compute stage is unbound. -/
def unbindBlur (s : State) : State :=
  let c := s.ctx.CSSetUnorderedAccessViews 0 [none, none, none]
  let c := c.CSSetShaderResources 0 [none, none, none]
  let c := c.CSSetShader false
  { s with ctx := c }

/-- Whether `ApplyBlurEffect` gets past its guard (line 680) and dispatches. -/
def blurDispatches (s : State) : Bool :=
  s.app.blurComputeShader && s.app.desktopSRV.isSome

/-- The function `ApplyBlurEffect` (lines 678-731). -/
def ApplyBlurEffect (env : FrameEnv) (s : State) (blurRadius : ℚ) : State :=
  if blurDispatches s then
    let s1 := bindBlur env s blurRadius
    let size := dispatchSize s.app.windowWidth s.app.windowHeight
    unbindBlur (Dispatch s1 size.1 size.2.1 size.2.2)
  else s

/-- The function `RenderTriangle` (lines 783-802): the draw of the triangle. -/
def RenderTriangle (env : FrameEnv) (s : State) : State := Draw s env.triangle

/-- The function `RenderBlurQuad` (lines 758-781): `blurOutputSRV` is bound to the
pixel shader at `t0` and the full-screen quad is drawn, sampling it. -/
def RenderBlurQuad (env : FrameEnv) (s : State) : State :=
  let s1 : State := { s with ctx := s.ctx.PSSetShaderResources 0 [s.app.blurOutputSRV] }
  Draw s1 (env.quad (boundTexture s1 (s1.ctx.psShaderResources 0)))

/-- The default argument of `ApplyBlurEffect`, `13.0f`. -/
def defaultBlurRadius : ℚ := 13

/-- Lines 806-816 of `Render`: the clears, the mask pass and the desktop capture.
The result is the state in which `ApplyBlurEffect` is called. -/
def renderCapture (env : FrameEnv) (s : State) : Option State :=
  let s := ClearRenderTargetView s s.app.renderTargetView
  let s := ClearRenderTargetView s s.app.desktopRTV
  let s := ClearRenderTargetView s s.app.blurOutputRTV
  let s := ClearRenderTargetView s s.app.maskRTV
  let s : State := { s with ctx := s.ctx.OMSetRenderTargets [s.app.maskRTV] }
  let s := RenderTriangle env s
  let s : State := { s with ctx := s.ctx.OMSetRenderTargets [s.app.renderTargetView] }
  (GrabDesktopBehindWindow env s).map Prod.fst

/-- Lines 820-825 of `Render`: the blurred image is drawn to the back buffer. -/
def renderPresent (env : FrameEnv) (s : State) : State :=
  let s : State := { s with ctx := s.ctx.OMSetRenderTargets [s.app.renderTargetView] }
  RenderBlurQuad env s

/-- The function `Render` (lines 804-826); `none` when the frame faults. -/
def Render (env : FrameEnv) (s : State) : Option State :=
  (renderCapture env s).map
    (fun s => renderPresent env (ApplyBlurEffect env s defaultBlurRadius))

/-- The state in which `ApplyBlurEffect` calls `Dispatch` during `Render`, when it
does. -/
def Render.atDispatch (env : FrameEnv) (s : State) : Option State :=
  (renderCapture env s).bind
    (fun s => if blurDispatches s then some (bindBlur env s defaultBlurRadius) else none)

/-! ## Window messages and start-up -/

/-- The macro `LOWORD`. -/
def LOWORD (l : Nat) : Nat := l % 65536

/-- The macro `HIWORD`. -/
def HIWORD (l : Nat) : Nat := (l / 65536) % 65536

/-- The messages `WindowProc` handles, with what the system answers while they are
handled. -/
inductive Message
  | WM_DESTROY
  | WM_NCHITTEST
  | WM_SIZE (lParam : Nat) (resizeBuffersOk createViewOk : Bool)
  | WM_MOVE (env : FrameEnv)

/-- The function `WindowProc` (lines 855-913); `none` when the handler faults. -/
def WindowProc (m : Message) (s : State) : Option State :=
  match m with
  | Message.WM_DESTROY => some { s with app := { s.app with isRunning := false } }
  | Message.WM_NCHITTEST => some s
  | Message.WM_SIZE lParam resizeBuffersOk createViewOk =>
    if s.app.swapChain then
      let w := LOWORD lParam
      let h := HIWORD lParam
      let backBuffer : Texture2D :=
        if resizeBuffersOk then Texture2D.fill w h Float4.zero
        else s.textures Resource.backBuffer
      some { s with
        app := { s.app with
          windowWidth := w
          windowHeight := h
          renderTargetView := if createViewOk then some ⟨Resource.backBuffer⟩ else none }
        textures := setTexture s.textures Resource.backBuffer backBuffer }
    else some s
  | Message.WM_MOVE env => if s.app.swapChain then Render env s else some s

/-- The struct `g_Application` after lines 918-937 of `WinMain` when every
initialisation call succeeds: `InitializeWindow(800, 600)` sets the size, and each view
is created on its texture (lines 332-346, 503, 531-537). -/
def startApp : Application :=
  { swapChain := true
    renderTargetView := some ⟨Resource.backBuffer⟩
    windowWidth := 800
    windowHeight := 600
    isRunning := true
    desktopDuplication := some 0
    desktopSRV := some ⟨Resource.desktopTexture⟩
    desktopRTV := some ⟨Resource.desktopTexture⟩
    blurComputeShader := true
    blurOutputSRV := some ⟨Resource.blurTexture⟩
    blurOutputUAV := some ⟨Resource.blurTexture⟩
    blurOutputRTV := some ⟨Resource.blurTexture⟩
    blurConstantBuffer := true
    maskSRV := some ⟨Resource.maskTexture⟩
    maskRTV := some ⟨Resource.maskTexture⟩ }

/-- The state after lines 918-937 of `WinMain` when every initialisation call
succeeds: the window is 800 x 600, every texture has the window's size, every handle
is set and nothing is bound.  The contents of the new textures and of the constant
buffer are whatever the memory holds. -/
def initialState (memory : Resource → Nat → Nat → Float4) (cb : BlurConstants) : State :=
  { app := startApp
    ctx :=
      { omRenderTargets := fun _ => none
        psShaderResources := fun _ => none
        csShaderResources := fun _ => none
        csUnorderedAccessViews := fun _ => none
        csConstantBuffers := fun _ => false
        csShader := false }
    textures := fun r => ⟨800, 600, memory r⟩
    constants := cb
    releasedDuplications := []
    nextDuplication := 1 }

/-- The states the program reaches from start-up by window messages and by frames of
the main loop (lines 948-963). -/
inductive Reachable : State → Prop
  | start (memory : Resource → Nat → Nat → Float4) (cb : BlurConstants) :
      Reachable (initialState memory cb)
  | message {s s' : State} (m : Message) :
      Reachable s → WindowProc m s = some s' → Reachable s'
  | frame {s s' : State} (env : FrameEnv) :
      Reachable s → s.app.isRunning = true → Render env s = some s' → Reachable s'

/-- What holds of every reachable state: the handles created at start-up are
unchanged, the render-target view of the back buffer is null or a view of the back
buffer, no compute-stage resource or unordered-access slot is bound between frames,
and the three offscreen textures have their creation size. -/
structure WellFormed (s : State) : Prop where
  swapChain : s.app.swapChain = true
  renderTargetView : s.app.renderTargetView = none ∨
    s.app.renderTargetView = some ⟨Resource.backBuffer⟩
  desktopSRV : s.app.desktopSRV = some ⟨Resource.desktopTexture⟩
  desktopRTV : s.app.desktopRTV = some ⟨Resource.desktopTexture⟩
  blurComputeShader : s.app.blurComputeShader = true
  blurOutputSRV : s.app.blurOutputSRV = some ⟨Resource.blurTexture⟩
  blurOutputUAV : s.app.blurOutputUAV = some ⟨Resource.blurTexture⟩
  blurOutputRTV : s.app.blurOutputRTV = some ⟨Resource.blurTexture⟩
  blurConstantBuffer : s.app.blurConstantBuffer = true
  maskSRV : s.app.maskSRV = some ⟨Resource.maskTexture⟩
  maskRTV : s.app.maskRTV = some ⟨Resource.maskTexture⟩
  csShaderResources : ∀ i, s.ctx.csShaderResources i = none
  csUnorderedAccessViews : ∀ i, s.ctx.csUnorderedAccessViews i = none
  desktopSize : (s.textures Resource.desktopTexture).width = 800 ∧
    (s.textures Resource.desktopTexture).height = 600
  maskSize : (s.textures Resource.maskTexture).width = 800 ∧
    (s.textures Resource.maskTexture).height = 600
  blurSize : (s.textures Resource.blurTexture).width = 800 ∧
    (s.textures Resource.blurTexture).height = 600

/-! ## Concrete inputs -/

/-- The 16 x 16 desktop filled with `(128, 128, 128, 255)` (scenario "uniform blur"). -/
def greyDesktop : Texture2D := Texture2D.fill 16 16 ⟨128 / 255, 128 / 255, 128 / 255, 1⟩

/-- The 16 x 16 mask with alpha 1 everywhere. -/
def fullMask : Texture2D := Texture2D.fill 16 16 ⟨0, 0, 0, 1⟩

/-- The 16 x 16 red desktop (scenario "mask gating"). -/
def redDesktop : Texture2D := Texture2D.fill 16 16 ⟨1, 0, 0, 1⟩

/-- The 16 x 16 mask with alpha 1/2 inside the centred 4 x 4 square and 0 outside. -/
def squareMask : Texture2D :=
  ⟨16, 16, fun x y =>
    if 6 ≤ x ∧ x < 10 ∧ 6 ≤ y ∧ y < 10 then ⟨0, 0, 0, 1 / 2⟩ else ⟨0, 0, 0, 0⟩⟩

/-- A 4 x 4 desktop whose texel `(i, j)` holds `i + 4 j` in every channel. -/
def rampDesktop : Texture2D := ⟨4, 4, fun i j => ⟨i + 4 * j, i + 4 * j, i + 4 * j, 1⟩⟩

/-- The 4 x 4 mask with alpha 1 everywhere. -/
def rampMask : Texture2D := Texture2D.fill 4 4 ⟨0, 0, 0, 1⟩

/-- The float a shader reads from a byte of a `UNORM` texture: the byte over 255,
rounded to a 32-bit float. -/
def fromUNORM8 (b : Nat) : ℚ := binary32 ((b : ℚ) / 255)

/-- The 16 x 16 desktop filled with `(b, b, b, 255)`, as a shader reads it in 32-bit
floats. -/
def greyDesktop32 (b : Nat) : Texture2D :=
  Texture2D.fill 16 16 ⟨fromUNORM8 b, fromUNORM8 b, fromUNORM8 b, fromUNORM8 255⟩

/-- The pair `(color, samples)` after `n` samples of the same colour `c`. -/
def uniformAccumulate (rnd : ℚ → ℚ) (c : Float4) (n : Nat) : Float4 × ℚ :=
  (fun acc : Float4 × ℚ => (acc.1.add rnd c, rnd (acc.2 + 1)))^[n] (Float4.zero, 0)

/-- Memory that holds zero everywhere. -/
def blankMemory : Resource → Nat → Nat → Float4 := fun _ _ _ => Float4.zero

/-- A constant buffer that holds zero. -/
def blankConstants : BlurConstants := ⟨0, 0, 0, 0⟩

/-- A frame in which both `AcquireNextFrame` calls time out; the window sits at the
top-left corner of the screen and the mask pass covers the block of pixels
`[350, 450) x [300, 440)`, inside the triangle, with opaque green. -/
def quietFrame : FrameEnv :=
  { acquire0 := AcquireResult.DXGI_ERROR_WAIT_TIMEOUT
    acquire1 := AcquireResult.DXGI_ERROR_WAIT_TIMEOUT
    duplicateOutputOk := true
    windowRect := ⟨0, 0, 800, 600⟩
    mapOk := true
    triangle := fun x y =>
      if 350 ≤ x ∧ x < 450 ∧ 300 ≤ y ∧ y < 440 then some ⟨0, 1, 0, 1⟩ else none
    quad := fun t x y => some (t.load x y) }

/-- The same frame, except that the first `AcquireNextFrame` delivers a 1920 x 1080
desktop image that is white everywhere. -/
def captureFrame : FrameEnv :=
  { quietFrame with acquire0 := AcquireResult.S_OK (Texture2D.fill 1920 1080 ⟨1, 1, 1, 1⟩) }

/-! ## The capture step inside a frame -/

/-- Lines 806-815 of `Render`: the state in which `GrabDesktopBehindWindow` is called. -/
def Render.atGrab (env : FrameEnv) (s : State) : State :=
  let s := ClearRenderTargetView s s.app.renderTargetView
  let s := ClearRenderTargetView s s.app.desktopRTV
  let s := ClearRenderTargetView s s.app.blurOutputRTV
  let s := ClearRenderTargetView s s.app.maskRTV
  let s : State := { s with ctx := s.ctx.OMSetRenderTargets [s.app.maskRTV] }
  let s := RenderTriangle env s
  { s with ctx := s.ctx.OMSetRenderTargets [s.app.renderTargetView] }

/-- The result `hr` tested at line 623: that of the second `AcquireNextFrame` when the
first timed out, and that of the first otherwise. -/
def acquireResult (env : FrameEnv) : AcquireResult :=
  match env.acquire0 with
  | AcquireResult.DXGI_ERROR_WAIT_TIMEOUT => env.acquire1
  | r => r

/-- The duplication handles are used once: the current handle, if any, and every
released handle were handed out before `nextDuplication`, and the current handle has
not been released. -/
def DuplicationsFresh (s : State) : Prop :=
  (∀ d, s.app.desktopDuplication = some d →
    d < s.nextDuplication ∧ d ∉ s.releasedDuplications) ∧
  (∀ r, r ∈ s.releasedDuplications → r < s.nextDuplication)

/-- A frame whose first `AcquireNextFrame` reports access-lost and in which
`DuplicateOutput` fails. -/
def lostFrame : FrameEnv :=
  { quietFrame with acquire0 := AcquireResult.DXGI_ERROR_ACCESS_LOST
                    duplicateOutputOk := false }

/-- The capture frame, except that `Map` fails. -/
def mapFailFrame : FrameEnv := { captureFrame with mapOk := false }

/-- A frame whose first `AcquireNextFrame` reports access-lost and in which
`DuplicateOutput` succeeds. -/
def lostRecoverFrame : FrameEnv :=
  { quietFrame with acquire0 := AcquireResult.DXGI_ERROR_ACCESS_LOST }

/-! ## The edge-clamp scenario -/

/-- The 8 x 8 desktop whose texel `(0, 0)` is `(1, 1, 1, 255)` and whose other texels
are `(0, 0, 0, 255)`, as the shader reads it (bytes over 255). -/
def edgeDesktop : Texture2D :=
  ⟨8, 8, fun x y =>
    if x = 0 ∧ y = 0 then ⟨1 / 255, 1 / 255, 1 / 255, 1⟩ else ⟨0, 0, 0, 1⟩⟩

/-- The 8 x 8 mask with alpha 1 everywhere. -/
def edgeMask : Texture2D := Texture2D.fill 8 8 ⟨0, 0, 0, 1⟩

/-- The texel coordinates `uint2(sampleX, sampleY)` the two loops of lines 184-198
read, in the order of the iterations, for a radius in `[0, INT_MAX)`
(`blurLoops_eq_foldl_blurSamples`). -/
def blurSamples (cb : BlurConstants) (idx idy : Nat) (radius : Int) : List (Nat × Nat) :=
  (intRange (-radius) radius).flatMap fun x =>
    (intRange (-radius) radius).map fun y =>
      (toUInt (sampleCoord idx x cb.textureWidth), toUInt (sampleCoord idy y cb.textureHeight))

/-- The byte a `B8G8R8A8_UNORM` texture stores for a channel value: the value is
clamped to `[0, 1]`, scaled by 255 and rounded to the nearest integer. -/
def toUNORM8 (q : ℚ) : Nat := ⌊min (max q 0) 1 * 255 + 1 / 2⌋.toNat

/-- The four bytes stored for a colour, in the order `(r, g, b, a)`. -/
def quantise (c : Float4) : Nat × Nat × Nat × Nat :=
  (toUNORM8 c.r, toUNORM8 c.g, toUNORM8 c.b, toUNORM8 c.a)

/-! ## Start-up and the main loop (`WinMain`, lines 915-967) -/

/-- Which of the calls made during initialisation succeed. -/
structure InitEnv where
  registerClass : Bool
  createWindow : Bool
  createDevice : Bool
  createSwapChain : Bool
  createBackBufferView : Bool
  createDesktopTexture : Bool
  createDesktopSRV : Bool
  createDesktopRTV : Bool
  createMaskTexture : Bool
  createMaskSRV : Bool
  createMaskRTV : Bool
  createTriangleBuffer : Bool
  compileTriangleVS : Bool
  createTriangleVS : Bool
  createTriangleLayout : Bool
  compileTrianglePS : Bool
  createTrianglePS : Bool
  duplicateOutput : Bool
  createQuadBuffer : Bool
  compileQuadVS : Bool
  createQuadVS : Bool
  createQuadLayout : Bool
  compileQuadPS : Bool
  createQuadPS : Bool
  createSampler : Bool
  compileBlurCS : Bool
  createBlurCS : Bool
  createBlurTexture : Bool
  createBlurUAV : Bool
  createBlurRTV : Bool
  createBlurSRV : Bool
  createBlurBuffer : Bool

/-- The result of `InitializeWindow` (lines 393-433). -/
def InitializeWindow (init : InitEnv) : Bool :=
  init.registerClass && init.createWindow

/-- The result of `InitializeDirectX` (lines 435-540): the device, the swap chain and
the back-buffer view are tested; the offscreen textures and views are not. -/
def InitializeDirectX (init : InitEnv) : Bool :=
  init.createDevice && init.createSwapChain && init.createBackBufferView

/-- The result of `InitializeTriangle` (lines 211-270). -/
def InitializeTriangle (init : InitEnv) : Bool :=
  init.createTriangleBuffer && init.compileTriangleVS && init.createTriangleVS &&
    init.createTriangleLayout && init.compileTrianglePS && init.createTrianglePS

/-- The result of `InitializeQuad` (lines 542-608). -/
def InitializeQuad (init : InitEnv) : Bool :=
  init.createQuadBuffer && init.compileQuadVS && init.createQuadVS &&
    init.createQuadLayout && init.compileQuadPS && init.createQuadPS && init.createSampler

/-- Whether `InitializeBlurComputeShader` (lines 273-361) returns a success code.  The
result of creating the unordered-access view is overwritten at line 333 and not
tested. -/
def InitializeBlurComputeShader (init : InitEnv) : Bool :=
  init.compileBlurCS && init.createBlurCS && init.createBlurTexture &&
    init.createBlurRTV && init.createBlurSRV && init.createBlurBuffer

/-- A view of a resource when the creation call is reached and succeeds, and null
otherwise. -/
def createdView (ok : Bool) (r : Resource) : Option View :=
  if ok then some ⟨r⟩ else none

/-- The state when the main loop is about to start (after lines 932-937), given that
`InitializeWindow` and `InitializeDirectX` succeeded: the results of
`InitializeTriangle`, `InitializeDesktopCapture`, `InitializeQuad` and
`InitializeBlurComputeShader` are not looked at, each handle is set when its creation
call was reached and succeeded, and a texture that was not created has no texels. -/
def startState (init : InitEnv) (memory : Resource → Nat → Nat → Float4)
    (cb : BlurConstants) : State :=
  let blurShader := init.compileBlurCS && init.createBlurCS
  let blurTexture := blurShader && init.createBlurTexture
  let blurRTV := blurTexture && init.createBlurRTV
  let blurSRV := blurRTV && init.createBlurSRV
  let s : State :=
    { app :=
        { swapChain := true
          renderTargetView := some ⟨Resource.backBuffer⟩
          windowWidth := 800
          windowHeight := 600
          isRunning := true
          desktopDuplication := none
          desktopSRV := createdView (init.createDesktopTexture && init.createDesktopSRV)
            Resource.desktopTexture
          desktopRTV := createdView (init.createDesktopTexture && init.createDesktopRTV)
            Resource.desktopTexture
          blurComputeShader := blurShader
          blurOutputSRV := createdView blurSRV Resource.blurTexture
          blurOutputUAV := createdView (blurTexture && init.createBlurUAV) Resource.blurTexture
          blurOutputRTV := createdView blurRTV Resource.blurTexture
          blurConstantBuffer := blurSRV && init.createBlurBuffer
          maskSRV := createdView (init.createMaskTexture && init.createMaskSRV)
            Resource.maskTexture
          maskRTV := createdView (init.createMaskTexture && init.createMaskRTV)
            Resource.maskTexture }
      ctx :=
        { omRenderTargets := fun _ => none
          psShaderResources := fun _ => none
          csShaderResources := fun _ => none
          csUnorderedAccessViews := fun _ => none
          csConstantBuffers := fun _ => false
          csShader := false }
      textures := fun r =>
        match r with
        | Resource.backBuffer => ⟨800, 600, memory r⟩
        | Resource.desktopTexture =>
          if init.createDesktopTexture then ⟨800, 600, memory r⟩ else ⟨0, 0, memory r⟩
        | Resource.maskTexture =>
          if init.createMaskTexture then ⟨800, 600, memory r⟩ else ⟨0, 0, memory r⟩
        | Resource.blurTexture =>
          if blurTexture then ⟨800, 600, memory r⟩ else ⟨0, 0, memory r⟩
      constants := cb
      releasedDuplications := []
      nextDuplication := 0 }
  (InitializeDesktopCapture init.duplicateOutput s).1

/-- How a run of `WinMain` ends, with the number of frames the main loop rendered:
it returns an exit code, it faults, or it is still running when the given messages
and frames are used up. -/
inductive Outcome
  | exit (code : Int) (frames : Nat)
  | fault (frames : Nat)
  | running (frames : Nat)
deriving DecidableEq

/-- One iteration of the main loop: the messages the inner `PeekMessage` loop
dispatches, and what the system answers during the frame. -/
structure LoopStep where
  messages : List Message
  frame : FrameEnv

/-- The messages are handled by `WindowProc`, one after the other. -/
def dispatchMessages : List Message → State → Option State
  | [], s => some s
  | m :: ms, s => (WindowProc m s).bind (dispatchMessages ms)

/-- The main loop (lines 948-966), after which `WinMain` returns 0. -/
def mainLoop : List LoopStep → State → Nat → Outcome
  | [], s, frames => if s.app.isRunning then Outcome.running frames else Outcome.exit 0 frames
  | step :: rest, s, frames =>
    if s.app.isRunning then
      match dispatchMessages step.messages s with
      | none => Outcome.fault frames
      | some s1 =>
        if s1.app.isRunning then
          match Render step.frame s1 with
          | none => Outcome.fault frames
          | some s2 => mainLoop rest s2 (frames + 1)
        else Outcome.exit 0 frames
    else Outcome.exit 0 frames

/-- The function `WinMain` (lines 915-967).  `shown` are the messages the window
receives while it is shown (lines 943-944), `loop` the iterations of the main loop. -/
def WinMain (init : InitEnv) (memory : Resource → Nat → Nat → Float4) (cb : BlurConstants)
    (shown : List Message) (loop : List LoopStep) : Outcome :=
  if InitializeWindow init then
    if InitializeDirectX init then
      match dispatchMessages shown (startState init memory cb) with
      | none => Outcome.fault 0
      | some s => mainLoop loop s 0
    else Outcome.exit (-1) 0
  else Outcome.exit (-1) 0

/-- Whether a message is `WM_DESTROY`. -/
def Message.isDestroy : Message → Bool
  | Message.WM_DESTROY => true
  | _ => false

/-- Every initialisation call succeeds. -/
def allOk : InitEnv :=
  { registerClass := true, createWindow := true, createDevice := true,
    createSwapChain := true, createBackBufferView := true, createDesktopTexture := true,
    createDesktopSRV := true, createDesktopRTV := true, createMaskTexture := true,
    createMaskSRV := true, createMaskRTV := true, createTriangleBuffer := true,
    compileTriangleVS := true, createTriangleVS := true, createTriangleLayout := true,
    compileTrianglePS := true, createTrianglePS := true, duplicateOutput := true,
    createQuadBuffer := true, compileQuadVS := true, createQuadVS := true,
    createQuadLayout := true, compileQuadPS := true, createQuadPS := true,
    createSampler := true, compileBlurCS := true, createBlurCS := true,
    createBlurTexture := true, createBlurUAV := true, createBlurRTV := true,
    createBlurSRV := true, createBlurBuffer := true }

/-- A frame in which both acquires time out and nothing is drawn into the mask. -/
def emptyMaskFrame : FrameEnv := { quietFrame with triangle := fun _ _ => none }

/-! ## Lemmas on the shader -/

theorem length_intRange (lo hi : Int) : (intRange lo hi).length = (hi + 1 - lo).toNat := by
  simp [intRange]

theorem sum_map_intRange (lo hi : Int) (f : Int → ℚ) :
    ((intRange lo hi).map f).sum = ∑ x in Finset.Icc lo hi, f x := by
  rw [Int.Icc_eq_finset_map, Finset.sum_map, intRange, List.map_map]
  generalize (hi + 1 - lo).toNat = n
  induction n with
  | zero => simp
  | succ n ih =>
    rw [List.range_succ, List.map_append, List.sum_append, ih, Finset.sum_range_succ]
    simp

theorem intRange_of_lt {lo hi : Int} (h : hi < lo) : intRange lo hi = [] := by
  unfold intRange
  have h0 : (hi + 1 - lo).toNat = 0 := by omega
  rw [h0]
  rfl

theorem intRange_cons {lo hi : Int} (h : lo ≤ hi) :
    intRange lo hi = lo :: intRange (lo + 1) hi := by
  unfold intRange
  have h1 : (hi + 1 - lo).toNat = (hi + 1 - (lo + 1)).toNat + 1 := by omega
  rw [h1, List.range_succ_eq_map, List.map_cons, List.map_map]
  refine congrArg₂ _ (by simp) (List.map_congr_left (fun i _ => ?_))
  simp only [Function.comp_apply, Nat.cast_succ]
  ring

/-! ### The 32-bit integers of the shader -/

theorem wrapInt32_of_range {v : Int} (hlo : INT_MIN ≤ v) (hhi : v ≤ INT_MAX) :
    wrapInt32 v = v := by
  unfold wrapInt32
  unfold INT_MIN at hlo
  unfold INT_MAX at hhi
  omega

theorem wrapInt32_range (v : Int) : INT_MIN ≤ wrapInt32 v ∧ wrapInt32 v ≤ INT_MAX := by
  unfold wrapInt32 INT_MIN INT_MAX
  omega

/-- For a thread coordinate below `2 ^ 31` and an offset that is an `int`, `addOffset`
is the two's-complement sum. -/
theorem addOffset_eq_wrapInt32 {id : Nat} {x : Int} (hid : (id : Int) ≤ INT_MAX)
    (hlo : INT_MIN ≤ x) (hhi : x ≤ INT_MAX) : addOffset id x = wrapInt32 ((id : Int) + x) := by
  unfold addOffset wrapInt32
  unfold INT_MAX at *
  unfold INT_MIN at hlo
  split_ifs <;> omega

theorem addOffset_of_le {id : Nat} {x : Int} (h : x ≤ 0 ∨ (id : Int) + x ≤ INT_MAX) :
    addOffset id x = (id : Int) + x := by
  unfold addOffset
  rw [if_neg]
  rintro ⟨h1, h2⟩
  rcases h with h | h <;> omega

theorem tdiv_eq_floor {R : ℚ} (hR : 0 ≤ R) : Int.tdiv R.num R.den = ⌊R⌋ := by
  rw [Rat.floor_def, Int.tdiv_eq_ediv (Rat.num_nonneg.mpr hR) (Int.natCast_nonneg _)]

/-- The cast of a float in `[0, 2^31)` drops the fraction. -/
theorem ftoi_of_nonneg {R : ℚ} (hR : 0 ≤ R) (hlt : ⌊R⌋ ≤ INT_MAX) : ftoi R = ⌊R⌋ := by
  have hk : (0 : Int) ≤ ⌊R⌋ := Int.floor_nonneg.mpr hR
  rw [ftoi, tdiv_eq_floor hR]
  unfold clamp INT_MIN
  unfold INT_MAX at *
  omega

/-- The cast of a float of `2^31 - 1` or more is `INT_MAX`. -/
theorem ftoi_of_large {R : ℚ} (hR : 2147483647 ≤ R) : ftoi R = INT_MAX := by
  have hk : (2147483647 : Int) ≤ ⌊R⌋ := Int.le_floor.mpr (by exact_mod_cast hR)
  rw [ftoi, tdiv_eq_floor (le_trans (by norm_num) hR)]
  unfold clamp INT_MIN INT_MAX
  omega

/-! ### The 32-bit floats of the shader -/

/-- The rounding `binary32` at some familiar values: `0.1f` and `1/3` as 32-bit floats,
a negative value, the ties at `2^24 + 1` and `2^24 + 3`, and a denormal number. -/
theorem binary32_examples :
    binary32 (1 / 10) = 13421773 / 134217728 ∧ binary32 (1 / 3) = 11184811 / 33554432 ∧
    binary32 1 = 1 ∧ binary32 0 = 0 ∧ binary32 (-1 / 10) = -(13421773 / 134217728) ∧
    binary32 16777217 = 16777216 ∧ binary32 16777219 = 16777220 ∧
    binary32 (1 / 2 ^ 127) = 0 := by
  decide!

/-! ### The loops -/

/-- A loop whose bound is below `INT_MAX` and whose body always ends runs its body
for `lo, lo + 1, ..., hi` in turn and is left, given more tests than it has values. -/
theorem forLoop_eq_foldl {α : Type} (f : α → Int → α) (body : Int → α → Option α)
    (hbody : ∀ v acc, body v acc = some (f acc v)) {hi : Int} (hhi : hi < INT_MAX) :
    ∀ (n fuel : Nat) (lo : Int) (acc : α), INT_MIN ≤ lo → (hi + 1 - lo).toNat = n →
      n < fuel → forLoop hi body fuel lo acc = some ((intRange lo hi).foldl f acc) := by
  intro n
  induction n with
  | zero =>
    intro fuel lo acc _ hn hf
    obtain ⟨fuel, rfl⟩ : ∃ k, fuel = k + 1 := ⟨fuel - 1, by omega⟩
    have hlt : hi < lo := by omega
    rw [forLoop, if_neg (not_le.mpr hlt), intRange_of_lt hlt]
    rfl
  | succ n ih =>
    intro fuel lo acc hlo hn hf
    obtain ⟨fuel, rfl⟩ : ∃ k, fuel = k + 1 := ⟨fuel - 1, by omega⟩
    have hle : lo ≤ hi := by omega
    have hw : wrapInt32 (lo + 1) = lo + 1 :=
      wrapInt32_of_range (by unfold INT_MIN at *; omega) (by omega)
    rw [forLoop, if_pos hle, hbody]
    simp only
    rw [hw, ih fuel (lo + 1) (f acc lo) (by unfold INT_MIN at *; omega) (by omega) (by omega),
      intRange_cons hle, List.foldl_cons]

/-- A loop whose bound is `INT_MAX` is not left, whatever the number of tests: the
test `v <= INT_MAX` holds for every `int`. -/
theorem forLoop_never_ends {α : Type} (body : Int → α → Option α) :
    ∀ (fuel : Nat) (v : Int) (acc : α), v ≤ INT_MAX →
      forLoop INT_MAX body fuel v acc = none := by
  intro fuel
  induction fuel with
  | zero => intro v acc _; rfl
  | succ fuel ih =>
    intro v acc hv
    rw [forLoop, if_pos hv]
    cases body v acc with
    | none => rfl
    | some a => exact ih _ _ (wrapInt32_range _).2

/-- What every run of the body preserves holds when the loop is left. -/
theorem forLoop_invariant {α : Type} (P : α → Prop) (hi : Int) (body : Int → α → Option α)
    (hbody : ∀ v acc acc', P acc → body v acc = some acc' → P acc') :
    ∀ (fuel : Nat) (v : Int) (acc r : α), P acc → forLoop hi body fuel v acc = some r → P r := by
  intro fuel
  induction fuel with
  | zero => intro v acc r _ h; simp [forLoop] at h
  | succ fuel ih =>
    intro v acc r hP h
    rw [forLoop] at h
    by_cases hv : v ≤ hi
    · rw [if_pos hv] at h
      cases hb : body v acc with
      | none => rw [hb] at h; simp at h
      | some a =>
        rw [hb] at h
        exact ih _ _ _ (hbody v acc a hP hb) h
    · rw [if_neg hv] at h
      cases h
      exact hP

/-- For a radius in `[0, INT_MAX)` the two loops are left, given more tests than
`2 * radius + 1`, with the pair `blurFold` accumulates. -/
theorem blurLoops_eq_blurFold (rnd : ℚ → ℚ) (cb : BlurConstants) (I : Texture2D)
    (idx idy : Nat) {radius : Int} (h0 : 0 ≤ radius) (h1 : radius < INT_MAX) {fuel : Nat}
    (hf : (2 * radius + 1).toNat < fuel) :
    blurLoops rnd fuel cb I idx idy radius = some (blurFold rnd cb I idx idy radius) := by
  have hneg : wrapInt32 (-radius) = -radius :=
    wrapInt32_of_range (by unfold INT_MIN; unfold INT_MAX at h1; omega)
      (by unfold INT_MAX; omega)
  have hlo : INT_MIN ≤ -radius := by unfold INT_MIN; unfold INT_MAX at h1; omega
  have hn : (radius + 1 - -radius).toNat < fuel := by
    have : radius + 1 - -radius = 2 * radius + 1 := by ring
    rw [this]; exact hf
  unfold blurLoops blurFold
  rw [hneg]
  refine forLoop_eq_foldl _ _ (fun x acc => ?_) h1 _ fuel (-radius) _ hlo rfl hn
  exact forLoop_eq_foldl _ _ (fun _ _ => rfl) h1 _ fuel (-radius) acc hlo rfl hn

/-- For a radius of `INT_MAX` the loops are never left. -/
theorem blurLoops_of_INT_MAX (rnd : ℚ → ℚ) (fuel : Nat) (cb : BlurConstants) (I : Texture2D)
    (idx idy : Nat) : blurLoops rnd fuel cb I idx idy INT_MAX = none := by
  unfold blurLoops
  exact forLoop_never_ends _ _ _ _ (wrapInt32_range _).2

theorem loopFuel_enough {radius : Int} (h1 : radius < INT_MAX) :
    (2 * radius + 1).toNat < loopFuel := by
  unfold loopFuel
  unfold INT_MAX at h1
  omega

/-- An accumulating loop adds up, channel by channel, what each iteration adds. -/
theorem foldl_accumulate (fr fg fb fa : Int → ℚ) (c : ℚ) (l : List Int) (acc : Float4 × ℚ) :
    l.foldl (fun acc x =>
        ((⟨acc.1.r + fr x, acc.1.g + fg x, acc.1.b + fb x, acc.1.a + fa x⟩ : Float4),
          acc.2 + c)) acc =
      (⟨acc.1.r + (l.map fr).sum, acc.1.g + (l.map fg).sum, acc.1.b + (l.map fb).sum,
          acc.1.a + (l.map fa).sum⟩, acc.2 + l.length * c) := by
  induction l generalizing acc with
  | nil => simp
  | cons x xs ih =>
    rw [List.foldl_cons, ih]
    simp only [List.map_cons, List.sum_cons, List.length_cons, Nat.cast_succ]
    refine Prod.ext ?_ ?_
    · simp only [Float4.mk.injEq]
      refine ⟨?_, ?_, ?_, ?_⟩ <;> ring
    · simp only; ring

theorem toUInt_sampleCoord {idx dim : Nat} (h : idx < dim) {x : Int}
    (hx : x ≤ 0 ∨ (idx : Int) + x ≤ INT_MAX) :
    toUInt (sampleCoord idx x dim) = clampIndex ((idx : Int) + x) dim := by
  unfold toUInt sampleCoord
  rw [addOffset_of_le hx]
  unfold clamp clampIndex
  split_ifs <;> omega

theorem toUInt_sampleCoord_lt {idx dim : Nat} (h : idx < dim) (x : Int) :
    toUInt (sampleCoord idx x dim) < dim := by
  unfold toUInt sampleCoord clamp
  omega

theorem clampIndex_lt {dim : Nat} (h : 0 < dim) (v : Int) : clampIndex v dim < dim := by
  unfold clampIndex
  split_ifs <;> omega

/-- In exact arithmetic the loops accumulate, channel by channel, the sum of the texels
read, and count the samples. -/
theorem blurFold_exactArithmetic (cb : BlurConstants) (I : Texture2D) (idx idy : Nat)
    (radius : Int) :
    blurFold exactArithmetic cb I idx idy radius =
      (⟨loopSum cb I idx idy radius Float4.r, loopSum cb I idx idy radius Float4.g,
        loopSum cb I idx idy radius Float4.b, loopSum cb I idx idy radius Float4.a⟩,
        ((radius + 1 - -radius).toNat : ℚ) * ((radius + 1 - -radius).toNat : ℚ)) := by
  unfold blurFold loopSum
  simp only [Float4.add, exactArithmetic, foldl_accumulate, length_intRange, sum_map_intRange,
    Float4.zero, zero_add, mul_one]

/-! ## The blur contract -/

theorem loopSum_eq_texel_sum {w h : Nat} (desktop : Texture2D) (R pad : ℚ) {x y : Nat}
    (hdw : desktop.width = w) (hdh : desktop.height = h) (hx : x < w) (hy : y < h)
    {k : Int} (hkx : k = 0 ∨ (x : Int) + k ≤ INT_MAX) (hky : k = 0 ∨ (y : Int) + k ≤ INT_MAX)
    (ch : Float4 → ℚ) :
    loopSum ⟨w, h, R, pad⟩ desktop x y k ch =
      ∑ dx in Finset.Icc (-k) k, ∑ dy in Finset.Icc (-k) k,
        ch (desktop.texel (clampIndex ((x : Int) + dx) desktop.width)
          (clampIndex ((y : Int) + dy) desktop.height)) := by
  unfold loopSum
  refine Finset.sum_congr rfl (fun dx hdx => Finset.sum_congr rfl (fun dy hdy => ?_))
  rw [Finset.mem_Icc] at hdx hdy
  have h1 : dx ≤ 0 ∨ (x : Int) + dx ≤ INT_MAX := by
    rcases hkx with hk | hk
    · left; omega
    · right; omega
  have h2 : dy ≤ 0 ∨ (y : Int) + dy ≤ INT_MAX := by
    rcases hky with hk | hk
    · left; omega
    · right; omega
  simp only [toUInt_sampleCoord hx h1, toUInt_sampleCoord hy h2, Texture2D.load, hdw, hdh]
  rw [if_pos ⟨clampIndex_lt (by omega) _, clampIndex_lt (by omega) _⟩]

theorem sampleCount_eq {k : Int} (hk : 0 ≤ k) :
    ((k + 1 - -k).toNat : ℚ) * ((k + 1 - -k).toNat : ℚ) = (2 * (k : ℚ) + 1) ^ 2 := by
  have h : ((k + 1 - -k).toNat : Int) = 2 * k + 1 := by omega
  have h2 : ((k + 1 - -k).toNat : ℚ) = 2 * (k : ℚ) + 1 := by exact_mod_cast h
  rw [h2]; ring

/-- The thread of a pixel with positive mask alpha, for a radius in `[0, INT_MAX)`:
the loops are left and the thread stores the values `blurFold` accumulates, divided by
the sample count. -/
theorem mainWith_of_mask_pos (rnd : ℚ → ℚ) (cb : BlurConstants) (desktop mask : Texture2D)
    {x y : Nat} (hx : x < cb.textureWidth) (hy : y < cb.textureHeight)
    (hm : 0 < (mask.load x y).a) (h0 : 0 ≤ ftoi cb.blurRadius)
    (h1 : ftoi cb.blurRadius < INT_MAX) :
    mainWith rnd cb desktop mask x y =
      ThreadResult.returned (some
        { (blurFold rnd cb desktop x y (ftoi cb.blurRadius)).1.divScalar rnd
            (blurFold rnd cb desktop x y (ftoi cb.blurRadius)).2 with
          a := rnd (((blurFold rnd cb desktop x y (ftoi cb.blurRadius)).1.divScalar rnd
            (blurFold rnd cb desktop x y (ftoi cb.blurRadius)).2).a * (mask.load x y).a) }) := by
  unfold mainWith
  rw [if_neg (by simp only [ge_iff_le]; omega), if_neg (not_le.mpr hm)]
  simp only [blurLoops_eq_blurFold rnd cb desktop x y h0 h1 (loopFuel_enough h1)]

/-- The write of a pixel with positive mask alpha, in the words of the specification
(shared by the statements below): the radius is below `INT_MAX`, so that the loops are
left, and no sum `(int)id + offset` exceeds `INT_MAX`. -/
theorem main_eq_boxMean {w h : Nat} (desktop mask : Texture2D) (R pad : ℚ) {x y : Nat}
    (hdw : desktop.width = w) (hdh : desktop.height = h)
    (hR : 0 ≤ R) (hk1 : ⌊R⌋ < INT_MAX) (hkx : ⌊R⌋ = 0 ∨ (x : Int) + ⌊R⌋ ≤ INT_MAX)
    (hky : ⌊R⌋ = 0 ∨ (y : Int) + ⌊R⌋ ≤ INT_MAX)
    (hx : x < w) (hy : y < h) (hm : 0 < (mask.load x y).a) :
    main ⟨w, h, R, pad⟩ desktop mask x y =
      ThreadResult.returned (some ⟨boxMean desktop ⌊R⌋ x y Float4.r,
        boxMean desktop ⌊R⌋ x y Float4.g, boxMean desktop ⌊R⌋ x y Float4.b,
        boxMean desktop ⌊R⌋ x y Float4.a * (mask.load x y).a⟩) := by
  have hk : (0 : Int) ≤ ⌊R⌋ := Int.floor_nonneg.mpr hR
  have hf : ftoi R = ⌊R⌋ := ftoi_of_nonneg hR (le_of_lt hk1)
  unfold main
  rw [mainWith_of_mask_pos exactArithmetic ⟨w, h, R, pad⟩ desktop mask hx hy hm
    (by simp only [hf]; exact hk) (by simp only [hf]; exact hk1)]
  simp only [hf, blurFold_exactArithmetic, Float4.divScalar, exactArithmetic, sampleCount_eq hk,
    loopSum_eq_texel_sum desktop R pad hdw hdh hx hy hkx hky, boxMean]

/-- The write of a pixel whose mask alpha is not positive. -/
theorem mainWith_of_mask_nonpos (rnd : ℚ → ℚ) (cb : BlurConstants) (desktop mask : Texture2D)
    {x y : Nat} (hx : x < cb.textureWidth) (hy : y < cb.textureHeight)
    (hm : (mask.load x y).a ≤ 0) :
    mainWith rnd cb desktop mask x y = ThreadResult.returned (some ⟨0, 0, 0, 0⟩) := by
  unfold mainWith
  rw [if_neg (by simp only [ge_iff_le]; omega), if_pos hm]

theorem main_of_mask_nonpos (cb : BlurConstants) (desktop mask : Texture2D)
    {x y : Nat} (hx : x < cb.textureWidth) (hy : y < cb.textureHeight)
    (hm : (mask.load x y).a ≤ 0) :
    main cb desktop mask x y = ThreadResult.returned (some ⟨0, 0, 0, 0⟩) :=
  mainWith_of_mask_nonpos exactArithmetic cb desktop mask hx hy hm

/-- A radius of `2^31 - 1` or more: the thread of a pixel with positive mask alpha
never returns, whatever the rounding. -/
theorem mainWith_of_huge_radius (rnd : ℚ → ℚ) (cb : BlurConstants) (desktop mask : Texture2D)
    {x y : Nat} (hx : x < cb.textureWidth) (hy : y < cb.textureHeight)
    (hm : 0 < (mask.load x y).a) (hR : 2147483647 ≤ cb.blurRadius) :
    mainWith rnd cb desktop mask x y = ThreadResult.neverReturns := by
  unfold mainWith
  rw [if_neg (by simp only [ge_iff_le]; omega), if_neg (not_le.mpr hm)]
  simp only [ftoi_of_large hR, blurLoops_of_INT_MAX]

/-- C1, as amended.  For a `w × h` desktop, a radius `R ≥ 0` and an in-range pixel
`(x, y)` whose mask alpha is positive: when `w + R < 2^31` and `h + R < 2^31` the
shader, in exact arithmetic, returns after writing the colour whose `r`, `g`, `b` are
the unweighted means of the desktop channel over the `(2⌊R⌋+1)^2` edge-clamped offsets
and whose alpha is that mean of the desktop alpha times the mask alpha; when
`R ≥ 2^31 - 1` the thread never returns and writes nothing. -/
theorem main_writes_box_mean (w h : Nat) (desktop mask : Texture2D) (R pad : ℚ) (x y : Nat)
    (hdw : desktop.width = w) (hdh : desktop.height = h)
    (hR : 0 ≤ R) (hx : x < w) (hy : y < h) (hm : 0 < (mask.load x y).a) :
    ((w : ℚ) + R < 2147483648 → (h : ℚ) + R < 2147483648 →
      main ⟨w, h, R, pad⟩ desktop mask x y =
        ThreadResult.returned (some ⟨boxMean desktop ⌊R⌋ x y Float4.r,
          boxMean desktop ⌊R⌋ x y Float4.g, boxMean desktop ⌊R⌋ x y Float4.b,
          boxMean desktop ⌊R⌋ x y Float4.a * (mask.load x y).a⟩)) ∧
    (2147483647 ≤ R →
      main ⟨w, h, R, pad⟩ desktop mask x y = ThreadResult.neverReturns) := by
  refine ⟨fun hwR hhR => ?_, fun hbig =>
    mainWith_of_huge_radius exactArithmetic ⟨w, h, R, pad⟩ desktop mask hx hy hm hbig⟩
  have hk : (0 : Int) ≤ ⌊R⌋ := Int.floor_nonneg.mpr hR
  have hfl : ((⌊R⌋ : Int) : ℚ) ≤ R := Int.floor_le R
  have hxq : (x : ℚ) + 1 ≤ w := by exact_mod_cast hx
  have hyq : (y : ℚ) + 1 ≤ h := by exact_mod_cast hy
  have h1 : (x : Int) + ⌊R⌋ + 1 < 2147483648 := by
    have : (((x : Int) + ⌊R⌋ + 1 : Int) : ℚ) < 2147483648 := by push_cast; linarith
    exact_mod_cast this
  have h2 : (y : Int) + ⌊R⌋ + 1 < 2147483648 := by
    have : (((y : Int) + ⌊R⌋ + 1 : Int) : ℚ) < 2147483648 := by push_cast; linarith
    exact_mod_cast this
  exact main_eq_boxMean desktop mask R pad hdw hdh hR (by unfold INT_MAX; omega)
    (Or.inr (by unfold INT_MAX; omega)) (Or.inr (by unfold INT_MAX; omega)) hx hy hm

/-- C2.  For every constant buffer (size and radius), every desktop and every pixel
inside the constant buffer's size whose mask alpha is 0, the shader returns after
writing exactly `(0, 0, 0, 0)`, in exact arithmetic (`main`) and under every rounding
of the float operations. -/
theorem main_writes_zero_where_mask_is_zero (cb : BlurConstants) (desktop mask : Texture2D)
    (x y : Nat) (hx : x < cb.textureWidth) (hy : y < cb.textureHeight)
    (hm : (mask.load x y).a = 0) :
    main cb desktop mask x y = ThreadResult.returned (some ⟨0, 0, 0, 0⟩) ∧
    ∀ rnd : ℚ → ℚ,
      mainWith rnd cb desktop mask x y = ThreadResult.returned (some ⟨0, 0, 0, 0⟩) :=
  ⟨mainWith_of_mask_nonpos exactArithmetic cb desktop mask hx hy (le_of_eq hm),
    fun rnd => mainWith_of_mask_nonpos rnd cb desktop mask hx hy (le_of_eq hm)⟩

theorem clampIndex_self {x w : Nat} (hx : x < w) : clampIndex (x : Int) w = x := by
  unfold clampIndex
  split_ifs <;> omega

theorem boxMean_zero_radius (desktop : Texture2D) {x y : Nat} (hx : x < desktop.width)
    (hy : y < desktop.height) (ch : Float4 → ℚ) :
    boxMean desktop 0 x y ch = ch (desktop.texel x y) := by
  simp [boxMean, clampIndex_self hx, clampIndex_self hy]

theorem boxMean_uniform (desktop : Texture2D) (c : Float4)
    (huni : ∀ i j, i < desktop.width → j < desktop.height → desktop.texel i j = c)
    {k : Int} (hk : 0 ≤ k) {x y : Nat} (hx : x < desktop.width) (hy : y < desktop.height)
    (ch : Float4 → ℚ) :
    boxMean desktop k x y ch = ch c := by
  unfold boxMean
  have hsum : ∀ dx ∈ Finset.Icc (-k) k, (∑ dy in Finset.Icc (-k) k,
      ch (desktop.texel (clampIndex ((x : Int) + dx) desktop.width)
        (clampIndex ((y : Int) + dy) desktop.height))) = ∑ _dy in Finset.Icc (-k) k, ch c := by
    intro dx _
    refine Finset.sum_congr rfl (fun dy _ => ?_)
    rw [huni _ _ (clampIndex_lt (by omega) _) (clampIndex_lt (by omega) _)]
  rw [Finset.sum_congr rfl hsum]
  simp only [Finset.sum_const, Int.card_Icc, nsmul_eq_mul]
  have h : ((k + 1 - -k).toNat : Int) = 2 * k + 1 := by omega
  have h2 : ((k + 1 - -k).toNat : ℚ) = 2 * (k : ℚ) + 1 := by exact_mod_cast h
  rw [h2]
  have hpos : (2 * (k : ℚ) + 1) ≠ 0 := by
    have : (0 : ℚ) ≤ (k : ℚ) := by exact_mod_cast hk
    linarith
  field_simp
  ring

/-- On a desktop that reads as `c` at every texel of the constant buffer's size, the
loops accumulate `c` once per sample, whatever the thread, the radius and the
rounding: the clamped coordinates always lie inside the texture. -/
theorem blurFold_uniform (rnd : ℚ → ℚ) (cb : BlurConstants) (I : Texture2D) (c : Float4)
    (huni : ∀ i j, i < cb.textureWidth → j < cb.textureHeight → I.load i j = c)
    {idx idy : Nat} (hx : idx < cb.textureWidth) (hy : idy < cb.textureHeight)
    (radius : Int) :
    blurFold rnd cb I idx idy radius =
      uniformAccumulate rnd c
        ((radius + 1 - -radius).toNat * (radius + 1 - -radius).toNat) := by
  have hconst : ∀ (g : Float4 × ℚ → Float4 × ℚ) (l : List Int) (acc : Float4 × ℚ),
      l.foldl (fun acc _ => g acc) acc = g^[l.length] acc := by
    intro g l
    induction l with
    | nil => intro acc; rfl
    | cons a l ih => intro acc; rw [List.foldl_cons, ih, List.length_cons, Function.iterate_succ_apply]
  unfold blurFold uniformAccumulate
  simp only [huni _ _ (toUInt_sampleCoord_lt hx _) (toUInt_sampleCoord_lt hy _)]
  rw [hconst (fun acc => List.foldl (fun acc _ => (acc.1.add rnd c, rnd (acc.2 + 1))) acc
    (intRange (-radius) radius))]
  simp only [hconst (fun acc : Float4 × ℚ => (acc.1.add rnd c, rnd (acc.2 + 1)))]
  rw [length_intRange, ← Function.iterate_mul]

theorem uniformAccumulate_exactArithmetic (c : Float4) (n : Nat) :
    uniformAccumulate exactArithmetic c n = (⟨n * c.r, n * c.g, n * c.b, n * c.a⟩, (n : ℚ)) := by
  unfold uniformAccumulate
  induction n with
  | zero => simp [Float4.zero]
  | succ n ih =>
    rw [Function.iterate_succ_apply', ih]
    simp only [Float4.add, exactArithmetic, Nat.cast_succ]
    refine Prod.ext ?_ rfl
    simp only [Float4.mk.injEq]
    refine ⟨?_, ?_, ?_, ?_⟩ <;> ring

/-- On a uniform desktop, in exact arithmetic, a thread with positive mask alpha and a
radius in `[0, INT_MAX)` writes the colour of the desktop, its alpha times the mask
alpha. -/
theorem main_of_uniform_desktop {w h : Nat} (desktop mask : Texture2D) (R pad : ℚ) (c : Float4)
    {x y : Nat} (hdw : desktop.width = w) (hdh : desktop.height = h)
    (huni : ∀ i j, i < w → j < h → desktop.texel i j = c)
    (hR : 0 ≤ R) (hk1 : ⌊R⌋ < INT_MAX) (hx : x < w) (hy : y < h)
    (hm : 0 < (mask.load x y).a) :
    main ⟨w, h, R, pad⟩ desktop mask x y =
      ThreadResult.returned (some ⟨c.r, c.g, c.b, c.a * (mask.load x y).a⟩) := by
  have hk : (0 : Int) ≤ ⌊R⌋ := Int.floor_nonneg.mpr hR
  have hf : ftoi R = ⌊R⌋ := ftoi_of_nonneg hR (le_of_lt hk1)
  have hl : ∀ i j, i < w → j < h → desktop.load i j = c := by
    intro i j hi hj
    rw [Texture2D.load, hdw, hdh, if_pos ⟨hi, hj⟩, huni i j hi hj]
  have hn : (((⌊R⌋ + 1 - -⌊R⌋).toNat * (⌊R⌋ + 1 - -⌊R⌋).toNat : Nat) : ℚ) ≠ 0 := by
    have : 0 < (⌊R⌋ + 1 - -⌊R⌋).toNat := by omega
    exact_mod_cast (Nat.mul_pos this this).ne'
  unfold main
  rw [mainWith_of_mask_pos exactArithmetic ⟨w, h, R, pad⟩ desktop mask hx hy hm
    (by simp only [hf]; exact hk) (by simp only [hf]; exact hk1)]
  simp only [hf]
  rw [blurFold_uniform exactArithmetic ⟨w, h, R, pad⟩ desktop c hl hx hy,
    uniformAccumulate_exactArithmetic]
  simp only [Float4.divScalar, exactArithmetic]
  rw [mul_div_cancel_left₀ _ hn, mul_div_cancel_left₀ _ hn, mul_div_cancel_left₀ _ hn,
    mul_div_cancel_left₀ _ hn]

/-- With radius 0 the thread of a pixel with mask alpha 1 takes the single sample at
the pixel itself; under a rounding that keeps 1 and the four channels of that texel, it
writes the texel. -/
theorem mainWith_radius_zero (rnd : ℚ → ℚ) {w h : Nat} (desktop mask : Texture2D) (pad : ℚ)
    (hdw : desktop.width = w) (hdh : desktop.height = h) {x y : Nat} (hx : x < w) (hy : y < h)
    (hm : (mask.load x y).a = 1) (h1 : rnd 1 = 1)
    (hr : rnd (desktop.texel x y).r = (desktop.texel x y).r)
    (hg : rnd (desktop.texel x y).g = (desktop.texel x y).g)
    (hb : rnd (desktop.texel x y).b = (desktop.texel x y).b)
    (ha : rnd (desktop.texel x y).a = (desktop.texel x y).a) :
    mainWith rnd ⟨w, h, 0, pad⟩ desktop mask x y =
      ThreadResult.returned (some (desktop.texel x y)) := by
  have hf : ftoi (0 : ℚ) = 0 := by decide
  have hrange : intRange (-(0 : Int)) 0 = [0] := by decide
  have hfold : blurFold rnd ⟨w, h, 0, pad⟩ desktop x y 0 = (desktop.texel x y, 1) := by
    unfold blurFold
    rw [hrange]
    simp only [List.foldl_cons, List.foldl_nil]
    rw [toUInt_sampleCoord hx (Or.inl le_rfl), toUInt_sampleCoord hy (Or.inl le_rfl)]
    simp only [add_zero, clampIndex_self hx, clampIndex_self hy, Texture2D.load, hdw, hdh, hx,
      hy, and_self, if_true, Float4.add, Float4.zero, zero_add, hr, hg, hb, ha, h1]
  rw [mainWith_of_mask_pos rnd ⟨w, h, 0, pad⟩ desktop mask hx hy (by rw [hm]; exact one_pos)
    (by simp only [hf]; decide) (by simp only [hf]; decide)]
  simp only [hf, hfold, hm, Float4.divScalar, div_one, mul_one, hr, hg, hb, ha]

/-- C3.  With radius 0 on a `w × h` desktop, every in-range pixel with mask alpha 1 is
written the desktop pixel (all four channels) and every in-range pixel with mask alpha
0 is written `(0, 0, 0, 0)`; so with mask alpha 1 everywhere the blur is the identity
at every in-range pixel.  This holds in exact arithmetic and, for a pixel with mask
alpha 1, under every rounding that keeps 1 and the channels of the texel (as 32-bit
floats do with a texel that is a 32-bit float). -/
theorem radius_zero_is_pass_through (w h : Nat) (desktop mask : Texture2D) (pad : ℚ)
    (hdw : desktop.width = w) (hdh : desktop.height = h) :
    (∀ x y, x < w → y < h → (mask.load x y).a = 1 →
        main ⟨w, h, 0, pad⟩ desktop mask x y =
          ThreadResult.returned (some (desktop.texel x y))) ∧
    (∀ x y, x < w → y < h → (mask.load x y).a = 0 →
        main ⟨w, h, 0, pad⟩ desktop mask x y = ThreadResult.returned (some ⟨0, 0, 0, 0⟩)) ∧
    ((∀ x y, x < w → y < h → (mask.load x y).a = 1) →
        ∀ x y, x < w → y < h →
          main ⟨w, h, 0, pad⟩ desktop mask x y =
            ThreadResult.returned (some (desktop.texel x y))) ∧
    (∀ rnd : ℚ → ℚ, rnd 1 = 1 → ∀ x y, x < w → y < h → (mask.load x y).a = 1 →
        rnd (desktop.texel x y).r = (desktop.texel x y).r →
        rnd (desktop.texel x y).g = (desktop.texel x y).g →
        rnd (desktop.texel x y).b = (desktop.texel x y).b →
        rnd (desktop.texel x y).a = (desktop.texel x y).a →
          mainWith rnd ⟨w, h, 0, pad⟩ desktop mask x y =
            ThreadResult.returned (some (desktop.texel x y))) := by
  have key : ∀ x y, x < w → y < h → (mask.load x y).a = 1 →
      main ⟨w, h, 0, pad⟩ desktop mask x y =
        ThreadResult.returned (some (desktop.texel x y)) := by
    intro x y hx hy hm
    exact mainWith_radius_zero exactArithmetic desktop mask pad hdw hdh hx hy hm rfl rfl rfl
      rfl rfl
  exact ⟨key, fun x y hx hy hm =>
      main_of_mask_nonpos ⟨w, h, 0, pad⟩ desktop mask hx hy (le_of_eq hm),
    fun hall x y hx hy => key x y hx hy (hall x y hx hy),
    fun rnd h1 x y hx hy hm hr hg hb ha =>
      mainWith_radius_zero rnd desktop mask pad hdw hdh hx hy hm h1 hr hg hb ha⟩

/-- The values of the float shader on the two uniform scenarios of the specification,
thread by thread. -/
theorem mainWith_binary32_scenarios :
    (∀ x y, x < 16 → y < 16 →
      mainWith binary32 ⟨16, 16, 3, 0⟩ (greyDesktop32 128) fullMask x y =
        ThreadResult.returned (some ⟨fromUNORM8 128, fromUNORM8 128, fromUNORM8 128, 1⟩)) ∧
    (∀ x y, x < 16 → y < 16 →
      mainWith binary32 ⟨16, 16, 2, 0⟩ redDesktop squareMask x y =
        ThreadResult.returned (some
          (if 6 ≤ x ∧ x < 10 ∧ 6 ≤ y ∧ y < 10 then ⟨1, 0, 0, 1 / 2⟩ else ⟨0, 0, 0, 0⟩))) := by
  have hr3 : ftoi (3 : ℚ) = 3 := by decide
  have hr2 : ftoi (2 : ℚ) = 2 := by decide
  constructor
  · intro x y hx hy
    have hm : (fullMask.load x y).a = 1 := by
      simp [fullMask, Texture2D.load, Texture2D.fill, hx, hy]
    have hl : ∀ i j, i < 16 → j < 16 → (greyDesktop32 128).load i j =
        ⟨fromUNORM8 128, fromUNORM8 128, fromUNORM8 128, fromUNORM8 255⟩ := by
      intro i j hi hj
      simp [greyDesktop32, Texture2D.load, Texture2D.fill, hi, hj]
    rw [mainWith_of_mask_pos binary32 ⟨16, 16, 3, 0⟩ (greyDesktop32 128) fullMask hx hy
      (by rw [hm]; exact one_pos) (by simp only [hr3]; decide) (by simp only [hr3]; decide)]
    simp only [hr3, hm]
    rw [blurFold_uniform binary32 ⟨16, 16, 3, 0⟩ (greyDesktop32 128) _ hl hx hy]
    decide!
  · intro x y hx hy
    by_cases hsq : 6 ≤ x ∧ x < 10 ∧ 6 ≤ y ∧ y < 10
    · have hm : (squareMask.load x y).a = 1 / 2 := by
        simp [squareMask, Texture2D.load, hx, hy, hsq]
      have hl : ∀ i j, i < 16 → j < 16 → redDesktop.load i j = ⟨1, 0, 0, 1⟩ := by
        intro i j hi hj
        simp [redDesktop, Texture2D.load, Texture2D.fill, hi, hj]
      rw [if_pos hsq, mainWith_of_mask_pos binary32 ⟨16, 16, 2, 0⟩ redDesktop squareMask hx hy
        (by rw [hm]; norm_num) (by simp only [hr2]; decide) (by simp only [hr2]; decide)]
      simp only [hr2, hm]
      rw [blurFold_uniform binary32 ⟨16, 16, 2, 0⟩ redDesktop _ hl hx hy]
      decide!
    · have hm : (squareMask.load x y).a = 0 := by
        simp [squareMask, Texture2D.load, hx, hy, hsq]
      rw [if_neg hsq]
      exact mainWith_of_mask_nonpos binary32 _ redDesktop squareMask hx hy (le_of_eq hm)

/-- C4, as amended.  On a `w × h` desktop whose texels all equal `c`, in exact
arithmetic: for every radius `0 ≤ R < 2^31 - 1` an in-range pixel with mask alpha
`m > 0` is written `(c.r, c.g, c.b, c.a * m)`; for every radius one with mask alpha 0
is written `(0, 0, 0, 0)`; for a radius `R ≥ 2^31 - 1` the thread of a pixel with mask
alpha `m > 0` never returns.  In 32-bit floats the two scenarios of the specification
come out as it says: on the 16 x 16 desktop filled with `(128, 128, 128, 255)`, with
mask alpha 1 and radius 3, every pixel is written the desktop colour, stored as the
bytes `(128, 128, 128, 255)`; on the 16 x 16 red desktop with mask alpha 1/2 in the
centred square and radius 2, every pixel of the square is written red with alpha 1/2,
stored as `(255, 0, 0, 128)`, and every other pixel `(0, 0, 0, 0)`. -/
theorem uniform_desktop_stays_uniform :
    (∀ (w h : Nat) (desktop mask : Texture2D) (R pad : ℚ) (c : Float4) (x y : Nat),
      desktop.width = w → desktop.height = h →
      (∀ i j, i < w → j < h → desktop.texel i j = c) → 0 ≤ R → x < w → y < h →
        (R < 2147483647 → 0 < (mask.load x y).a →
          main ⟨w, h, R, pad⟩ desktop mask x y =
            ThreadResult.returned (some ⟨c.r, c.g, c.b, c.a * (mask.load x y).a⟩)) ∧
        ((mask.load x y).a = 0 →
          main ⟨w, h, R, pad⟩ desktop mask x y =
            ThreadResult.returned (some ⟨0, 0, 0, 0⟩)) ∧
        (2147483647 ≤ R → 0 < (mask.load x y).a →
          main ⟨w, h, R, pad⟩ desktop mask x y = ThreadResult.neverReturns)) ∧
    (∀ x y, x < 16 → y < 16 →
      mainWith binary32 ⟨16, 16, 3, 0⟩ (greyDesktop32 128) fullMask x y =
        ThreadResult.returned (some ⟨fromUNORM8 128, fromUNORM8 128, fromUNORM8 128, 1⟩)) ∧
    quantise ⟨fromUNORM8 128, fromUNORM8 128, fromUNORM8 128, 1⟩ = (128, 128, 128, 255) ∧
    (∀ x y, x < 16 → y < 16 →
      mainWith binary32 ⟨16, 16, 2, 0⟩ redDesktop squareMask x y =
        ThreadResult.returned (some
          (if 6 ≤ x ∧ x < 10 ∧ 6 ≤ y ∧ y < 10 then ⟨1, 0, 0, 1 / 2⟩ else ⟨0, 0, 0, 0⟩))) ∧
    quantise ⟨1, 0, 0, 1 / 2⟩ = (255, 0, 0, 128) := by
  refine ⟨?_, mainWith_binary32_scenarios.1, by decide!, mainWith_binary32_scenarios.2,
    by decide!⟩
  intro w h desktop mask R pad c x y hdw hdh huni hR hx hy
  refine ⟨fun hR1 hm => ?_, fun hm =>
    main_of_mask_nonpos ⟨w, h, R, pad⟩ desktop mask hx hy (le_of_eq hm), fun hbig hm =>
    mainWith_of_huge_radius exactArithmetic ⟨w, h, R, pad⟩ desktop mask hx hy hm hbig⟩
  have hk1 : ⌊R⌋ < INT_MAX := by
    have : ⌊R⌋ < (2147483647 : Int) := Int.floor_lt.mpr (by exact_mod_cast hR1)
    exact this
  exact main_of_uniform_desktop desktop mask R pad c hdw hdh huni hR hk1 hx hy hm

/-- C5.  For a `w × h` texture, an in-range output pixel `(x, y)` (the corners
included) and every offset `(dx, dy)` (in particular those of `[-R, R]^2`), the
coordinates the shader indexes the desktop with satisfy `0 ≤ sampleX ≤ w - 1` and
`0 ≤ sampleY ≤ h - 1`, and the texel read lies inside the texture. -/
theorem sample_coordinates_in_range (w h x y : Nat) (dx dy : Int) (hx : x < w) (hy : y < h) :
    (0 ≤ sampleCoord x dx w ∧ sampleCoord x dx w ≤ (w : Int) - 1) ∧
    (0 ≤ sampleCoord y dy h ∧ sampleCoord y dy h ≤ (h : Int) - 1) ∧
    toUInt (sampleCoord x dx w) < w ∧ toUInt (sampleCoord y dy h) < h := by
  unfold toUInt sampleCoord clamp
  refine ⟨⟨?_, ?_⟩, ⟨?_, ?_⟩, ?_, ?_⟩ <;> omega

/-- Witness of C1 (amended): the 4 x 4 ramp, corner pixel `(0, 0)`, with radius 3/2
and with radius `2^31 - 1`. -/
theorem main_writes_box_mean_witness :
    (0 : ℚ) ≤ 3 / 2 ∧ 0 < (rampMask.load 0 0).a ∧
    main ⟨4, 4, 3 / 2, 0⟩ rampDesktop rampMask 0 0 =
      ThreadResult.returned (some ⟨boxMean rampDesktop ⌊(3 / 2 : ℚ)⌋ 0 0 Float4.r,
        boxMean rampDesktop ⌊(3 / 2 : ℚ)⌋ 0 0 Float4.g,
        boxMean rampDesktop ⌊(3 / 2 : ℚ)⌋ 0 0 Float4.b,
        boxMean rampDesktop ⌊(3 / 2 : ℚ)⌋ 0 0 Float4.a * (rampMask.load 0 0).a⟩) ∧
    main ⟨4, 4, 2147483647, 0⟩ rampDesktop rampMask 0 0 = ThreadResult.neverReturns :=
  ⟨by norm_num, by norm_num [rampMask, Texture2D.load, Texture2D.fill],
    (main_writes_box_mean 4 4 rampDesktop rampMask (3 / 2) 0 0 0 rfl rfl (by norm_num)
      (by decide) (by decide) (by norm_num [rampMask, Texture2D.load, Texture2D.fill])).1
      (by norm_num) (by norm_num),
    (main_writes_box_mean 4 4 rampDesktop rampMask 2147483647 0 0 0 rfl rfl (by norm_num)
      (by decide) (by decide) (by norm_num [rampMask, Texture2D.load, Texture2D.fill])).2
      le_rfl⟩

/-- Counterexample to C1.  The radius `2^31` is a float `≥ 0`; its cast to `int` is
`INT_MAX`, the test `x <= radius` of the outer loop then holds for every `int`, and
the thread of pixel `(0, 0)` of the 4 x 4 ramp, whose mask alpha is 1, never leaves the
loops, however many tests it is given: it writes nothing, where the claim has it write
the box mean. -/
theorem radius_two_pow_31_never_writes :
    (0 : ℚ) ≤ 2147483648 ∧ 0 < (rampMask.load 0 0).a ∧
    ftoi 2147483648 = INT_MAX ∧
    (∀ fuel, blurLoops exactArithmetic fuel ⟨4, 4, 2147483648, 0⟩ rampDesktop 0 0
      (ftoi 2147483648) = none) ∧
    main ⟨4, 4, 2147483648, 0⟩ rampDesktop rampMask 0 0 = ThreadResult.neverReturns ∧
    (main ⟨4, 4, 2147483648, 0⟩ rampDesktop rampMask 0 0).stored = none ∧
    main ⟨4, 4, 2147483648, 0⟩ rampDesktop rampMask 0 0 ≠
      ThreadResult.returned (some ⟨boxMean rampDesktop ⌊(2147483648 : ℚ)⌋ 0 0 Float4.r,
        boxMean rampDesktop ⌊(2147483648 : ℚ)⌋ 0 0 Float4.g,
        boxMean rampDesktop ⌊(2147483648 : ℚ)⌋ 0 0 Float4.b,
        boxMean rampDesktop ⌊(2147483648 : ℚ)⌋ 0 0 Float4.a * (rampMask.load 0 0).a⟩) := by
  have hm : 0 < (rampMask.load 0 0).a := by norm_num [rampMask, Texture2D.load, Texture2D.fill]
  have hf : ftoi 2147483648 = INT_MAX := ftoi_of_large (by norm_num)
  have hmain : main ⟨4, 4, 2147483648, 0⟩ rampDesktop rampMask 0 0 =
      ThreadResult.neverReturns :=
    mainWith_of_huge_radius exactArithmetic ⟨4, 4, 2147483648, 0⟩ rampDesktop rampMask
      (by decide) (by decide) hm (by norm_num)
  refine ⟨by norm_num, hm, hf, fun fuel => ?_, hmain, ?_, ?_⟩
  · rw [hf]; exact blurLoops_of_INT_MAX _ _ _ _ _ _
  · rw [hmain]; rfl
  · rw [hmain]; exact fun h => ThreadResult.noConfusion h

/-- Witness of C2: the square mask has alpha 0 at pixel `(0, 0)`. -/
theorem main_writes_zero_where_mask_is_zero_witness :
    (squareMask.load 0 0).a = 0 ∧
    main ⟨16, 16, 2, 0⟩ redDesktop squareMask 0 0 = ThreadResult.returned (some ⟨0, 0, 0, 0⟩) ∧
    mainWith binary32 ⟨16, 16, 2, 0⟩ redDesktop squareMask 0 0 =
      ThreadResult.returned (some ⟨0, 0, 0, 0⟩) :=
  ⟨by norm_num [squareMask, Texture2D.load],
    (main_writes_zero_where_mask_is_zero ⟨16, 16, 2, 0⟩ redDesktop squareMask 0 0
      (by decide) (by decide) (by norm_num [squareMask, Texture2D.load])).1,
    (main_writes_zero_where_mask_is_zero ⟨16, 16, 2, 0⟩ redDesktop squareMask 0 0
      (by decide) (by decide) (by norm_num [squareMask, Texture2D.load])).2 binary32⟩

/-- Witness of C3: radius 0 on the 16 x 16 grey desktop with the full mask, pixel
`(15, 0)`, in exact arithmetic and in 32-bit floats, and on the red desktop with the
square mask, pixel `(0, 0)`. -/
theorem radius_zero_is_pass_through_witness :
    main ⟨16, 16, 0, 0⟩ greyDesktop fullMask 15 0 =
      ThreadResult.returned (some (greyDesktop.texel 15 0)) ∧
    main ⟨16, 16, 0, 0⟩ redDesktop squareMask 0 0 = ThreadResult.returned (some ⟨0, 0, 0, 0⟩) ∧
    mainWith binary32 ⟨16, 16, 0, 0⟩ (greyDesktop32 128) fullMask 15 0 =
      ThreadResult.returned (some ((greyDesktop32 128).texel 15 0)) :=
  ⟨(radius_zero_is_pass_through 16 16 greyDesktop fullMask 0 rfl rfl).1 15 0 (by decide)
      (by decide) (by norm_num [fullMask, Texture2D.load, Texture2D.fill]),
    (radius_zero_is_pass_through 16 16 redDesktop squareMask 0 rfl rfl).2.1 0 0 (by decide)
      (by decide) (by norm_num [squareMask, Texture2D.load]),
    (radius_zero_is_pass_through 16 16 (greyDesktop32 128) fullMask 0 rfl rfl).2.2.2 binary32
      (by decide!) 15 0 (by decide) (by decide)
      (by norm_num [fullMask, Texture2D.load, Texture2D.fill]) (by decide!) (by decide!)
      (by decide!) (by decide!)⟩

/-- Witness of C4 (amended): the two scenarios of the specification in exact
arithmetic.  Grey 16 x 16 desktop, mask alpha 1, radius 3: the corner pixel `(0, 0)` is
written the grey.  Red 16 x 16 desktop, mask alpha 1/2 in the centred square, radius 2:
pixel `(7, 7)` is written red with alpha 1/2 and pixel `(0, 0)` is written
`(0, 0, 0, 0)`. -/
theorem uniform_desktop_stays_uniform_witness :
    main ⟨16, 16, 3, 0⟩ greyDesktop fullMask 0 0 =
      ThreadResult.returned (some ⟨128 / 255, 128 / 255, 128 / 255, 1⟩) ∧
    main ⟨16, 16, 2, 0⟩ redDesktop squareMask 7 7 =
      ThreadResult.returned (some ⟨1, 0, 0, 1 / 2⟩) ∧
    main ⟨16, 16, 2, 0⟩ redDesktop squareMask 0 0 =
      ThreadResult.returned (some ⟨0, 0, 0, 0⟩) := by
  have h1 := (uniform_desktop_stays_uniform.1 16 16 greyDesktop fullMask 3 0
    ⟨128 / 255, 128 / 255, 128 / 255, 1⟩ 0 0 rfl rfl (fun _ _ _ _ => rfl) (by norm_num)
    (by decide) (by decide)).1 (by norm_num)
    (by norm_num [fullMask, Texture2D.load, Texture2D.fill])
  have h2 := (uniform_desktop_stays_uniform.1 16 16 redDesktop squareMask 2 0
    ⟨1, 0, 0, 1⟩ 7 7 rfl rfl (fun _ _ _ _ => rfl) (by norm_num)
    (by decide) (by decide)).1 (by norm_num) (by norm_num [squareMask, Texture2D.load])
  have h3 := (uniform_desktop_stays_uniform.1 16 16 redDesktop squareMask 2 0
    ⟨1, 0, 0, 1⟩ 0 0 rfl rfl (fun _ _ _ _ => rfl) (by norm_num)
    (by decide) (by decide)).2.1 (by norm_num [squareMask, Texture2D.load])
  refine ⟨?_, ?_, h3⟩
  · rw [h1]; norm_num [fullMask, Texture2D.load, Texture2D.fill]
  · rw [h2]; norm_num [squareMask, Texture2D.load]

/-- Counterexample to C4.  In 32-bit floats a uniform desktop is not kept: on the
16 x 16 desktop filled with `(211, 211, 211, 255)`, with mask alpha 1 and radius 1, the
nine rounded additions leave a sum whose ninth is more than two units in the last
place below the desktop value (so that no division that is right to one unit in the
last place gives the desktop value back), and the thread of pixel `(8, 8)` writes a
colour that is not the desktop colour.  And whatever the arithmetic, for the radius
`2^31` the thread of a pixel of the uniform grey desktop never returns, so nothing is
written. -/
theorem uniform_desktop_not_kept :
    fromUNORM8 211 = 3470581 / 4194304 ∧
    (∀ i j, i < 16 → j < 16 → (greyDesktop32 211).texel i j =
      ⟨3470581 / 4194304, 3470581 / 4194304, 3470581 / 4194304, 1⟩) ∧
    0 < (fullMask.load 8 8).a ∧
    blurFold binary32 ⟨16, 16, 1, 0⟩ (greyDesktop32 211) 8 8 (ftoi 1) =
      (⟨3904403 / 524288, 3904403 / 524288, 3904403 / 524288, 9⟩, 9) ∧
    (2 : ℚ) / 16777216 < 3470581 / 4194304 - 3904403 / 524288 / 9 ∧
    mainWith binary32 ⟨16, 16, 1, 0⟩ (greyDesktop32 211) fullMask 8 8 =
      ThreadResult.returned
        (some ⟨6941161 / 8388608, 6941161 / 8388608, 6941161 / 8388608, 1⟩) ∧
    mainWith binary32 ⟨16, 16, 1, 0⟩ (greyDesktop32 211) fullMask 8 8 ≠
      ThreadResult.returned (some ⟨3470581 / 4194304, 3470581 / 4194304,
        3470581 / 4194304, 1 * (fullMask.load 8 8).a⟩) ∧
    main ⟨16, 16, 2147483648, 0⟩ greyDesktop fullMask 0 0 = ThreadResult.neverReturns := by
  refine ⟨by decide!, ?_, by decide!, by decide!, by norm_num, by decide!, by decide!, ?_⟩
  · intro i j _ _
    have h1 : fromUNORM8 211 = 3470581 / 4194304 := by decide!
    have h2 : fromUNORM8 255 = 1 := by decide!
    simp only [greyDesktop32, Texture2D.fill, h1, h2]
  · exact mainWith_of_huge_radius exactArithmetic ⟨16, 16, 2147483648, 0⟩ greyDesktop fullMask
      (by decide) (by decide) (by norm_num [fullMask, Texture2D.load, Texture2D.fill])
      (by norm_num)

/-- Witness of C5: the corner `(0, 0)` of an 8 x 8 texture with offset `(-2, 2)`. -/
theorem sample_coordinates_in_range_witness :
    (0 ≤ sampleCoord 0 (-2) 8 ∧ sampleCoord 0 (-2) 8 ≤ (8 : Int) - 1) ∧
    (0 ≤ sampleCoord 0 2 8 ∧ sampleCoord 0 2 8 ≤ (8 : Int) - 1) ∧
    toUInt (sampleCoord 0 (-2) 8) < 8 ∧ toUInt (sampleCoord 0 2 8) < 8 :=
  sample_coordinates_in_range 8 8 0 0 (-2) 2 (by decide) (by decide)

/-! ## The dispatch -/

theorem mem_dispatchThreads {X Y Z : Nat} {t : (Nat × Nat × Nat) × (Nat × Nat × Nat)} :
    t ∈ dispatchThreads X Y Z ↔
      (t.1.1 < X ∧ t.1.2.1 < Y ∧ t.1.2.2 < Z) ∧ (t.2.1 < 8 ∧ t.2.2.1 < 8 ∧ t.2.2.2 < 1) := by
  obtain ⟨⟨gx, gy, gz⟩, ⟨tx, ty, tz⟩⟩ := t
  simp [dispatchThreads, threadGroups, groupThreads, numthreads, List.mem_product]

theorem nodup_dispatchThreads (X Y Z : Nat) : (dispatchThreads X Y Z).Nodup := by
  unfold dispatchThreads threadGroups groupThreads
  exact ((List.nodup_range X).product ((List.nodup_range Y).product (List.nodup_range Z))).product
    ((List.nodup_range _).product ((List.nodup_range _).product (List.nodup_range _)))

theorem SV_DispatchThreadID_injOn {X Y Z : Nat}
    {t u : (Nat × Nat × Nat) × (Nat × Nat × Nat)}
    (ht : t ∈ dispatchThreads X Y Z) (hu : u ∈ dispatchThreads X Y Z)
    (h : SV_DispatchThreadID t = SV_DispatchThreadID u) : t = u := by
  obtain ⟨⟨gx, gy, gz⟩, ⟨tx, ty, tz⟩⟩ := t
  obtain ⟨⟨gx', gy', gz'⟩, ⟨tx', ty', tz'⟩⟩ := u
  rw [mem_dispatchThreads] at ht hu
  simp only [SV_DispatchThreadID, numthreads, Prod.mk.injEq] at h ht hu ⊢
  omega

theorem nodup_dispatchIDs (X Y Z : Nat) :
    ((dispatchThreads X Y Z).map SV_DispatchThreadID).Nodup :=
  List.Nodup.map_on (fun _ ht _ hu h => SV_DispatchThreadID_injOn ht hu h)
    (nodup_dispatchThreads X Y Z)

theorem mem_dispatchIDs {X Y Z : Nat} {id : Nat × Nat × Nat} :
    id ∈ (dispatchThreads X Y Z).map SV_DispatchThreadID ↔
      id.1 < 8 * X ∧ id.2.1 < 8 * Y ∧ id.2.2 < Z := by
  obtain ⟨x, y, z⟩ := id
  simp only [List.mem_map, mem_dispatchThreads]
  constructor
  · rintro ⟨⟨⟨gx, gy, gz⟩, ⟨tx, ty, tz⟩⟩, h, he⟩
    simp only [SV_DispatchThreadID, numthreads, Prod.mk.injEq] at he h ⊢
    omega
  · intro h
    simp only at h
    refine ⟨((x / 8, y / 8, z), (x % 8, y % 8, 0)), ?_, ?_⟩
    · simp only
      omega
    · simp only [SV_DispatchThreadID, numthreads, Prod.mk.injEq]
      omega

/-- C6.  For window width `w ≥ 1` and height `h ≥ 1`, `ApplyBlurEffect` dispatches
`⌈w/8⌉ × ⌈h/8⌉ × 1` groups (computed as `(w+7)/8`, `(h+7)/8`) of `8 × 8` threads;
every pixel `(x, y)` with `x < w`, `y < h` is the dispatch id of exactly one launched
thread; and every launched thread with `x ≥ w` or `y ≥ h` returns without writing. -/
theorem dispatch_covers_every_pixel_once (w h : Nat) (hw : 1 ≤ w) (hh : 1 ≤ h) :
    dispatchSize w h = ((w + 7) / 8, (h + 7) / 8, 1) ∧
    dispatchSize w h = (⌈(w : ℚ) / 8⌉₊, ⌈(h : ℚ) / 8⌉₊, 1) ∧
    (threadGroups (dispatchSize w h).1 (dispatchSize w h).2.1 (dispatchSize w h).2.2).length
      = ⌈(w : ℚ) / 8⌉₊ * ⌈(h : ℚ) / 8⌉₊ * 1 ∧
    groupThreads.length = 8 * 8 * 1 ∧
    (dispatchThreads (dispatchSize w h).1 (dispatchSize w h).2.1
      (dispatchSize w h).2.2).Nodup ∧
    (∀ x y, x < w → y < h →
      ∃! t, t ∈ dispatchThreads (dispatchSize w h).1 (dispatchSize w h).2.1
          (dispatchSize w h).2.2 ∧ SV_DispatchThreadID t = (x, y, 0)) ∧
    (∀ t ∈ dispatchThreads (dispatchSize w h).1 (dispatchSize w h).2.1 (dispatchSize w h).2.2,
      (w ≤ (SV_DispatchThreadID t).1 ∨ h ≤ (SV_DispatchThreadID t).2.1) →
        ∀ (R pad : ℚ) (desktop mask : Texture2D),
          main ⟨w, h, R, pad⟩ desktop mask (SV_DispatchThreadID t).1
            (SV_DispatchThreadID t).2.1 = ThreadResult.returned none) := by
  have hceil : ∀ n : Nat, 1 ≤ n → ⌈(n : ℚ) / 8⌉₊ = (n + 7) / 8 := by
    intro n hn
    have h1 : 8 * ((n + 7) / 8) ≤ n + 7 := Nat.mul_div_le _ _
    have h2 : n ≤ 8 * ((n + 7) / 8) := by omega
    have hq : 1 ≤ (n + 7) / 8 := by omega
    generalize (n + 7) / 8 = q at h1 h2 hq
    have h1q : (8 : ℚ) * q ≤ n + 7 := by exact_mod_cast h1
    have h2q : (n : ℚ) ≤ 8 * q := by exact_mod_cast h2
    rw [Nat.ceil_eq_iff (by omega), Nat.cast_sub hq, Nat.cast_one]
    constructor
    · rw [lt_div_iff₀ (by norm_num)]; linarith
    · rw [div_le_iff₀ (by norm_num)]; linarith
  have hsize : dispatchSize w h = ((w + 7) / 8, (h + 7) / 8, 1) := rfl
  refine ⟨hsize, ?_, ?_, rfl, nodup_dispatchThreads _ _ _, ?_, ?_⟩
  · rw [hsize, hceil w hw, hceil h hh]
  · rw [hceil w hw, hceil h hh, hsize]
    simp only [threadGroups, List.length_product, List.length_range, Nat.mul_assoc]
  · intro x y hx hy
    have hmem : (x, y, 0) ∈ (dispatchThreads (dispatchSize w h).1 (dispatchSize w h).2.1
        (dispatchSize w h).2.2).map SV_DispatchThreadID := by
      rw [mem_dispatchIDs, hsize]
      simp only
      omega
    obtain ⟨t, ht, hte⟩ := List.mem_map.mp hmem
    exact ⟨t, ⟨ht, hte⟩, fun u hu => SV_DispatchThreadID_injOn hu.1 ht (hu.2.trans hte.symm)⟩
  · intro t _ hout R pad desktop mask
    unfold main mainWith
    rw [if_pos (by simpa only [ge_iff_le] using hout)]

/-- Witness of C6: a 5 x 3 window (smaller than one group) dispatches 1 x 1 x 1 groups,
pixel `(4, 2)` is the id of exactly one thread, and the thread with id `(7, 7, 0)`
writes nothing. -/
theorem dispatch_covers_every_pixel_once_witness :
    dispatchSize 5 3 = (1, 1, 1) ∧
    (∃! t, t ∈ dispatchThreads 1 1 1 ∧ SV_DispatchThreadID t = (4, 2, 0)) ∧
    main ⟨5, 3, 13, 0⟩ greyDesktop fullMask 7 7 = ThreadResult.returned none :=
  ⟨(dispatch_covers_every_pixel_once 5 3 (by decide) (by decide)).1,
    (dispatch_covers_every_pixel_once 5 3 (by decide) (by decide)).2.2.2.2.2.1 4 2
      (by decide) (by decide),
    (dispatch_covers_every_pixel_once 5 3 (by decide) (by decide)).2.2.2.2.2.2
      ((0, 0, 0), (7, 7, 0)) (by decide) (Or.inl (by decide)) 13 0 greyDesktop fullMask⟩

/-! ## Textures after a dispatch -/

theorem store_width (t : Texture2D) (i j : Nat) (c : Float4) :
    (t.store i j c).width = t.width := by
  unfold Texture2D.store; split_ifs <;> rfl

theorem store_height (t : Texture2D) (i j : Nat) (c : Float4) :
    (t.store i j c).height = t.height := by
  unfold Texture2D.store; split_ifs <;> rfl

theorem store_texel (t : Texture2D) (i j : Nat) (c : Float4) (x y : Nat) :
    (t.store i j c).texel x y =
      if (i < t.width ∧ j < t.height) ∧ x = i ∧ y = j then c else t.texel x y := by
  unfold Texture2D.store
  by_cases h : i < t.width ∧ j < t.height
  · simp [h]
  · simp [h]

theorem runThreads_cons (cb : BlurConstants) (I M out : Texture2D) (id : Nat × Nat × Nat)
    (ids : List (Nat × Nat × Nat)) :
    runThreads cb I M out (id :: ids) =
      runThreads cb I M
        (match (main cb I M id.1 id.2.1).stored with
          | some c => out.store id.1 id.2.1 c
          | none => out) ids := rfl

theorem runThreads_size (cb : BlurConstants) (I M : Texture2D) :
    ∀ (ids : List (Nat × Nat × Nat)) (out : Texture2D),
      (runThreads cb I M out ids).width = out.width ∧
      (runThreads cb I M out ids).height = out.height := by
  intro ids
  induction ids with
  | nil => intro out; exact ⟨rfl, rfl⟩
  | cons id ids ih =>
    intro out
    rw [runThreads_cons]
    cases (main cb I M id.1 id.2.1).stored with
    | none => exact ih out
    | some c =>
      have := ih (out.store id.1 id.2.1 c)
      simpa only [store_width, store_height] using this

/-- After the threads have run, a texel inside the output that is the id of a launched
thread holds what `main` stored there, if it stored; every other texel is unchanged. -/
theorem runThreads_texel (cb : BlurConstants) (I M : Texture2D) (x y : Nat) :
    ∀ (ids : List (Nat × Nat × Nat)) (out : Texture2D),
      (runThreads cb I M out ids).texel x y =
        if (∃ id ∈ ids, id.1 = x ∧ id.2.1 = y) ∧ x < out.width ∧ y < out.height then
          (main cb I M x y).stored.getD (out.texel x y)
        else out.texel x y := by
  intro ids
  induction ids with
  | nil => intro out; simp [runThreads]
  | cons id ids ih =>
    intro out
    rw [runThreads_cons, ih]
    by_cases hid : id.1 = x ∧ id.2.1 = y
    · obtain ⟨h1, h2⟩ := hid
      subst h1 h2
      cases hm : (main cb I M id.1 id.2.1).stored with
      | none => simp
      | some c =>
        simp only [store_width, store_height, store_texel, Option.getD_some]
        by_cases hr : id.1 < out.width ∧ id.2.1 < out.height
        · simp [hr]
        · simp [hr]
    · have hex : (∃ id' ∈ id :: ids, id'.1 = x ∧ id'.2.1 = y) ↔
          (∃ id' ∈ ids, id'.1 = x ∧ id'.2.1 = y) := by
        simp only [List.mem_cons, exists_eq_or_imp, hid, false_or]
      have hne : ¬ (x = id.1 ∧ y = id.2.1) := fun h => hid ⟨h.1.symm, h.2.symm⟩
      cases hm : (main cb I M id.1 id.2.1).stored with
      | none => simp only [hex]
      | some c => simp only [hex, store_width, store_height, store_texel, hne, and_false, if_false]

/-! ## The invariant of the frame pipeline -/

theorem setTexture_size (T : Resource → Texture2D) (r : Resource) (t : Texture2D)
    (ht : t.width = (T r).width ∧ t.height = (T r).height) (r' : Resource) :
    (setTexture T r t r').width = (T r').width ∧
      (setTexture T r t r').height = (T r').height := by
  unfold setTexture
  by_cases h : r' = r
  · subst h; simpa using ht
  · simp [h]

/-- A step keeps the invariant when it changes of `g_Application` only the window
size, the running flag, the duplication handle and the back-buffer view, and keeps the
compute-stage slots null and the texture sizes. -/
theorem WellFormed.update {s s' : State} (h : WellFormed s)
    (rtv : Option View) (w h' : Nat) (run : Bool) (dd : Option Nat)
    (hrtv : rtv = none ∨ rtv = some ⟨Resource.backBuffer⟩)
    (happ : s'.app = { s.app with renderTargetView := rtv
                                  windowWidth := w
                                  windowHeight := h'
                                  isRunning := run
                                  desktopDuplication := dd })
    (hsr : ∀ i, s'.ctx.csShaderResources i = none)
    (hua : ∀ i, s'.ctx.csUnorderedAccessViews i = none)
    (hsz : ∀ r, r ≠ Resource.backBuffer → (s'.textures r).width = (s.textures r).width ∧
      (s'.textures r).height = (s.textures r).height) : WellFormed s' := by
  obtain ⟨h1, _, h3, h4, h5, h6, h7, h8, h9, h10, h11, _, _, h14, h15, h16⟩ := h
  refine ⟨?_, ?_, ?_, ?_, ?_, ?_, ?_, ?_, ?_, ?_, ?_, hsr, hua, ?_, ?_, ?_⟩
  · rw [happ]; exact h1
  · rw [happ]; exact hrtv
  · rw [happ]; exact h3
  · rw [happ]; exact h4
  · rw [happ]; exact h5
  · rw [happ]; exact h6
  · rw [happ]; exact h7
  · rw [happ]; exact h8
  · rw [happ]; exact h9
  · rw [happ]; exact h10
  · rw [happ]; exact h11
  · rw [(hsz _ (by decide)).1, (hsz _ (by decide)).2]; exact h14
  · rw [(hsz _ (by decide)).1, (hsz _ (by decide)).2]; exact h15
  · rw [(hsz _ (by decide)).1, (hsz _ (by decide)).2]; exact h16

/-- A step that keeps `g_Application`, the compute-stage slots and the texture sizes
keeps the invariant. -/
theorem WellFormed.step {s s' : State} (h : WellFormed s) (happ : s'.app = s.app)
    (hsr : s'.ctx.csShaderResources = s.ctx.csShaderResources)
    (hua : s'.ctx.csUnorderedAccessViews = s.ctx.csUnorderedAccessViews)
    (hsz : ∀ r, (s'.textures r).width = (s.textures r).width ∧
      (s'.textures r).height = (s.textures r).height) : WellFormed s' :=
  h.update s.app.renderTargetView s.app.windowWidth s.app.windowHeight s.app.isRunning
    s.app.desktopDuplication h.renderTargetView happ
    (fun i => by rw [hsr]; exact h.csShaderResources i)
    (fun i => by rw [hua]; exact h.csUnorderedAccessViews i) (fun r _ => hsz r)

theorem ClearRenderTargetView_wellFormed {s : State} (h : WellFormed s) (v : Option View) :
    WellFormed (ClearRenderTargetView s v) := by
  cases v with
  | none => exact h
  | some v => exact h.step rfl rfl rfl (setTexture_size _ _ _ ⟨rfl, rfl⟩)

theorem Draw_wellFormed {s : State} (h : WellFormed s) (f : Nat → Nat → Option Float4) :
    WellFormed (Draw s f) := by
  unfold Draw
  cases s.ctx.omRenderTargets 0 with
  | none => exact h
  | some v => exact h.step rfl rfl rfl (setTexture_size _ _ _ ⟨rfl, rfl⟩)

theorem OMSetRenderTargets_wellFormed {s : State} (h : WellFormed s)
    (views : List (Option View)) :
    WellFormed { s with ctx := s.ctx.OMSetRenderTargets views } :=
  h.step rfl rfl rfl (fun _ => ⟨rfl, rfl⟩)

theorem CopySubresourceRegion_size (dst src : Texture2D) (box : D3D11_BOX) :
    (CopySubresourceRegion dst src box).width = dst.width ∧
      (CopySubresourceRegion dst src box).height = dst.height := by
  unfold CopySubresourceRegion
  split_ifs <;> exact ⟨rfl, rfl⟩

theorem Application.eq_with_desktopDuplication (a : Application) {d : Option Nat}
    (hd : a.desktopDuplication = d) : a = { a with desktopDuplication := d } := by
  cases a
  simp only at hd
  subst hd
  rfl

/-- What `GrabDesktopBehindWindow` leaves alone: everything of `g_Application` but the
duplication handle, the context, the constants, and every texture but the desktop. -/
theorem GrabDesktopBehindWindow_frame {env : FrameEnv} {s s' : State} {b : Bool}
    (hg : GrabDesktopBehindWindow env s = some (s', b)) :
    s'.app = { s.app with desktopDuplication := s'.app.desktopDuplication } ∧
    s'.ctx = s.ctx ∧ s'.constants = s.constants ∧
    (∀ r, r ≠ Resource.desktopTexture → s'.textures r = s.textures r) ∧
    (s'.textures Resource.desktopTexture).width = (s.textures Resource.desktopTexture).width ∧
    (s'.textures Resource.desktopTexture).height =
      (s.textures Resource.desktopTexture).height := by
  unfold GrabDesktopBehindWindow at hg
  cases hd : s.app.desktopDuplication with
  | none => rw [hd] at hg; exact absurd hg (by simp)
  | some d =>
    rw [hd] at hg
    simp only at hg
    split at hg <;>
      simp only [Option.some.injEq, Prod.mk.injEq] at hg <;>
      obtain ⟨rfl, -⟩ := hg
    · exact ⟨s.app.eq_with_desktopDuplication rfl, rfl, rfl, fun _ _ => rfl, rfl, rfl⟩
    · unfold InitializeDesktopCapture
      split_ifs <;> exact ⟨rfl, rfl, rfl, fun _ _ => rfl, rfl, rfl⟩
    · exact ⟨s.app.eq_with_desktopDuplication rfl, rfl, rfl, fun _ _ => rfl, rfl, rfl⟩
    · refine ⟨s.app.eq_with_desktopDuplication rfl, rfl, rfl,
        fun r hr => by simp [setTexture, hr], ?_, ?_⟩
      · simp [setTexture, (CopySubresourceRegion_size _ _ _).1]
      · simp [setTexture, (CopySubresourceRegion_size _ _ _).2]

theorem GrabDesktopBehindWindow_wellFormed {env : FrameEnv} {s s' : State} {b : Bool}
    (h : WellFormed s) (hg : GrabDesktopBehindWindow env s = some (s', b)) :
    WellFormed s' := by
  obtain ⟨happ, hctx, -, hother, hw, hh⟩ := GrabDesktopBehindWindow_frame hg
  refine h.update s.app.renderTargetView s.app.windowWidth s.app.windowHeight
    s.app.isRunning s'.app.desktopDuplication h.renderTargetView happ
    (fun i => by rw [hctx]; exact h.csShaderResources i)
    (fun i => by rw [hctx]; exact h.csUnorderedAccessViews i) ?_
  intro r _
  by_cases hr : r = Resource.desktopTexture
  · subst hr; exact ⟨hw, hh⟩
  · rw [hother r hr]; exact ⟨rfl, rfl⟩

theorem renderCapture_wellFormed {env : FrameEnv} {s s' : State} (h : WellFormed s)
    (hr : renderCapture env s = some s') : WellFormed s' := by
  unfold renderCapture at hr
  simp only [Option.map_eq_some', Prod.exists, exists_and_right, exists_eq_right] at hr
  obtain ⟨b, hg⟩ := hr
  refine GrabDesktopBehindWindow_wellFormed ?_ hg
  refine OMSetRenderTargets_wellFormed ?_ _
  refine Draw_wellFormed ?_ _
  refine OMSetRenderTargets_wellFormed ?_ _
  exact ClearRenderTargetView_wellFormed (ClearRenderTargetView_wellFormed
    (ClearRenderTargetView_wellFormed (ClearRenderTargetView_wellFormed h _) _) _) _

theorem Dispatch_size (s : State) (X Y Z : Nat) (r : Resource) :
    ((Dispatch s X Y Z).textures r).width = (s.textures r).width ∧
      ((Dispatch s X Y Z).textures r).height = (s.textures r).height := by
  unfold Dispatch
  by_cases h : s.ctx.csShader = true
  · rw [if_pos h]
    split
    · exact ⟨rfl, rfl⟩
    · exact setTexture_size _ _ _ (runThreads_size _ _ _ _ _) r
  · rw [if_neg h]; exact ⟨rfl, rfl⟩

theorem Dispatch_app (s : State) (X Y Z : Nat) : (Dispatch s X Y Z).app = s.app := by
  unfold Dispatch
  by_cases h : s.ctx.csShader = true
  · rw [if_pos h]
    split <;> rfl
  · rw [if_neg h]

theorem Dispatch_ctx (s : State) (X Y Z : Nat) : (Dispatch s X Y Z).ctx = s.ctx := by
  unfold Dispatch
  by_cases h : s.ctx.csShader = true
  · rw [if_pos h]
    split <;> rfl
  · rw [if_neg h]

theorem setSlots_null3 (slots : Nat → Option View) (views : List (Option View))
    (hlen : views.length ≤ 3) (hs : ∀ i, slots i = none) (i : Nat) :
    setSlots (setSlots slots 0 views) 0 [none, none, none] i = none := by
  unfold setSlots
  simp only [List.length_cons, List.length_nil]
  split_ifs with h1 h2
  · obtain ⟨-, h⟩ := h1
    have : i - 0 = 0 ∨ i - 0 = 1 ∨ i - 0 = 2 := by omega
    rcases this with h | h | h <;> rw [h] <;> rfl
  · omega
  · exact hs i

theorem ApplyBlurEffect_wellFormed {s : State} (h : WellFormed s) (env : FrameEnv) (r : ℚ) :
    WellFormed (ApplyBlurEffect env s r) := by
  unfold ApplyBlurEffect
  split_ifs
  · refine h.update s.app.renderTargetView s.app.windowWidth s.app.windowHeight
      s.app.isRunning s.app.desktopDuplication h.renderTargetView ?_ ?_ ?_ ?_
    · simp only [unbindBlur, Dispatch_app, bindBlur]
      split_ifs <;> rfl
    · intro i
      simp only [unbindBlur, Dispatch_ctx, bindBlur, DeviceContext.CSSetShader,
        DeviceContext.CSSetShaderResources, DeviceContext.CSSetUnorderedAccessViews,
        DeviceContext.CSSetConstantBuffers, DeviceContext.OMSetRenderTargets,
        DeviceContext.PSSetShaderResources]
      refine setSlots_null3 _ _ (by simp) ?_ i
      split_ifs <;> exact h.csShaderResources
    · intro i
      simp only [unbindBlur, Dispatch_ctx, bindBlur, DeviceContext.CSSetShader,
        DeviceContext.CSSetShaderResources, DeviceContext.CSSetUnorderedAccessViews,
        DeviceContext.CSSetConstantBuffers, DeviceContext.OMSetRenderTargets,
        DeviceContext.PSSetShaderResources]
      refine setSlots_null3 _ _ (by simp) ?_ i
      split_ifs <;> exact h.csUnorderedAccessViews
    · intro r' _
      simp only [unbindBlur]
      rw [(Dispatch_size _ _ _ _ r').1, (Dispatch_size _ _ _ _ r').2]
      simp only [bindBlur]
      split_ifs <;> exact ⟨rfl, rfl⟩
  · exact h

theorem renderPresent_wellFormed {s : State} (h : WellFormed s) (env : FrameEnv) :
    WellFormed (renderPresent env s) := by
  unfold renderPresent RenderBlurQuad
  have h1 := OMSetRenderTargets_wellFormed h [s.app.renderTargetView]
  show WellFormed (Draw _ _)
  apply Draw_wellFormed
  apply h1.step
  · rfl
  · rfl
  · rfl
  · exact fun _ => ⟨rfl, rfl⟩

theorem Render_wellFormed {env : FrameEnv} {s s' : State} (h : WellFormed s)
    (hr : Render env s = some s') : WellFormed s' := by
  unfold Render at hr
  simp only [Option.map_eq_some'] at hr
  obtain ⟨s5, h5, rfl⟩ := hr
  exact renderPresent_wellFormed (ApplyBlurEffect_wellFormed (renderCapture_wellFormed h h5) _ _) _

theorem initialState_wellFormed (memory : Resource → Nat → Nat → Float4)
    (cb : BlurConstants) : WellFormed (initialState memory cb) :=
  ⟨rfl, Or.inr rfl, rfl, rfl, rfl, rfl, rfl, rfl, rfl, rfl, rfl, fun _ => rfl, fun _ => rfl,
    ⟨rfl, rfl⟩, ⟨rfl, rfl⟩, ⟨rfl, rfl⟩⟩

theorem WindowProc_wellFormed {m : Message} {s s' : State} (h : WellFormed s)
    (hm : WindowProc m s = some s') : WellFormed s' := by
  cases m with
  | WM_DESTROY =>
    simp only [WindowProc, Option.some.injEq] at hm
    subst hm
    exact h.update s.app.renderTargetView s.app.windowWidth s.app.windowHeight false
      s.app.desktopDuplication h.renderTargetView rfl h.csShaderResources
      h.csUnorderedAccessViews (fun _ _ => ⟨rfl, rfl⟩)
  | WM_NCHITTEST =>
    simp only [WindowProc, Option.some.injEq] at hm
    subst hm; exact h
  | WM_SIZE lParam resizeBuffersOk createViewOk =>
    simp only [WindowProc] at hm
    rw [if_pos h.swapChain, Option.some.injEq] at hm
    subst hm
    refine h.update (if createViewOk = true then some ⟨Resource.backBuffer⟩ else none)
      (LOWORD lParam) (HIWORD lParam) s.app.isRunning s.app.desktopDuplication ?_ rfl
      h.csShaderResources h.csUnorderedAccessViews ?_
    · split_ifs
      · exact Or.inr rfl
      · exact Or.inl rfl
    · intro r hr
      simp [setTexture, hr]
  | WM_MOVE env =>
    simp only [WindowProc] at hm
    rw [if_pos h.swapChain] at hm
    exact Render_wellFormed h hm

/-- Every reachable state satisfies the invariant. -/
theorem Reachable.wellFormed {s : State} (h : Reachable s) : WellFormed s := by
  induction h with
  | start memory cb => exact initialState_wellFormed memory cb
  | message m _ hm ih => exact WindowProc_wellFormed ih hm
  | frame env _ _ hr ih => exact Render_wellFormed ih hr

/-! ## Binding discipline of `ApplyBlurEffect` -/

/-- The bindings in which `Dispatch` is called, from a state that satisfies the
invariant. -/
theorem bindBlur_bindings {s : State} (h : WellFormed s) (env : FrameEnv) (r : ℚ) :
    (∀ i, (bindBlur env s r).ctx.omRenderTargets i = none) ∧
    (bindBlur env s r).ctx.csShaderResources 0 = some ⟨Resource.desktopTexture⟩ ∧
    (bindBlur env s r).ctx.csShaderResources 1 = some ⟨Resource.maskTexture⟩ ∧
    (∀ i, 2 ≤ i → (bindBlur env s r).ctx.csShaderResources i = none) ∧
    (bindBlur env s r).ctx.csUnorderedAccessViews 0 = some ⟨Resource.blurTexture⟩ ∧
    (∀ i, 1 ≤ i → (bindBlur env s r).ctx.csUnorderedAccessViews i = none) ∧
    (bindBlur env s r).ctx.csShader = true ∧
    (bindBlur env s r).ctx.csConstantBuffers 0 = true := by
  have hctx : (if env.mapOk = true then
      ({ s with constants := ⟨s.app.windowWidth, s.app.windowHeight, r, 0⟩ } : State)
      else s).ctx = s.ctx := by split_ifs <;> rfl
  simp only [bindBlur, hctx, DeviceContext.CSSetShader, DeviceContext.CSSetShaderResources,
    DeviceContext.CSSetUnorderedAccessViews, DeviceContext.CSSetConstantBuffers,
    DeviceContext.OMSetRenderTargets, DeviceContext.PSSetShaderResources, setSlots,
    h.desktopSRV, h.maskSRV, h.blurOutputUAV, h.blurComputeShader, h.blurConstantBuffer]
  refine ⟨fun i => by simp, by simp, by simp, ?_, by simp, ?_, trivial, by simp⟩
  · intro i hi
    rw [if_neg (by simp only [List.length_cons, List.length_nil]; omega)]
    exact h.csShaderResources i
  · intro i hi
    rw [if_neg (by simp only [List.length_cons, List.length_nil]; omega)]
    exact h.csUnorderedAccessViews i

/-- C7.  In every frame run by `Render` from a reachable state (whatever bindings the
previous frame left), in the binding state in which `ApplyBlurEffect` calls `Dispatch`:
no render-target view is bound; the compute-stage resources are the desktop at `t0`
and the mask at `t1` and nothing else; the only unordered-access view bound is
`blurOutput` at `u0`; so no texture bound as a compute-stage resource is bound as a
render target or as an unordered-access view. -/
theorem no_binding_hazard_at_dispatch (s : State) (hs : Reachable s) (env : FrameEnv)
    (d : State) (hd : Render.atDispatch env s = some d) :
    (∀ i, d.ctx.omRenderTargets i = none) ∧
    d.ctx.csShaderResources 0 = some ⟨Resource.desktopTexture⟩ ∧
    d.ctx.csShaderResources 1 = some ⟨Resource.maskTexture⟩ ∧
    (∀ i, 2 ≤ i → d.ctx.csShaderResources i = none) ∧
    d.ctx.csUnorderedAccessViews 0 = some ⟨Resource.blurTexture⟩ ∧
    (∀ i, 1 ≤ i → d.ctx.csUnorderedAccessViews i = none) ∧
    (∀ i v, d.ctx.csShaderResources i = some v →
      (∀ j w, d.ctx.omRenderTargets j = some w → w.resource ≠ v.resource) ∧
      (∀ j u, d.ctx.csUnorderedAccessViews j = some u → u.resource ≠ v.resource)) := by
  unfold Render.atDispatch at hd
  obtain ⟨s5, h5, hd5⟩ := Option.bind_eq_some.mp hd
  have hwf := renderCapture_wellFormed hs.wellFormed h5
  split_ifs at hd5
  obtain rfl := Option.some.inj hd5
  obtain ⟨hrt, ht0, ht1, ht2, hu0, hu1, -, -⟩ := bindBlur_bindings hwf env defaultBlurRadius
  refine ⟨hrt, ht0, ht1, ht2, hu0, hu1, ?_⟩
  intro i v hv
  have hv' : v.resource = Resource.desktopTexture ∨ v.resource = Resource.maskTexture := by
    rcases Nat.lt_or_ge i 2 with hi | hi
    · have : i = 0 ∨ i = 1 := by omega
      rcases this with rfl | rfl
      · rw [ht0] at hv; left; rw [← Option.some.inj hv]
      · rw [ht1] at hv; right; rw [← Option.some.inj hv]
    · rw [ht2 i hi] at hv; exact absurd hv (by simp)
  refine ⟨fun j w hw => by rw [hrt j] at hw; exact absurd hw (by simp), ?_⟩
  intro j u hu
  rcases Nat.eq_zero_or_pos j with rfl | hj
  · rw [hu0] at hu
    rw [← Option.some.inj hu]
    rcases hv' with h | h <;> rw [h] <;> decide
  · rw [hu1 j hj] at hu; exact absurd hu (by simp)

/-- Witness of C7: the first frame after start-up reaches `Dispatch`. -/
theorem no_binding_hazard_at_dispatch_witness :
    ∃ d, Render.atDispatch quietFrame (initialState blankMemory blankConstants) = some d ∧
      (∀ i, d.ctx.omRenderTargets i = none) ∧
      d.ctx.csShaderResources 0 = some ⟨Resource.desktopTexture⟩ ∧
      d.ctx.csShaderResources 1 = some ⟨Resource.maskTexture⟩ ∧
      d.ctx.csUnorderedAccessViews 0 = some ⟨Resource.blurTexture⟩ :=
  ⟨_, rfl,
    (no_binding_hazard_at_dispatch _ (Reachable.start blankMemory blankConstants) quietFrame
      _ rfl).1,
    (no_binding_hazard_at_dispatch _ (Reachable.start blankMemory blankConstants) quietFrame
      _ rfl).2.1,
    (no_binding_hazard_at_dispatch _ (Reachable.start blankMemory blankConstants) quietFrame
      _ rfl).2.2.1,
    (no_binding_hazard_at_dispatch _ (Reachable.start blankMemory blankConstants) quietFrame
      _ rfl).2.2.2.2.1⟩

/-- C8.  Whenever `ApplyBlurEffect` dispatches, in the binding state at its return the
compute-stage resource slots `t0`, `t1` (and `t2`), the unordered-access slot `u0` (and
`u1`, `u2`) are null and the compute shader is unbound. -/
theorem compute_stage_unbound_after_blur (env : FrameEnv) (s : State) (r : ℚ)
    (hd : blurDispatches s = true) :
    (ApplyBlurEffect env s r).ctx.csShaderResources 0 = none ∧
    (ApplyBlurEffect env s r).ctx.csShaderResources 1 = none ∧
    (ApplyBlurEffect env s r).ctx.csShaderResources 2 = none ∧
    (ApplyBlurEffect env s r).ctx.csUnorderedAccessViews 0 = none ∧
    (ApplyBlurEffect env s r).ctx.csUnorderedAccessViews 1 = none ∧
    (ApplyBlurEffect env s r).ctx.csUnorderedAccessViews 2 = none ∧
    (ApplyBlurEffect env s r).ctx.csShader = false := by
  unfold ApplyBlurEffect
  rw [if_pos hd]
  simp [unbindBlur, DeviceContext.CSSetShader, DeviceContext.CSSetShaderResources,
    DeviceContext.CSSetUnorderedAccessViews, setSlots]

/-- Witness of C8: `ApplyBlurEffect` on the state after start-up. -/
theorem compute_stage_unbound_after_blur_witness :
    blurDispatches (initialState blankMemory blankConstants) = true ∧
    (ApplyBlurEffect quietFrame (initialState blankMemory blankConstants)
      13).ctx.csShaderResources 0 = none ∧
    (ApplyBlurEffect quietFrame (initialState blankMemory blankConstants)
      13).ctx.csUnorderedAccessViews 0 = none ∧
    (ApplyBlurEffect quietFrame (initialState blankMemory blankConstants)
      13).ctx.csShader = false :=
  ⟨rfl,
    (compute_stage_unbound_after_blur quietFrame
      (initialState blankMemory blankConstants) 13 rfl).1,
    (compute_stage_unbound_after_blur quietFrame
      (initialState blankMemory blankConstants) 13 rfl).2.2.2.1,
    (compute_stage_unbound_after_blur quietFrame
      (initialState blankMemory blankConstants) 13 rfl).2.2.2.2.2.2⟩

/-! ## Frames without a new desktop image -/

/-- The state in which `ApplyBlurEffect` is called in a frame whose two acquires time
out: `g_Application` and the constants are unchanged, and the desktop and blur textures
are cleared. -/
theorem renderCapture_of_timeout {s : State} (h : WellFormed s) {env : FrameEnv} {d : Nat}
    (hdd : s.app.desktopDuplication = some d)
    (h0 : env.acquire0 = AcquireResult.DXGI_ERROR_WAIT_TIMEOUT)
    (h1 : env.acquire1 = AcquireResult.DXGI_ERROR_WAIT_TIMEOUT) :
    ∃ s5, renderCapture env s = some s5 ∧ s5.app = s.app ∧ s5.constants = s.constants ∧
      s5.textures Resource.desktopTexture = Texture2D.fill 800 600 Float4.zero ∧
      s5.textures Resource.blurTexture = Texture2D.fill 800 600 Float4.zero ∧
      (∀ i j, (s5.textures Resource.maskTexture).texel i j =
        if i < 800 ∧ j < 600 then (env.triangle i j).getD Float4.zero else Float4.zero) := by
  obtain ⟨hd1, hd2⟩ := h.desktopSize
  obtain ⟨hb1, hb2⟩ := h.blurSize
  obtain ⟨hm1, hm2⟩ := h.maskSize
  rcases h.renderTargetView with hr | hr
  · simp [renderCapture, ClearRenderTargetView, RenderTriangle, Draw, GrabDesktopBehindWindow,
      DeviceContext.OMSetRenderTargets, setTexture, h.desktopRTV, h.blurOutputRTV, h.maskRTV,
      hr, hdd, h0, h1, hd1, hd2, hb1, hb2, hm1, hm2, Texture2D.fill]
  · simp [renderCapture, ClearRenderTargetView, RenderTriangle, Draw, GrabDesktopBehindWindow,
      DeviceContext.OMSetRenderTargets, setTexture, h.desktopRTV, h.blurOutputRTV, h.maskRTV,
      hr, hdd, h0, h1, hd1, hd2, hb1, hb2, hm1, hm2, Texture2D.fill]

/-- The textures after `ApplyBlurEffect`, from a state that satisfies the invariant:
the blur texture is what the dispatched threads leave, run on the desktop and mask
textures with the constants of the buffer. -/
theorem ApplyBlurEffect_textures {s : State} (h : WellFormed s) (env : FrameEnv) (r : ℚ) :
    (ApplyBlurEffect env s r).textures =
      setTexture s.textures Resource.blurTexture
        (runThreads
          (if env.mapOk = true then ⟨s.app.windowWidth, s.app.windowHeight, r, 0⟩
            else s.constants)
          (s.textures Resource.desktopTexture) (s.textures Resource.maskTexture)
          (s.textures Resource.blurTexture)
          ((dispatchThreads ((s.app.windowWidth + 7) / 8) ((s.app.windowHeight + 7) / 8)
            1).map SV_DispatchThreadID)) := by
  have hd : blurDispatches s = true := by
    simp [blurDispatches, h.blurComputeShader, h.desktopSRV]
  obtain ⟨-, ht0, ht1, -, hu0, -, hcs, hcb⟩ := bindBlur_bindings h env r
  unfold ApplyBlurEffect
  rw [if_pos hd]
  simp only [unbindBlur, Dispatch, hcs, hcb, if_true, hu0, ht0, ht1, boundTexture, dispatchSize]
  by_cases hm : env.mapOk = true
  · simp [bindBlur, hm]
  · simp [bindBlur, hm]

theorem renderPresent_textures {s : State} (h : WellFormed s) (env : FrameEnv)
    (r : Resource) (hr : r ≠ Resource.backBuffer) :
    (renderPresent env s).textures r = s.textures r := by
  rcases h.renderTargetView with hv | hv
  · simp [renderPresent, RenderBlurQuad, Draw, DeviceContext.OMSetRenderTargets,
      DeviceContext.PSSetShaderResources, hv]
  · simp [renderPresent, RenderBlurQuad, Draw, DeviceContext.OMSetRenderTargets,
      DeviceContext.PSSetShaderResources, hv, setTexture, hr]

/-- On a desktop that reads as zero everywhere, a thread of the blur with a radius
`≥ 0` stores nothing or stores `(0, 0, 0, 0)`. -/
theorem main_of_zero_desktop (cb : BlurConstants) (D M : Texture2D)
    (hD : ∀ x y, D.load x y = Float4.zero) (_hR : 0 ≤ cb.blurRadius) (x y : Nat) :
    (main cb D M x y).stored = none ∨ (main cb D M x y).stored = some ⟨0, 0, 0, 0⟩ := by
  have hinv : ∀ acc, blurLoops exactArithmetic loopFuel cb D x y (ftoi cb.blurRadius) =
      some acc → acc.1 = Float4.zero := by
    intro acc hacc
    unfold blurLoops at hacc
    refine forLoop_invariant (fun a : Float4 × ℚ => a.1 = Float4.zero) _ _ ?_ _ _ _ _ rfl hacc
    intro v a a' ha hb
    refine forLoop_invariant (fun a : Float4 × ℚ => a.1 = Float4.zero) _ _ ?_ _ _ _ _ ha hb
    intro v' b b' hb0 hb1
    simp only [Option.some.injEq] at hb1
    rw [← hb1]
    simp only [hb0, hD, Float4.add, Float4.zero, exactArithmetic, add_zero]
  unfold main mainWith
  by_cases hout : x ≥ cb.textureWidth ∨ y ≥ cb.textureHeight
  · rw [if_pos hout]; exact Or.inl rfl
  · rw [if_neg hout]
    by_cases hm : (M.load x y).a ≤ 0
    · simp only [if_pos hm]; exact Or.inr rfl
    · simp only [if_neg hm]
      cases hl : blurLoops exactArithmetic loopFuel cb D x y (ftoi cb.blurRadius) with
      | none => exact Or.inl rfl
      | some acc =>
        right
        simp [ThreadResult.stored, hinv acc hl, Float4.zero, Float4.divScalar, exactArithmetic]

/-- The blur of an 800 x 600 desktop that is white everywhere, at the centre pixel,
where the mask alpha is 1. -/
theorem main_of_white_desktop (D M : Texture2D) (hDw : D.width = 800) (hDh : D.height = 600)
    (huni : ∀ i j, i < 800 → j < 600 → D.texel i j = ⟨1, 1, 1, 1⟩)
    (hM : (M.load 400 300).a = 1) :
    main ⟨800, 600, defaultBlurRadius, 0⟩ D M 400 300 =
      ThreadResult.returned (some ⟨1, 1, 1, 1⟩) := by
  have hR : (0 : ℚ) ≤ defaultBlurRadius := by norm_num [defaultBlurRadius]
  have hk1 : ⌊defaultBlurRadius⌋ < INT_MAX := by
    have h13 : ⌊defaultBlurRadius⌋ = 13 := by simp [defaultBlurRadius]
    rw [h13]; decide
  rw [main_of_uniform_desktop D M defaultBlurRadius 0 ⟨1, 1, 1, 1⟩ hDw hDh huni hR hk1
    (by decide) (by decide) (by rw [hM]; exact one_pos)]
  simp only [hM, mul_one]

theorem load_fill_zero (w h x y : Nat) :
    (Texture2D.fill w h Float4.zero).load x y = Float4.zero := by
  unfold Texture2D.load Texture2D.fill
  split_ifs <;> rfl

theorem renderPresent_app (env : FrameEnv) (s : State) : (renderPresent env s).app = s.app := by
  unfold renderPresent RenderBlurQuad Draw
  simp only
  split <;> rfl

theorem ApplyBlurEffect_app (env : FrameEnv) (s : State) (r : ℚ) :
    (ApplyBlurEffect env s r).app = s.app := by
  unfold ApplyBlurEffect
  split_ifs
  · simp only [unbindBlur, Dispatch_app, bindBlur]
    split_ifs <;> rfl
  · rfl

theorem exists_dispatchID_iff (X Y x y : Nat) :
    (∃ id ∈ (dispatchThreads X Y 1).map SV_DispatchThreadID, id.1 = x ∧ id.2.1 = y) ↔
      x < 8 * X ∧ y < 8 * Y := by
  constructor
  · rintro ⟨id, hid, rfl, rfl⟩
    rw [mem_dispatchIDs] at hid
    exact ⟨hid.1, hid.2.1⟩
  · rintro ⟨hx, hy⟩
    exact ⟨(x, y, 0), mem_dispatchIDs.mpr ⟨hx, hy, Nat.zero_lt_one⟩, rfl, rfl⟩

/-- The blur texture at the end of a frame, texel by texel, when `Map` succeeds: a
texel that is the id of a dispatched thread and lies in the 800 x 600 texture holds
what `main` wrote, if it wrote; any other texel is as `ApplyBlurEffect` found it. -/
theorem blur_texel_after_frame {s : State} (h : WellFormed s) (env : FrameEnv)
    (hmap : env.mapOk = true) (r : ℚ) (x y : Nat) :
    ((renderPresent env (ApplyBlurEffect env s r)).textures Resource.blurTexture).texel x y =
      if (x < 8 * ((s.app.windowWidth + 7) / 8) ∧ y < 8 * ((s.app.windowHeight + 7) / 8)) ∧
          x < 800 ∧ y < 600 then
        (main ⟨s.app.windowWidth, s.app.windowHeight, r, 0⟩
          (s.textures Resource.desktopTexture) (s.textures Resource.maskTexture) x y).stored.getD
          ((s.textures Resource.blurTexture).texel x y)
      else (s.textures Resource.blurTexture).texel x y := by
  rw [renderPresent_textures (ApplyBlurEffect_wellFormed h env _) env _ (by decide),
    ApplyBlurEffect_textures h, hmap, if_pos rfl]
  simp only [setTexture, if_true]
  rw [runThreads_texel, h.blurSize.1, h.blurSize.2]
  simp only [exists_dispatchID_iff]

/-- C10, as amended.  In a frame run from a reachable state in which both acquires
time out (and `Map` succeeds), `Render` does not reuse the last captured desktop: the
desktop texture the blur reads has been cleared and is `(0, 0, 0, 0)` everywhere, and
the `blurOutput` the frame produces is `(0, 0, 0, 0)` at every pixel. -/
theorem frame_without_update_blurs_cleared_desktop (s : State) (hs : Reachable s)
    (env : FrameEnv) (dup : Nat) (hdd : s.app.desktopDuplication = some dup)
    (h0 : env.acquire0 = AcquireResult.DXGI_ERROR_WAIT_TIMEOUT)
    (h1 : env.acquire1 = AcquireResult.DXGI_ERROR_WAIT_TIMEOUT)
    (hmap : env.mapOk = true) :
    ∃ d s', Render.atDispatch env s = some d ∧ Render env s = some s' ∧
      d.ctx.csShaderResources 0 = some ⟨Resource.desktopTexture⟩ ∧
      d.textures Resource.desktopTexture = Texture2D.fill 800 600 Float4.zero ∧
      (∀ x y, (s'.textures Resource.blurTexture).texel x y = ⟨0, 0, 0, 0⟩) := by
  have hwf := hs.wellFormed
  obtain ⟨s5, h5, happ, -, hdesk, hblur, -⟩ := renderCapture_of_timeout hwf hdd h0 h1
  have hwf5 := renderCapture_wellFormed hwf h5
  have hdisp : blurDispatches s5 = true := by
    simp [blurDispatches, hwf5.blurComputeShader, hwf5.desktopSRV]
  refine ⟨bindBlur env s5 defaultBlurRadius,
    renderPresent env (ApplyBlurEffect env s5 defaultBlurRadius), ?_, ?_,
    (bindBlur_bindings hwf5 env defaultBlurRadius).2.1, ?_, ?_⟩
  · simp [Render.atDispatch, h5, hdisp]
  · simp [Render, h5]
  · rw [← hdesk]
    simp only [bindBlur, hmap, if_true]
  · intro x y
    rw [blur_texel_after_frame hwf5 env hmap, hdesk, hblur]
    have hz := main_of_zero_desktop
      ⟨s5.app.windowWidth, s5.app.windowHeight, defaultBlurRadius, 0⟩
      (Texture2D.fill 800 600 Float4.zero) (s5.textures Resource.maskTexture)
      (load_fill_zero 800 600) (by norm_num [defaultBlurRadius]) x y
    split_ifs
    · rcases hz with hz | hz
      · rw [hz]; rfl
      · rw [hz]; rfl
    · rfl

/-- Witness of C10 (amended): the first frame after start-up, with both acquires
timing out. -/
theorem frame_without_update_blurs_cleared_desktop_witness :
    ∃ d s', Render.atDispatch quietFrame (initialState blankMemory blankConstants) = some d ∧
      Render quietFrame (initialState blankMemory blankConstants) = some s' ∧
      d.ctx.csShaderResources 0 = some ⟨Resource.desktopTexture⟩ ∧
      d.textures Resource.desktopTexture = Texture2D.fill 800 600 Float4.zero ∧
      (∀ x y, (s'.textures Resource.blurTexture).texel x y = ⟨0, 0, 0, 0⟩) :=
  frame_without_update_blurs_cleared_desktop (initialState blankMemory blankConstants)
    (Reachable.start blankMemory blankConstants) quietFrame 0 rfl rfl rfl rfl

/-- C9, evaluated.  After start-up at 800 x 600 and a `WM_SIZE` to 1024 x 768, in the
next frame the client size and the `BlurConstants` written by `ApplyBlurEffect` are
1024 x 768 while the desktop, mask and blur textures are still 800 x 600. -/
theorem resize_keeps_offscreen_textures_at_creation_size :
    ∃ s1 d,
      WindowProc (Message.WM_SIZE (1024 + 65536 * 768) true true)
        (initialState blankMemory blankConstants) = some s1 ∧
      (s1.app.windowWidth, s1.app.windowHeight) = (1024, 768) ∧
      Render.atDispatch quietFrame s1 = some d ∧
      (d.constants.textureWidth, d.constants.textureHeight) = (1024, 768) ∧
      ((d.textures Resource.backBuffer).width, (d.textures Resource.backBuffer).height) =
        (1024, 768) ∧
      ((d.textures Resource.desktopTexture).width,
        (d.textures Resource.desktopTexture).height) = (800, 600) ∧
      ((d.textures Resource.maskTexture).width,
        (d.textures Resource.maskTexture).height) = (800, 600) ∧
      ((d.textures Resource.blurTexture).width,
        (d.textures Resource.blurTexture).height) = (800, 600) :=
  ⟨_, _, rfl, rfl, rfl, rfl, rfl, rfl, rfl, rfl⟩

/-- The state in which `ApplyBlurEffect` is called in the first frame after start-up
when the frame delivers the white desktop image. -/
theorem renderCapture_captureFrame :
    ∃ s5, renderCapture captureFrame (initialState blankMemory blankConstants) = some s5 ∧
      s5.app = startApp ∧
      (∀ i j, (s5.textures Resource.desktopTexture).texel i j =
        if i < 800 ∧ j < 600 then ⟨1, 1, 1, 1⟩ else Float4.zero) ∧
      (∀ i j, (s5.textures Resource.maskTexture).texel i j =
        if i < 800 ∧ j < 600 then (quietFrame.triangle i j).getD Float4.zero
        else Float4.zero) :=
  ⟨_, rfl, rfl, fun _ _ => rfl, fun _ _ => rfl⟩

/-- Counterexample to C10.  First frame after start-up: a white desktop image is
captured.  Second frame: both acquires time out; the mask, the radius and the size are
as in the first frame.  At pixel `(400, 300)` the desktop the blur reads is white in
the first frame and `(0, 0, 0, 0)` in the second, and `blurOutput` is white after the
first frame and `(0, 0, 0, 0)` after the second. -/
theorem frame_without_update_changes_blur_output :
    ∃ s1 s2 d1 d2,
      Render captureFrame (initialState blankMemory blankConstants) = some s1 ∧
      Render.atDispatch captureFrame (initialState blankMemory blankConstants) = some d1 ∧
      Render quietFrame s1 = some s2 ∧
      Render.atDispatch quietFrame s1 = some d2 ∧
      quietFrame.acquire0 = AcquireResult.DXGI_ERROR_WAIT_TIMEOUT ∧
      quietFrame.acquire1 = AcquireResult.DXGI_ERROR_WAIT_TIMEOUT ∧
      d1.constants = ⟨800, 600, 13, 0⟩ ∧ d2.constants = ⟨800, 600, 13, 0⟩ ∧
      (∀ x y, (d1.textures Resource.maskTexture).texel x y =
        (d2.textures Resource.maskTexture).texel x y) ∧
      (d1.textures Resource.desktopTexture).texel 400 300 = ⟨1, 1, 1, 1⟩ ∧
      (d2.textures Resource.desktopTexture).texel 400 300 = ⟨0, 0, 0, 0⟩ ∧
      (s1.textures Resource.blurTexture).texel 400 300 = ⟨1, 1, 1, 1⟩ ∧
      (s2.textures Resource.blurTexture).texel 400 300 = ⟨0, 0, 0, 0⟩ := by
  have hwf0 := initialState_wellFormed blankMemory blankConstants
  obtain ⟨s5, h5, happ5, hdesk5, hmask5⟩ := renderCapture_captureFrame
  have hwf5 := renderCapture_wellFormed hwf0 h5
  have hdisp5 : blurDispatches s5 = true := by
    simp [blurDispatches, hwf5.blurComputeShader, hwf5.desktopSRV]
  have hR1 : Render captureFrame (initialState blankMemory blankConstants) =
      some (renderPresent captureFrame (ApplyBlurEffect captureFrame s5 defaultBlurRadius)) := by
    simp [Render, h5]
  have hwf1 := Render_wellFormed hwf0 hR1
  have happ1 : (renderPresent captureFrame
      (ApplyBlurEffect captureFrame s5 defaultBlurRadius)).app = startApp := by
    rw [renderPresent_app, ApplyBlurEffect_app, happ5]
  obtain ⟨s6, h6, happ6, -, hdesk6, hblur6, hmask6⟩ :=
    renderCapture_of_timeout (d := 0) hwf1 (by rw [happ1]; rfl)
      (rfl : quietFrame.acquire0 = _) (rfl : quietFrame.acquire1 = _)
  have hwf6 := renderCapture_wellFormed hwf1 h6
  have hdisp6 : blurDispatches s6 = true := by
    simp [blurDispatches, hwf6.blurComputeShader, hwf6.desktopSRV]
  have hbind : ∀ (env : FrameEnv) (s : State) (r : ℚ), env.mapOk = true →
      (bindBlur env s r).textures = s.textures ∧
      (bindBlur env s r).constants = ⟨s.app.windowWidth, s.app.windowHeight, r, 0⟩ := by
    intro env s r hm
    simp [bindBlur, hm]
  refine ⟨_, renderPresent quietFrame (ApplyBlurEffect quietFrame s6 defaultBlurRadius),
    bindBlur captureFrame s5 defaultBlurRadius, bindBlur quietFrame s6 defaultBlurRadius,
    hR1, ?_, ?_, ?_, rfl, rfl, ?_, ?_, ?_, ?_, ?_, ?_, ?_⟩
  · simp [Render.atDispatch, h5, hdisp5]
  · simp [Render, h6]
  · simp [Render.atDispatch, h6, hdisp6]
  · rw [(hbind captureFrame s5 _ rfl).2, happ5]; rfl
  · rw [(hbind quietFrame s6 _ rfl).2, happ6, happ1]; rfl
  · intro x y
    rw [(hbind captureFrame s5 _ rfl).1, (hbind quietFrame s6 _ rfl).1, hmask5, hmask6]
  · rw [(hbind captureFrame s5 _ rfl).1, hdesk5]; rfl
  · rw [(hbind quietFrame s6 _ rfl).1, hdesk6]; rfl
  · rw [blur_texel_after_frame hwf5 captureFrame rfl, happ5]
    have hma : ((s5.textures Resource.maskTexture).load 400 300).a = 1 := by
      simp [Texture2D.load, hwf5.maskSize.1, hwf5.maskSize.2, hmask5, quietFrame]
    have huni : ∀ i j, i < 800 → j < 600 →
        (s5.textures Resource.desktopTexture).texel i j = ⟨1, 1, 1, 1⟩ := by
      intro i j hi hj
      rw [hdesk5, if_pos ⟨hi, hj⟩]
    rw [if_pos (by decide)]
    show ((main ⟨800, 600, defaultBlurRadius, 0⟩ _ _ 400 300).stored.getD _) = _
    rw [main_of_white_desktop _ _ hwf5.desktopSize.1 hwf5.desktopSize.2 huni hma]
    rfl
  · rw [blur_texel_after_frame hwf6 quietFrame rfl, hdesk6, hblur6]
    have hz := main_of_zero_desktop
      ⟨s6.app.windowWidth, s6.app.windowHeight, defaultBlurRadius, 0⟩
      (Texture2D.fill 800 600 Float4.zero) (s6.textures Resource.maskTexture)
      (load_fill_zero 800 600) (by norm_num [defaultBlurRadius]) 400 300
    split_ifs
    · rcases hz with hz | hz
      · rw [hz]; rfl
      · rw [hz]; rfl
    · rfl

/-! ## The capture step, case by case -/

theorem renderCapture_eq_atGrab (env : FrameEnv) (s : State) :
    renderCapture env s =
      (GrabDesktopBehindWindow env (Render.atGrab env s)).map Prod.fst := rfl

theorem GrabDesktopBehindWindow_of_null {env : FrameEnv} {s : State}
    (hd : s.app.desktopDuplication = none) : GrabDesktopBehindWindow env s = none := by
  unfold GrabDesktopBehindWindow
  rw [hd]

theorem GrabDesktopBehindWindow_of_access_lost {env : FrameEnv} {s : State} {d : Nat}
    (hd : s.app.desktopDuplication = some d)
    (hr : acquireResult env = AcquireResult.DXGI_ERROR_ACCESS_LOST) :
    GrabDesktopBehindWindow env s =
      some ((InitializeDesktopCapture env.duplicateOutputOk
        { s with releasedDuplications := d :: s.releasedDuplications
                 app := { s.app with desktopDuplication := none } }).1, false) := by
  unfold GrabDesktopBehindWindow
  rw [hd]
  show (match acquireResult env with
    | AcquireResult.DXGI_ERROR_WAIT_TIMEOUT => _
    | AcquireResult.DXGI_ERROR_ACCESS_LOST => _
    | AcquireResult.E_FAIL => _
    | AcquireResult.S_OK acquiredDesktopImage => _) = _
  rw [hr]

theorem GrabDesktopBehindWindow_of_acquired {env : FrameEnv} {s : State} {d : Nat}
    {frame : Texture2D} (hd : s.app.desktopDuplication = some d)
    (hr : acquireResult env = AcquireResult.S_OK frame) :
    GrabDesktopBehindWindow env s =
      some ({ s with textures := setTexture s.textures Resource.desktopTexture
                                   (CopySubresourceRegion (s.textures Resource.desktopTexture)
                                     frame (sourceBox env.windowRect)) }, true) := by
  unfold GrabDesktopBehindWindow
  rw [hd]
  show (match acquireResult env with
    | AcquireResult.DXGI_ERROR_WAIT_TIMEOUT => _
    | AcquireResult.DXGI_ERROR_ACCESS_LOST => _
    | AcquireResult.E_FAIL => _
    | AcquireResult.S_OK acquiredDesktopImage => _) = _
  rw [hr]

/-! ## Bookkeeping of the duplication handles -/

theorem ClearRenderTargetView_bookkeeping (s : State) (v : Option View) :
    (ClearRenderTargetView s v).app = s.app ∧
    (ClearRenderTargetView s v).constants = s.constants ∧
    (ClearRenderTargetView s v).releasedDuplications = s.releasedDuplications ∧
    (ClearRenderTargetView s v).nextDuplication = s.nextDuplication := by
  cases v <;> exact ⟨rfl, rfl, rfl, rfl⟩

theorem Draw_bookkeeping (s : State) (f : Nat → Nat → Option Float4) :
    (Draw s f).app = s.app ∧ (Draw s f).constants = s.constants ∧
    (Draw s f).releasedDuplications = s.releasedDuplications ∧
    (Draw s f).nextDuplication = s.nextDuplication := by
  unfold Draw
  split <;> exact ⟨rfl, rfl, rfl, rfl⟩

theorem atGrab_bookkeeping (env : FrameEnv) (s : State) :
    (Render.atGrab env s).app = s.app ∧ (Render.atGrab env s).constants = s.constants ∧
    (Render.atGrab env s).releasedDuplications = s.releasedDuplications ∧
    (Render.atGrab env s).nextDuplication = s.nextDuplication := by
  simp only [Render.atGrab, RenderTriangle, Draw_bookkeeping, ClearRenderTargetView_bookkeeping,
    and_self]

theorem Dispatch_bookkeeping (s : State) (X Y Z : Nat) :
    (Dispatch s X Y Z).constants = s.constants ∧
    (Dispatch s X Y Z).releasedDuplications = s.releasedDuplications ∧
    (Dispatch s X Y Z).nextDuplication = s.nextDuplication := by
  unfold Dispatch
  by_cases h : s.ctx.csShader = true
  · rw [if_pos h]
    split <;> exact ⟨rfl, rfl, rfl⟩
  · rw [if_neg h]
    exact ⟨rfl, rfl, rfl⟩

theorem bindBlur_bookkeeping (env : FrameEnv) (s : State) (r : ℚ) :
    (bindBlur env s r).app = s.app ∧
    (bindBlur env s r).releasedDuplications = s.releasedDuplications ∧
    (bindBlur env s r).nextDuplication = s.nextDuplication ∧
    (bindBlur env s r).textures = s.textures ∧
    (bindBlur env s r).constants =
      (if env.mapOk = true then ⟨s.app.windowWidth, s.app.windowHeight, r, 0⟩
        else s.constants) := by
  unfold bindBlur
  by_cases h : env.mapOk = true
  · simp [h]
  · simp [h]

theorem ApplyBlurEffect_bookkeeping (env : FrameEnv) (s : State) (r : ℚ) :
    (ApplyBlurEffect env s r).releasedDuplications = s.releasedDuplications ∧
    (ApplyBlurEffect env s r).nextDuplication = s.nextDuplication := by
  unfold ApplyBlurEffect
  split_ifs
  · simp only [unbindBlur, Dispatch_bookkeeping, bindBlur_bookkeeping, and_self]
  · exact ⟨rfl, rfl⟩

theorem renderPresent_bookkeeping (env : FrameEnv) (s : State) :
    (renderPresent env s).constants = s.constants ∧
    (renderPresent env s).releasedDuplications = s.releasedDuplications ∧
    (renderPresent env s).nextDuplication = s.nextDuplication := by
  unfold renderPresent RenderBlurQuad
  simp only [Draw_bookkeeping, and_self]

theorem DuplicationsFresh.of_eq {s s' : State} (h : DuplicationsFresh s)
    (h1 : s'.app.desktopDuplication = s.app.desktopDuplication)
    (h2 : s'.releasedDuplications = s.releasedDuplications)
    (h3 : s'.nextDuplication = s.nextDuplication) : DuplicationsFresh s' := by
  unfold DuplicationsFresh
  rw [h1, h2, h3]
  exact h

/-- The access-lost branch (lines 626-633): the lost handle is released, and the
handle left is null or a new one that was never handed out before. -/
theorem access_lost_branch_fresh {s : State} (h : DuplicationsFresh s) {d : Nat}
    (hd : s.app.desktopDuplication = some d) (ok : Bool) :
    DuplicationsFresh (InitializeDesktopCapture ok
      { s with releasedDuplications := d :: s.releasedDuplications
               app := { s.app with desktopDuplication := none } }).1 := by
  obtain ⟨hcur, hrel⟩ := h
  obtain ⟨hdlt, -⟩ := hcur d hd
  unfold InitializeDesktopCapture
  cases ok
  · refine ⟨fun n hn => by simp at hn, fun r hr => ?_⟩
    simp only [Bool.false_eq_true, if_false, List.mem_cons] at hr
    rcases hr with rfl | hr
    · exact hdlt
    · exact hrel r hr
  · refine ⟨fun n hn => ?_, fun r hr => ?_⟩
    · simp only [if_true, Option.some.injEq] at hn
      subst hn
      refine ⟨Nat.lt_succ_self _, ?_⟩
      simp only [if_true, List.mem_cons, not_or]
      exact ⟨fun he => absurd hdlt (by rw [he]; exact Nat.lt_irrefl _),
        fun hm => absurd (hrel _ hm) (Nat.lt_irrefl _)⟩
    · simp only [if_true, List.mem_cons] at hr
      rcases hr with rfl | hr
      · exact Nat.lt_succ_of_lt hdlt
      · exact Nat.lt_succ_of_lt (hrel r hr)

theorem GrabDesktopBehindWindow_fresh {env : FrameEnv} {s s' : State} {b : Bool}
    (h : DuplicationsFresh s) (hg : GrabDesktopBehindWindow env s = some (s', b)) :
    DuplicationsFresh s' := by
  cases hd : s.app.desktopDuplication with
  | none => rw [GrabDesktopBehindWindow_of_null hd] at hg; exact absurd hg (by simp)
  | some d =>
    cases hr : acquireResult env with
    | DXGI_ERROR_ACCESS_LOST =>
      rw [GrabDesktopBehindWindow_of_access_lost hd hr] at hg
      simp only [Option.some.injEq, Prod.mk.injEq] at hg
      obtain ⟨rfl, -⟩ := hg
      exact access_lost_branch_fresh h hd _
    | S_OK frame =>
      rw [GrabDesktopBehindWindow_of_acquired hd hr] at hg
      simp only [Option.some.injEq, Prod.mk.injEq] at hg
      obtain ⟨rfl, -⟩ := hg
      exact h.of_eq rfl rfl rfl
    | DXGI_ERROR_WAIT_TIMEOUT =>
      have : GrabDesktopBehindWindow env s = some (s, false) := by
        unfold GrabDesktopBehindWindow
        rw [hd]
        show (match acquireResult env with
          | AcquireResult.DXGI_ERROR_WAIT_TIMEOUT => _
          | AcquireResult.DXGI_ERROR_ACCESS_LOST => _
          | AcquireResult.E_FAIL => _
          | AcquireResult.S_OK acquiredDesktopImage => _) = _
        rw [hr]
      rw [this] at hg
      simp only [Option.some.injEq, Prod.mk.injEq] at hg
      obtain ⟨rfl, -⟩ := hg
      exact h
    | E_FAIL =>
      have : GrabDesktopBehindWindow env s = some (s, false) := by
        unfold GrabDesktopBehindWindow
        rw [hd]
        show (match acquireResult env with
          | AcquireResult.DXGI_ERROR_WAIT_TIMEOUT => _
          | AcquireResult.DXGI_ERROR_ACCESS_LOST => _
          | AcquireResult.E_FAIL => _
          | AcquireResult.S_OK acquiredDesktopImage => _) = _
        rw [hr]
      rw [this] at hg
      simp only [Option.some.injEq, Prod.mk.injEq] at hg
      obtain ⟨rfl, -⟩ := hg
      exact h

theorem atGrab_fresh {s : State} (h : DuplicationsFresh s) (env : FrameEnv) :
    DuplicationsFresh (Render.atGrab env s) := by
  obtain ⟨ha, -, hr, hn⟩ := atGrab_bookkeeping env s
  exact h.of_eq (by rw [ha]) hr hn

theorem Render_fresh {env : FrameEnv} {s s' : State} (h : DuplicationsFresh s)
    (hr : Render env s = some s') : DuplicationsFresh s' := by
  unfold Render at hr
  simp only [Option.map_eq_some'] at hr
  obtain ⟨s5, h5, rfl⟩ := hr
  rw [renderCapture_eq_atGrab] at h5
  simp only [Option.map_eq_some', Prod.exists, exists_and_right, exists_eq_right] at h5
  obtain ⟨b, hg⟩ := h5
  have h5f := GrabDesktopBehindWindow_fresh (atGrab_fresh h env) hg
  refine h5f.of_eq ?_ ?_ ?_
  · rw [renderPresent_app, ApplyBlurEffect_app]
  · rw [(renderPresent_bookkeeping _ _).2.1, (ApplyBlurEffect_bookkeeping _ _ _).1]
  · rw [(renderPresent_bookkeeping _ _).2.2, (ApplyBlurEffect_bookkeeping _ _ _).2]

theorem WindowProc_fresh {m : Message} {s s' : State} (h : DuplicationsFresh s)
    (hm : WindowProc m s = some s') : DuplicationsFresh s' := by
  cases m with
  | WM_DESTROY =>
    simp only [WindowProc, Option.some.injEq] at hm
    subst hm
    exact h.of_eq rfl rfl rfl
  | WM_NCHITTEST =>
    simp only [WindowProc, Option.some.injEq] at hm
    subst hm; exact h
  | WM_SIZE lParam resizeBuffersOk createViewOk =>
    simp only [WindowProc] at hm
    by_cases hsc : s.app.swapChain = true
    · rw [if_pos hsc, Option.some.injEq] at hm
      subst hm
      exact h.of_eq rfl rfl rfl
    · rw [if_neg hsc, Option.some.injEq] at hm
      subst hm; exact h
  | WM_MOVE env =>
    simp only [WindowProc] at hm
    by_cases hsc : s.app.swapChain = true
    · rw [if_pos hsc] at hm
      exact Render_fresh h hm
    · rw [if_neg hsc, Option.some.injEq] at hm
      subst hm; exact h

/-- In every reachable state the duplication handles are fresh. -/
theorem Reachable.duplicationsFresh {s : State} (h : Reachable s) : DuplicationsFresh s := by
  induction h with
  | start memory cb =>
    refine ⟨fun d hd => ?_, fun r hr => by simp [initialState] at hr⟩
    simp only [initialState, startApp, Option.some.injEq] at hd
    subst hd
    exact ⟨Nat.zero_lt_one, by simp [initialState]⟩
  | message m _ hm ih => exact WindowProc_fresh ih hm
  | frame env _ _ hr ih => exact Render_fresh ih hr

/-- The offscreen textures when `GrabDesktopBehindWindow` is called: the desktop and
blur textures are cleared and the mask holds the triangle on a cleared ground. -/
theorem atGrab_textures {s : State} (h : WellFormed s) (env : FrameEnv) :
    (Render.atGrab env s).textures Resource.desktopTexture =
      Texture2D.fill 800 600 Float4.zero ∧
    (Render.atGrab env s).textures Resource.blurTexture =
      Texture2D.fill 800 600 Float4.zero ∧
    (∀ i j, ((Render.atGrab env s).textures Resource.maskTexture).texel i j =
      if i < 800 ∧ j < 600 then (env.triangle i j).getD Float4.zero else Float4.zero) := by
  obtain ⟨hd1, hd2⟩ := h.desktopSize
  obtain ⟨hb1, hb2⟩ := h.blurSize
  obtain ⟨hm1, hm2⟩ := h.maskSize
  rcases h.renderTargetView with hr | hr
  · simp [Render.atGrab, ClearRenderTargetView, RenderTriangle, Draw,
      DeviceContext.OMSetRenderTargets, setTexture, h.desktopRTV, h.blurOutputRTV, h.maskRTV,
      hr, hd1, hd2, hb1, hb2, hm1, hm2, Texture2D.fill]
  · simp [Render.atGrab, ClearRenderTargetView, RenderTriangle, Draw,
      DeviceContext.OMSetRenderTargets, setTexture, h.desktopRTV, h.blurOutputRTV, h.maskRTV,
      hr, hd1, hd2, hb1, hb2, hm1, hm2, Texture2D.fill]

/-- What a frame's capture step hands to `ApplyBlurEffect`, whatever the capture did:
the window size and the constants are those of the frame's start, and the blur
texture is cleared. -/
theorem renderCapture_frame {s s5 : State} (h : WellFormed s) {env : FrameEnv}
    (h5 : renderCapture env s = some s5) :
    s5.app.windowWidth = s.app.windowWidth ∧ s5.app.windowHeight = s.app.windowHeight ∧
    s5.constants = s.constants ∧
    s5.textures Resource.blurTexture = Texture2D.fill 800 600 Float4.zero := by
  rw [renderCapture_eq_atGrab] at h5
  simp only [Option.map_eq_some', Prod.exists, exists_and_right, exists_eq_right] at h5
  obtain ⟨b, hg⟩ := h5
  obtain ⟨happ, -, hc, hother, -, -⟩ := GrabDesktopBehindWindow_frame hg
  obtain ⟨ha, hc0, -, -⟩ := atGrab_bookkeeping env s
  refine ⟨?_, ?_, by rw [hc, hc0], ?_⟩
  · rw [happ, ha]
  · rw [happ, ha]
  · rw [hother _ (by decide)]
    exact (atGrab_textures h env).2.1

/-- C13.  In a frame run from a reachable state in which an acquire reports
access-lost (the first, or the second after a timeout of the first): when
`GrabDesktopBehindWindow` returns, the duplication handle is null or a newly created
one, which is neither the lost handle nor any released handle; the lost handle has
been released; the function returns no-new-frame; and no texture has been written, so
nothing was copied into the desktop texture. -/
theorem access_lost_leaves_null_or_new_handle (s : State) (hs : Reachable s)
    (env : FrameEnv) (d : Nat) (hd : s.app.desktopDuplication = some d)
    (hlost : env.acquire0 = AcquireResult.DXGI_ERROR_ACCESS_LOST ∨
      (env.acquire0 = AcquireResult.DXGI_ERROR_WAIT_TIMEOUT ∧
        env.acquire1 = AcquireResult.DXGI_ERROR_ACCESS_LOST)) :
    ∃ s', GrabDesktopBehindWindow env (Render.atGrab env s) = some (s', false) ∧
      (s'.app.desktopDuplication = none ∨
        ∃ n, s'.app.desktopDuplication = some n ∧ n ≠ d ∧ n ∉ s'.releasedDuplications ∧
          s.nextDuplication ≤ n) ∧
      s'.app.desktopDuplication ≠ some d ∧
      d ∈ s'.releasedDuplications ∧
      s'.textures = (Render.atGrab env s).textures := by
  have hr : acquireResult env = AcquireResult.DXGI_ERROR_ACCESS_LOST := by
    unfold acquireResult
    rcases hlost with h0 | ⟨h0, h1⟩
    · rw [h0]
    · rw [h0, h1]
  obtain ⟨ha, -, hrel, hnext⟩ := atGrab_bookkeeping env s
  have hd' : (Render.atGrab env s).app.desktopDuplication = some d := by rw [ha, hd]
  have hfresh := atGrab_fresh hs.duplicationsFresh env
  have hlt : d < s.nextDuplication := by
    have := (hfresh.1 d hd').1
    rwa [hnext] at this
  refine ⟨_, GrabDesktopBehindWindow_of_access_lost hd' hr, ?_, ?_, ?_, ?_⟩
  · unfold InitializeDesktopCapture
    cases env.duplicateOutputOk
    · left; rfl
    · right
      refine ⟨(Render.atGrab env s).nextDuplication, rfl, ?_, ?_, ?_⟩
      · rw [hnext]; exact Nat.ne_of_gt hlt
      · have := (access_lost_branch_fresh hfresh hd' true).1
          (Render.atGrab env s).nextDuplication rfl
        exact this.2
      · rw [hnext]
  · unfold InitializeDesktopCapture
    cases env.duplicateOutputOk
    · simp
    · simp only [if_true, ne_eq, Option.some.injEq, hnext]
      exact Nat.ne_of_gt hlt
  · unfold InitializeDesktopCapture
    cases env.duplicateOutputOk <;> simp
  · unfold InitializeDesktopCapture
    cases env.duplicateOutputOk <;> rfl

/-- Witness of C13: access-lost in the first frame after start-up, once with a failing
and once with a succeeding `DuplicateOutput`. -/
theorem access_lost_leaves_null_or_new_handle_witness :
    (∃ s', GrabDesktopBehindWindow lostFrame
        (Render.atGrab lostFrame (initialState blankMemory blankConstants)) = some (s', false) ∧
      s'.app.desktopDuplication = none ∧ 0 ∈ s'.releasedDuplications) ∧
    (∃ s', GrabDesktopBehindWindow lostRecoverFrame
        (Render.atGrab lostRecoverFrame (initialState blankMemory blankConstants)) =
          some (s', false) ∧
      s'.app.desktopDuplication = some 1 ∧ 0 ∈ s'.releasedDuplications ∧
      s'.app.desktopDuplication ≠ some 0) := by
  obtain ⟨s1, h1, -, -, hrel1, -⟩ := access_lost_leaves_null_or_new_handle
    (initialState blankMemory blankConstants) (Reachable.start _ _) lostFrame 0 rfl
    (Or.inl rfl)
  obtain ⟨s2, h2, -, hne2, hrel2, -⟩ := access_lost_leaves_null_or_new_handle
    (initialState blankMemory blankConstants) (Reachable.start _ _) lostRecoverFrame 0 rfl
    (Or.inl rfl)
  have e1 : GrabDesktopBehindWindow lostFrame
      (Render.atGrab lostFrame (initialState blankMemory blankConstants)) = some (_, false) := rfl
  have e2 : GrabDesktopBehindWindow lostRecoverFrame
      (Render.atGrab lostRecoverFrame (initialState blankMemory blankConstants)) =
        some (_, false) := rfl
  refine ⟨⟨s1, h1, ?_, hrel1⟩, ⟨s2, h2, ?_, hrel2, hne2⟩⟩
  · rw [e1] at h1
    simp only [Option.some.injEq, Prod.mk.injEq, and_true] at h1
    rw [← h1]; rfl
  · rw [e2] at h2
    simp only [Option.some.injEq, Prod.mk.injEq, and_true] at h2
    rw [← h2]; rfl

/-- C12, evaluated.  First frame after start-up: the first acquire reports access-lost
and `DuplicateOutput` fails, so the frame ends with a null `desktopDuplication`.  In
the next frame `GrabDesktopBehindWindow` calls `AcquireNextFrame` through the null
pointer: the call faults and so does `Render`, whether or not a re-creation would
succeed; no re-creation is attempted. -/
theorem null_duplication_faults_in_next_frame :
    ∃ s1, Render lostFrame (initialState blankMemory blankConstants) = some s1 ∧
      s1.app.desktopDuplication = none ∧
      captureFrame.duplicateOutputOk = true ∧
      GrabDesktopBehindWindow captureFrame (Render.atGrab captureFrame s1) = none ∧
      Render captureFrame s1 = none ∧
      Render quietFrame s1 = none :=
  ⟨_, rfl, rfl, rfl, rfl, rfl, rfl⟩

/-! ## A frame in which `Map` fails -/

theorem blurDispatches_of_wellFormed {s : State} (h : WellFormed s) :
    blurDispatches s = true := by
  simp [blurDispatches, h.blurComputeShader, h.desktopSRV]

theorem ApplyBlurEffect_constants {s : State} (h : WellFormed s) (env : FrameEnv) (r : ℚ) :
    (ApplyBlurEffect env s r).constants =
      (if env.mapOk = true then ⟨s.app.windowWidth, s.app.windowHeight, r, 0⟩
        else s.constants) := by
  unfold ApplyBlurEffect
  rw [if_pos (blurDispatches_of_wellFormed h)]
  simp only [unbindBlur, (Dispatch_bookkeeping _ _ _ _).1, (bindBlur_bookkeeping _ _ _).2.2.2.2]

/-- The state handed to `ApplyBlurEffect` in a frame that acquires a desktop image:
the image's crop box has been copied onto the cleared desktop texture. -/
theorem renderCapture_of_acquired {s : State} (h : WellFormed s) {env : FrameEnv} {d : Nat}
    {frame : Texture2D} (hdd : s.app.desktopDuplication = some d)
    (hr : acquireResult env = AcquireResult.S_OK frame) :
    ∃ s5, renderCapture env s = some s5 ∧ s5.app = s.app ∧ s5.constants = s.constants ∧
      s5.textures Resource.desktopTexture =
        CopySubresourceRegion (Texture2D.fill 800 600 Float4.zero) frame
          (sourceBox env.windowRect) ∧
      (∀ i j, (s5.textures Resource.maskTexture).texel i j =
        if i < 800 ∧ j < 600 then (env.triangle i j).getD Float4.zero else Float4.zero) := by
  obtain ⟨ha, hc, -, -⟩ := atGrab_bookkeeping env s
  obtain ⟨hdesk, -, hmask⟩ := atGrab_textures h env
  have hd' : (Render.atGrab env s).app.desktopDuplication = some d := by rw [ha, hdd]
  rw [renderCapture_eq_atGrab, GrabDesktopBehindWindow_of_acquired hd' hr]
  refine ⟨_, rfl, ha, hc, ?_, ?_⟩
  · simp only [setTexture, if_true, hdesk]
  · intro i j
    simp only [setTexture]
    rw [if_neg (by decide)]
    exact hmask i j

/-- C11, as amended.  In a frame run from a reachable state in which `Map` fails,
`ApplyBlurEffect` dispatches all the same: at the `Dispatch` call the compute shader,
the desktop at `t0`, the mask at `t1` and `blurOutput` at `u0` are bound, the constant
buffer holds what it held before the frame, and the frame's `blurOutput` is what the
dispatched threads write, with those constants, on the cleared blur texture. -/
theorem map_failure_dispatches_with_previous_constants (s : State) (hs : Reachable s)
    (env : FrameEnv) (s5 : State) (hmap : env.mapOk = false)
    (h5 : renderCapture env s = some s5) :
    ∃ d s', Render.atDispatch env s = some d ∧ Render env s = some s' ∧
      d.ctx.csShader = true ∧
      d.ctx.csShaderResources 0 = some ⟨Resource.desktopTexture⟩ ∧
      d.ctx.csShaderResources 1 = some ⟨Resource.maskTexture⟩ ∧
      d.ctx.csUnorderedAccessViews 0 = some ⟨Resource.blurTexture⟩ ∧
      d.constants = s.constants ∧
      s'.textures Resource.blurTexture =
        runThreads s.constants (s5.textures Resource.desktopTexture)
          (s5.textures Resource.maskTexture) (Texture2D.fill 800 600 Float4.zero)
          ((dispatchThreads (dispatchSize s.app.windowWidth s.app.windowHeight).1
            (dispatchSize s.app.windowWidth s.app.windowHeight).2.1
            (dispatchSize s.app.windowWidth s.app.windowHeight).2.2).map
              SV_DispatchThreadID) := by
  have hwf5 := renderCapture_wellFormed hs.wellFormed h5
  obtain ⟨hw, hh, hc, hblur⟩ := renderCapture_frame hs.wellFormed h5
  obtain ⟨-, ht0, ht1, -, hu0, -, hcs, -⟩ := bindBlur_bindings hwf5 env defaultBlurRadius
  have hne : ¬ env.mapOk = true := by rw [hmap]; decide
  refine ⟨bindBlur env s5 defaultBlurRadius,
    renderPresent env (ApplyBlurEffect env s5 defaultBlurRadius), ?_, ?_, hcs, ht0, ht1, hu0,
    ?_, ?_⟩
  · simp [Render.atDispatch, h5, blurDispatches_of_wellFormed hwf5]
  · simp [Render, h5]
  · rw [(bindBlur_bookkeeping env s5 _).2.2.2.2, if_neg hne, hc]
  · rw [renderPresent_textures (ApplyBlurEffect_wellFormed hwf5 env _) env _ (by decide),
      ApplyBlurEffect_textures hwf5, if_neg hne]
    simp only [setTexture, if_true, hc, hblur, hw, hh, dispatchSize]

/-- Witness of C11 (amended): the first frame after start-up, with a failing `Map`. -/
theorem map_failure_dispatches_with_previous_constants_witness :
    mapFailFrame.mapOk = false ∧
    ∃ d s', Render.atDispatch mapFailFrame (initialState blankMemory blankConstants) = some d ∧
      Render mapFailFrame (initialState blankMemory blankConstants) = some s' ∧
      d.ctx.csShader = true ∧ d.constants = blankConstants := by
  obtain ⟨d, s', h1, h2, h3, -, -, -, h7, -⟩ :=
    map_failure_dispatches_with_previous_constants (initialState blankMemory blankConstants)
      (Reachable.start blankMemory blankConstants) mapFailFrame _ rfl rfl
  exact ⟨rfl, d, s', h1, h2, h3, h7⟩

/-- The blur texture at the end of a frame, texel by texel, when `Map` fails: as after
a successful `Map`, but with the constants the buffer held before. -/
theorem blur_texel_after_frame_of_map_failure {s : State} (h : WellFormed s) (env : FrameEnv)
    (hmap : env.mapOk = false) (r : ℚ) (x y : Nat) :
    ((renderPresent env (ApplyBlurEffect env s r)).textures Resource.blurTexture).texel x y =
      if (x < 8 * ((s.app.windowWidth + 7) / 8) ∧ y < 8 * ((s.app.windowHeight + 7) / 8)) ∧
          x < 800 ∧ y < 600 then
        (main s.constants (s.textures Resource.desktopTexture)
          (s.textures Resource.maskTexture) x y).stored.getD
          ((s.textures Resource.blurTexture).texel x y)
      else (s.textures Resource.blurTexture).texel x y := by
  have hne : ¬ env.mapOk = true := by rw [hmap]; decide
  rw [renderPresent_textures (ApplyBlurEffect_wellFormed h env _) env _ (by decide),
    ApplyBlurEffect_textures h, if_neg hne]
  simp only [setTexture, if_true]
  rw [runThreads_texel, h.blurSize.1, h.blurSize.2]
  simp only [exists_dispatchID_iff]

/-- Counterexample to C11.  First frame after start-up: both acquires time out and
`Map` succeeds; `blurOutput` is `(0, 0, 0, 0)` at pixel `(400, 300)`.  Second frame: a
white desktop image is captured and `Map` fails.  `Dispatch` is issued with the
compute shader, the desktop and `blurOutput` bound, and the frame's `blurOutput` at
`(400, 300)` is white, not the previous frame's. -/
theorem map_failure_does_not_skip_the_dispatch :
    ∃ s1 s2 d2,
      Render quietFrame (initialState blankMemory blankConstants) = some s1 ∧
      mapFailFrame.mapOk = false ∧
      Render.atDispatch mapFailFrame s1 = some d2 ∧
      Render mapFailFrame s1 = some s2 ∧
      d2.ctx.csShader = true ∧
      d2.ctx.csShaderResources 0 = some ⟨Resource.desktopTexture⟩ ∧
      d2.ctx.csUnorderedAccessViews 0 = some ⟨Resource.blurTexture⟩ ∧
      (s1.textures Resource.blurTexture).texel 400 300 = ⟨0, 0, 0, 0⟩ ∧
      (s2.textures Resource.blurTexture).texel 400 300 = ⟨1, 1, 1, 1⟩ := by
  have hwf0 := initialState_wellFormed blankMemory blankConstants
  obtain ⟨s5, h5, happ5, -, hdesk5, hblur5, -⟩ :=
    renderCapture_of_timeout (d := 0) hwf0 rfl (rfl : quietFrame.acquire0 = _)
      (rfl : quietFrame.acquire1 = _)
  have hwf5 := renderCapture_wellFormed hwf0 h5
  have hR1 : Render quietFrame (initialState blankMemory blankConstants) =
      some (renderPresent quietFrame (ApplyBlurEffect quietFrame s5 defaultBlurRadius)) := by
    simp [Render, h5]
  have hwf1 := Render_wellFormed hwf0 hR1
  have happ1 : (renderPresent quietFrame
      (ApplyBlurEffect quietFrame s5 defaultBlurRadius)).app = startApp := by
    rw [renderPresent_app, ApplyBlurEffect_app, happ5]; rfl
  have hconst1 : (renderPresent quietFrame
      (ApplyBlurEffect quietFrame s5 defaultBlurRadius)).constants =
        ⟨800, 600, defaultBlurRadius, 0⟩ := by
    have hq : quietFrame.mapOk = true := rfl
    rw [(renderPresent_bookkeeping _ _).1, ApplyBlurEffect_constants hwf5, if_pos hq, happ5]
    rfl
  obtain ⟨s6, h6, happ6, hconst6, hdesk6, hmask6⟩ :=
    renderCapture_of_acquired (d := 0) hwf1 (by rw [happ1]; rfl)
      (rfl : acquireResult mapFailFrame =
        AcquireResult.S_OK (Texture2D.fill 1920 1080 ⟨1, 1, 1, 1⟩))
  have hwf6 := renderCapture_wellFormed hwf1 h6
  obtain ⟨-, ht0, -, -, hu0, -, hcs, -⟩ := bindBlur_bindings hwf6 mapFailFrame defaultBlurRadius
  refine ⟨_, renderPresent mapFailFrame (ApplyBlurEffect mapFailFrame s6 defaultBlurRadius),
    bindBlur mapFailFrame s6 defaultBlurRadius, hR1, rfl, ?_, ?_, hcs, ht0, hu0, ?_, ?_⟩
  · simp [Render.atDispatch, h6, blurDispatches_of_wellFormed hwf6]
  · simp [Render, h6]
  · rw [blur_texel_after_frame hwf5 quietFrame rfl, hdesk5, hblur5]
    have hz := main_of_zero_desktop
      ⟨s5.app.windowWidth, s5.app.windowHeight, defaultBlurRadius, 0⟩
      (Texture2D.fill 800 600 Float4.zero) (s5.textures Resource.maskTexture)
      (load_fill_zero 800 600) (by norm_num [defaultBlurRadius]) 400 300
    split_ifs
    · rcases hz with hz | hz
      · rw [hz]; rfl
      · rw [hz]; rfl
    · rfl
  · rw [blur_texel_after_frame_of_map_failure hwf6 mapFailFrame rfl, happ6, happ1, hconst6,
      hconst1]
    have hM : ((s6.textures Resource.maskTexture).load 400 300).a = 1 := by
      simp [Texture2D.load, hwf6.maskSize.1, hwf6.maskSize.2, hmask6, mapFailFrame,
        captureFrame, quietFrame]
    have huni : ∀ i j, i < 800 → j < 600 →
        (s6.textures Resource.desktopTexture).texel i j = ⟨1, 1, 1, 1⟩ := by
      intro i j hi hj
      rw [hdesk6]
      show (if i < 800 ∧ j < 600 then (⟨1, 1, 1, 1⟩ : Float4) else Float4.zero) = _
      rw [if_pos ⟨hi, hj⟩]
    rw [if_pos (by decide)]
    show (main ⟨800, 600, defaultBlurRadius, 0⟩ _ _ 400 300).stored.getD _ = _
    rw [main_of_white_desktop _ _ hwf6.desktopSize.1 hwf6.desktopSize.2 huni hM]
    rfl

/-! ## The crop box -/

/-- C16.  For every window rectangle of signed 32-bit coordinates: the source box of
`GrabDesktopBehindWindow` is the rectangle taken modulo `2^32`, with front 0 and back
1; when a frame is acquired the function copies that box to `(0, 0)` of the desktop
texture and returns success; and for a window partly off the left edge (`left < 0 ≤
right`) or the top edge (`top < 0 ≤ bottom`) the box has `right < left` or `bottom <
top`, an empty box, so the copy changes nothing and the function still returns
success. -/
theorem crop_box_is_window_rect_mod_two_pow_32 (rect : RECT)
    (hl : -2147483648 ≤ rect.left ∧ rect.left < 2147483648)
    (ht : -2147483648 ≤ rect.top ∧ rect.top < 2147483648)
    (hr : -2147483648 ≤ rect.right ∧ rect.right < 2147483648)
    (hb : -2147483648 ≤ rect.bottom ∧ rect.bottom < 2147483648) :
    sourceBox rect =
      { left := (rect.left % 2 ^ 32).toNat, top := (rect.top % 2 ^ 32).toNat, front := 0,
        right := (rect.right % 2 ^ 32).toNat, bottom := (rect.bottom % 2 ^ 32).toNat,
        back := 1 } ∧
    (∀ (env : FrameEnv) (s : State) (d : Nat) (frame : Texture2D),
      env.windowRect = rect → s.app.desktopDuplication = some d →
      acquireResult env = AcquireResult.S_OK frame →
      GrabDesktopBehindWindow env s =
        some ({ s with textures := setTexture s.textures Resource.desktopTexture
                                     (CopySubresourceRegion
                                       (s.textures Resource.desktopTexture) frame
                                       (sourceBox rect)) }, true)) ∧
    (rect.left < 0 → 0 ≤ rect.right → (sourceBox rect).right < (sourceBox rect).left) ∧
    (rect.top < 0 → 0 ≤ rect.bottom → (sourceBox rect).bottom < (sourceBox rect).top) ∧
    ((rect.left < 0 ∧ 0 ≤ rect.right) ∨ (rect.top < 0 ∧ 0 ≤ rect.bottom) →
      ∀ dst src : Texture2D, CopySubresourceRegion dst src (sourceBox rect) = dst) := by
  have hleft : rect.left < 0 → 0 ≤ rect.right →
      (sourceBox rect).right < (sourceBox rect).left := by
    intro h1 h2
    simp only [sourceBox, toUINT]
    omega
  have htop : rect.top < 0 → 0 ≤ rect.bottom →
      (sourceBox rect).bottom < (sourceBox rect).top := by
    intro h1 h2
    simp only [sourceBox, toUINT]
    omega
  refine ⟨by simp only [sourceBox, toUINT]; norm_num, ?_, hleft, htop, ?_⟩
  · intro env s d frame hrect hd hacq
    rw [GrabDesktopBehindWindow_of_acquired hd hacq, hrect]
  · intro hoff dst src
    unfold CopySubresourceRegion
    rcases hoff with ⟨h1, h2⟩ | ⟨h1, h2⟩
    · rw [if_pos (Or.inl (Nat.le_of_lt (hleft h1 h2)))]
    · rw [if_pos (Or.inr (Or.inl (Nat.le_of_lt (htop h1 h2))))]

/-- Witness of C16: a window 100 pixels off the left edge of the screen. -/
theorem crop_box_is_window_rect_mod_two_pow_32_witness :
    sourceBox ⟨-100, 50, 700, 650⟩ =
      { left := 4294967196, top := 50, front := 0, right := 700, bottom := 650, back := 1 } ∧
    (sourceBox ⟨-100, 50, 700, 650⟩).right < (sourceBox ⟨-100, 50, 700, 650⟩).left ∧
    ∃ s', GrabDesktopBehindWindow { captureFrame with windowRect := ⟨-100, 50, 700, 650⟩ }
        (initialState blankMemory blankConstants) = some (s', true) ∧
      s'.textures Resource.desktopTexture =
        (initialState blankMemory blankConstants).textures Resource.desktopTexture := by
  have h := crop_box_is_window_rect_mod_two_pow_32 ⟨-100, 50, 700, 650⟩
    ⟨by decide, by decide⟩ ⟨by decide, by decide⟩ ⟨by decide, by decide⟩
    ⟨by decide, by decide⟩
  refine ⟨by rw [h.1]; decide, h.2.2.1 (by decide) (by decide), _,
    h.2.1 { captureFrame with windowRect := ⟨-100, 50, 700, 650⟩ } _ 0
      (Texture2D.fill 1920 1080 ⟨1, 1, 1, 1⟩) rfl rfl rfl, ?_⟩
  simp only [setTexture, if_true]
  exact h.2.2.2.2 (Or.inl ⟨by decide, by decide⟩) _ _

/-! ## The edge-clamp scenario -/

theorem foldl_flatMap_eq {α β γ : Type} (g : α → List β) (f : γ → β → γ) :
    ∀ (l : List α) (b : γ),
      (l.flatMap g).foldl f b = l.foldl (fun b a => (g a).foldl f b) b := by
  intro l
  induction l with
  | nil => intro b; rfl
  | cons a l ih =>
    intro b
    rw [List.flatMap_cons, List.foldl_append, ih, List.foldl_cons]

/-- The loops accumulate exactly the texels at the coordinates of `blurSamples`. -/
theorem blurFold_eq_foldl_blurSamples (rnd : ℚ → ℚ) (cb : BlurConstants) (I : Texture2D)
    (idx idy : Nat) (radius : Int) :
    blurFold rnd cb I idx idy radius =
      (blurSamples cb idx idy radius).foldl
        (fun acc p => (acc.1.add rnd (I.load p.1 p.2), rnd (acc.2 + 1))) (Float4.zero, 0) := by
  unfold blurFold blurSamples
  rw [foldl_flatMap_eq]
  simp only [List.foldl_map]

/-- For a radius in `[0, INT_MAX)` the loops of the shader are left after accumulating
exactly the texels at the coordinates of `blurSamples`, in that order. -/
theorem blurLoops_eq_foldl_blurSamples (rnd : ℚ → ℚ) (cb : BlurConstants) (I : Texture2D)
    (idx idy : Nat) {radius : Int} (h0 : 0 ≤ radius) (h1 : radius < INT_MAX) :
    blurLoops rnd loopFuel cb I idx idy radius =
      some ((blurSamples cb idx idy radius).foldl
        (fun acc p => (acc.1.add rnd (I.load p.1 p.2), rnd (acc.2 + 1))) (Float4.zero, 0)) := by
  rw [blurLoops_eq_blurFold rnd cb I idx idy h0 h1 (loopFuel_enough h1),
    blurFold_eq_foldl_blurSamples]

/-- The value the shader writes at pixel `(0, 0)` in the edge-clamp scenario. -/
theorem main_edge_scenario :
    main ⟨8, 8, 2, 0⟩ edgeDesktop edgeMask 0 0 =
      ThreadResult.returned (some ⟨9 / 25 / 255, 9 / 25 / 255, 9 / 25 / 255, 1⟩) := by
  have hI : Finset.Icc (-2 : ℤ) 2 = {-2, -1, 0, 1, 2} := by decide
  have hf : ⌊(2 : ℚ)⌋ = 2 := by norm_num
  rw [main_eq_boxMean (w := 8) (h := 8) edgeDesktop edgeMask 2 0 rfl rfl (by norm_num)
    (by rw [hf]; decide) (Or.inr (by rw [hf]; decide)) (Or.inr (by rw [hf]; decide))
    (by decide) (by decide) (by norm_num [edgeMask, Texture2D.load, Texture2D.fill])]
  simp only [hf, boxMean, hI]
  norm_num [edgeDesktop, edgeMask, clampIndex, Texture2D.load, Texture2D.fill]

theorem toUNORM8_edge_average : toUNORM8 (9 / 25 / 255) = 0 ∧ toUNORM8 1 = 255 := by
  unfold toUNORM8
  constructor
  · have h : ⌊min (max (9 / 25 / 255 : ℚ) 0) 1 * 255 + 1 / 2⌋ = 0 := by
      rw [Int.floor_eq_iff]
      norm_num
    rw [h]; rfl
  · have h : ⌊min (max (1 : ℚ) 0) 1 * 255 + 1 / 2⌋ = 255 := by
      rw [Int.floor_eq_iff]
      norm_num
    rw [h]; rfl

/-- C15, as amended.  In the edge-clamp scenario (8 x 8 desktop with `(1, 1, 1, 255)`
at texel `(0, 0)` and `(0, 0, 0, 255)` elsewhere, mask alpha 1, radius 2) the shader
takes 25 samples for output pixel `(0, 0)`: 9 of the texel holding "1" (the offsets
`-2, -1, 0` all clamp to 0, in `x` and in `y`) and 16 of texels holding "0".  The
exact colour average is `9/25` of a byte per colour channel with alpha 255, which
quantises to `(0, 0, 0, 255)`. -/
theorem edge_clamp_average_is_nine_twentyfifths :
    (blurSamples ⟨8, 8, 2, 0⟩ 0 0 (ftoi 2)).length = 25 ∧
    ((blurSamples ⟨8, 8, 2, 0⟩ 0 0 (ftoi 2)).filter (fun p => p = (0, 0))).length = 9 ∧
    ((blurSamples ⟨8, 8, 2, 0⟩ 0 0 (ftoi 2)).filter (fun p => p ≠ (0, 0))).length = 16 ∧
    main ⟨8, 8, 2, 0⟩ edgeDesktop edgeMask 0 0 =
      ThreadResult.returned (some ⟨9 / 25 / 255, 9 / 25 / 255, 9 / 25 / 255, 1⟩) ∧
    (main ⟨8, 8, 2, 0⟩ edgeDesktop edgeMask 0 0).stored.map quantise =
      some (0, 0, 0, 255) := by
  refine ⟨by decide, by decide, by decide, main_edge_scenario, ?_⟩
  rw [main_edge_scenario]
  simp only [ThreadResult.stored, Option.map_some', quantise, toUNORM8_edge_average.1,
    toUNORM8_edge_average.2]

/-- Counterexample to C15.  Of the 25 samples for output pixel `(0, 0)`, nine (not
one) are of the texel holding "1", and the value written is not the average of one
"1" and 24 "0". -/
theorem edge_clamp_samples_the_corner_nine_times :
    ((blurSamples ⟨8, 8, 2, 0⟩ 0 0 (ftoi 2)).filter (fun p => p = (0, 0))).length = 9 ∧
    ((blurSamples ⟨8, 8, 2, 0⟩ 0 0 (ftoi 2)).filter (fun p => p = (0, 0))).length ≠ 1 ∧
    main ⟨8, 8, 2, 0⟩ edgeDesktop edgeMask 0 0 ≠
      ThreadResult.returned (some ⟨(1 * 1 + 24 * 0) / 25 / 255, (1 * 1 + 24 * 0) / 25 / 255,
        (1 * 1 + 24 * 0) / 25 / 255, 1⟩) := by
  refine ⟨by decide, by decide, ?_⟩
  rw [main_edge_scenario]
  intro h
  have h' := congrArg (fun o => o.stored.map Float4.r) h
  simp only [ThreadResult.stored, Option.map_some', Option.some.injEq] at h'
  norm_num at h'

/-! ## Exit codes of `WinMain` -/

/-- When every initialisation call succeeds the main loop starts in `initialState`. -/
theorem startState_allOk (memory : Resource → Nat → Nat → Float4) (cb : BlurConstants) :
    startState allOk memory cb = initialState memory cb := by
  have ht : (fun r : Resource =>
      match r with
      | Resource.backBuffer => (⟨800, 600, memory r⟩ : Texture2D)
      | Resource.desktopTexture => ⟨800, 600, memory r⟩
      | Resource.maskTexture => ⟨800, 600, memory r⟩
      | Resource.blurTexture => ⟨800, 600, memory r⟩) = fun r => ⟨800, 600, memory r⟩ := by
    funext r
    cases r <;> rfl
  simp [startState, initialState, allOk, InitializeDesktopCapture, createdView, startApp, ht]

theorem Render_isRunning {env : FrameEnv} {s s' : State} (hr : Render env s = some s') :
    s'.app.isRunning = s.app.isRunning := by
  unfold Render at hr
  simp only [Option.map_eq_some'] at hr
  obtain ⟨s5, h5, rfl⟩ := hr
  rw [renderCapture_eq_atGrab] at h5
  simp only [Option.map_eq_some', Prod.exists, exists_and_right, exists_eq_right] at h5
  obtain ⟨b, hg⟩ := h5
  obtain ⟨happ, -, -, -, -, -⟩ := GrabDesktopBehindWindow_frame hg
  rw [renderPresent_app, ApplyBlurEffect_app, happ, (atGrab_bookkeeping env s).1]

theorem WindowProc_isRunning {m : Message} {s s' : State} (hm : WindowProc m s = some s')
    (hstop : s'.app.isRunning = false) : s.app.isRunning = false ∨ m.isDestroy = true := by
  cases m with
  | WM_DESTROY => exact Or.inr rfl
  | WM_NCHITTEST =>
    simp only [WindowProc, Option.some.injEq] at hm
    subst hm; exact Or.inl hstop
  | WM_SIZE lParam resizeBuffersOk createViewOk =>
    simp only [WindowProc] at hm
    by_cases hsc : s.app.swapChain = true
    · rw [if_pos hsc, Option.some.injEq] at hm
      subst hm; exact Or.inl hstop
    · rw [if_neg hsc, Option.some.injEq] at hm
      subst hm; exact Or.inl hstop
  | WM_MOVE env =>
    simp only [WindowProc] at hm
    by_cases hsc : s.app.swapChain = true
    · rw [if_pos hsc] at hm
      rw [Render_isRunning hm] at hstop
      exact Or.inl hstop
    · rw [if_neg hsc, Option.some.injEq] at hm
      subst hm; exact Or.inl hstop

theorem dispatchMessages_isRunning :
    ∀ (ms : List Message) {s s' : State}, dispatchMessages ms s = some s' →
      s'.app.isRunning = false → s.app.isRunning = false ∨ ms.any Message.isDestroy = true := by
  intro ms
  induction ms with
  | nil =>
    intro s s' h hstop
    simp only [dispatchMessages, Option.some.injEq] at h
    subst h; exact Or.inl hstop
  | cons m ms ih =>
    intro s s' h hstop
    simp only [dispatchMessages] at h
    obtain ⟨s1, h1, h2⟩ := Option.bind_eq_some.mp h
    rcases ih h2 hstop with h3 | h3
    · rcases WindowProc_isRunning h1 h3 with h4 | h4
      · exact Or.inl h4
      · exact Or.inr (by simp [h4])
    · exact Or.inr (by simp [h3])

/-- The main loop ends only with exit code 0, and when it was entered running it ends
only after a `WM_DESTROY`. -/
theorem mainLoop_exit :
    ∀ (steps : List LoopStep) (s : State) (n : Nat) (code : Int) (m : Nat),
      mainLoop steps s n = Outcome.exit code m →
        code = 0 ∧ (s.app.isRunning = false ∨
          steps.any (fun st => st.messages.any Message.isDestroy) = true) := by
  intro steps
  induction steps with
  | nil =>
    intro s n code m h
    simp only [mainLoop] at h
    split_ifs at h with hrun
    · simp only [Outcome.exit.injEq] at h
      exact ⟨h.1.symm, Or.inl (by simpa using hrun)⟩
  | cons step rest ih =>
    intro s n code m h
    simp only [mainLoop] at h
    by_cases hrun : s.app.isRunning = true
    · rw [if_pos hrun] at h
      cases hd : dispatchMessages step.messages s with
      | none => rw [hd] at h; exact absurd h (by simp)
      | some s1 =>
        rw [hd] at h
        simp only at h
        by_cases hrun1 : s1.app.isRunning = true
        · rw [if_pos hrun1] at h
          cases hr : Render step.frame s1 with
          | none => rw [hr] at h; exact absurd h (by simp)
          | some s2 =>
            rw [hr] at h
            simp only at h
            obtain ⟨hc, hcl⟩ := ih s2 (n + 1) code m h
            refine ⟨hc, Or.inr ?_⟩
            rcases hcl with h2 | h2
            · rw [Render_isRunning hr, hrun1] at h2
              exact absurd h2 (by simp)
            · simp [h2]
        · rw [if_neg hrun1] at h
          simp only [Outcome.exit.injEq] at h
          refine ⟨h.1.symm, ?_⟩
          rcases dispatchMessages_isRunning _ hd (by simpa using hrun1) with h2 | h2
          · exact Or.inl h2
          · exact Or.inr (by simp [h2])
    · rw [if_neg hrun] at h
      simp only [Outcome.exit.injEq] at h
      exact ⟨h.1.symm, Or.inl (by simpa using hrun)⟩

/-- C14, as amended.  `WinMain` returns -1, without rendering a frame, exactly when
`InitializeWindow` or `InitializeDirectX` fails (window, device, swap chain or
back-buffer view).  When both succeed it enters the main loop whatever
`InitializeTriangle`, `InitializeDesktopCapture`, `InitializeQuad` and
`InitializeBlurComputeShader` return: every exit code it then returns is 0, it returns
only after a `WM_DESTROY`, and it returns 0 when the window is closed while it is
shown. -/
theorem WinMain_exit_codes (init : InitEnv) (memory : Resource → Nat → Nat → Float4)
    (cb : BlurConstants) (shown : List Message) (loop : List LoopStep) :
    (InitializeWindow init = false ∨ InitializeDirectX init = false →
      WinMain init memory cb shown loop = Outcome.exit (-1) 0) ∧
    (InitializeWindow init = true → InitializeDirectX init = true →
      (∀ code n, WinMain init memory cb shown loop = Outcome.exit code n →
        code = 0 ∧
        (shown.any Message.isDestroy = true ∨
          loop.any (fun st => st.messages.any Message.isDestroy) = true)) ∧
      WinMain init memory cb [Message.WM_DESTROY] loop = Outcome.exit 0 0) := by
  constructor
  · intro hfail
    unfold WinMain
    rcases hfail with hw | hd
    · rw [hw]; rfl
    · rw [hd]
      cases InitializeWindow init <;> rfl
  · intro hw hd
    constructor
    · intro code n h
      unfold WinMain at h
      rw [hw, hd] at h
      simp only [if_true] at h
      cases hs : dispatchMessages shown (startState init memory cb) with
      | none => rw [hs] at h; exact absurd h (by simp)
      | some s =>
        rw [hs] at h
        simp only at h
        obtain ⟨hc, hcl⟩ := mainLoop_exit loop s 0 code n h
        refine ⟨hc, ?_⟩
        rcases hcl with h1 | h1
        · rcases dispatchMessages_isRunning shown hs h1 with h2 | h2
          · have hrun : (startState init memory cb).app.isRunning = true := by
              unfold startState InitializeDesktopCapture
              cases init.duplicateOutput <;> rfl
            rw [hrun] at h2
            exact absurd h2 (by simp)
          · exact Or.inl h2
        · exact Or.inr h1
    · unfold WinMain
      rw [hw, hd]
      simp only [if_true, dispatchMessages, WindowProc, Option.some_bind]
      cases loop <;> rfl

/-- Witness of C14 (amended): a failing swap chain gives -1; with a pixel shader that
does not compile the close of the shown window gives 0. -/
theorem WinMain_exit_codes_witness :
    WinMain { allOk with createSwapChain := false } blankMemory blankConstants []
      [⟨[], emptyMaskFrame⟩] = Outcome.exit (-1) 0 ∧
    WinMain { allOk with compileTrianglePS := false } blankMemory blankConstants
      [Message.WM_DESTROY] [⟨[], emptyMaskFrame⟩] = Outcome.exit 0 0 :=
  ⟨(WinMain_exit_codes { allOk with createSwapChain := false } blankMemory blankConstants []
      [⟨[], emptyMaskFrame⟩]).1 (Or.inr rfl),
    ((WinMain_exit_codes { allOk with compileTrianglePS := false } blankMemory blankConstants
      [] [⟨[], emptyMaskFrame⟩]).2 rfl rfl).2⟩

/-- Counterexample to C14.  The triangle's pixel shader does not compile, so
`InitializeTriangle` fails; every other call succeeds.  `WinMain` enters the main
loop, renders a frame, and returns 0 when the window is closed. -/
theorem failed_shader_compile_is_not_fatal :
    InitializeTriangle { allOk with compileTrianglePS := false } = false ∧
    WinMain { allOk with compileTrianglePS := false } blankMemory blankConstants []
      [⟨[], emptyMaskFrame⟩, ⟨[Message.WM_DESTROY], emptyMaskFrame⟩] = Outcome.exit 0 1 :=
  ⟨rfl, rfl⟩

end BackdropFilter
